import Mathlib

/-!
# Hand tracker and point processor of the astra plugins

A shallow embedding of
* `src/plugins/orbbec_hand/HandTracker.cpp` (hand frame emission, per-frame stage order),
* `src/plugins/orbbec_xs/PointProcessor.cpp` (depth to world projection),
followed by the properties established about them.

Conventions: `float` values are rationals (exact arithmetic), C `int` values that are only
copied or counted are `Int` / `Nat`, a pointer into a buffer is a list together with an index,
and a pointer that may be `nullptr` is an `Option`.
-/

/-! ## Data model -/

/-- Modelled from the spec: the `TrackingStatus` enumeration (section 3, `trackingStatus`),
whose declaration is in the header `TrackedPoint.h`. -/
inductive TrackingStatus where
  | NotTracking
  | Tracking
  | Lost
  | Dead
  deriving DecidableEq

/-- Modelled from the spec: the `TrackedPointType` enumeration (section 3, `pointType`),
whose declaration is in the header `TrackedPoint.h`. -/
inductive TrackedPointType where
  | CandidatePoint
  | ActivePoint
  deriving DecidableEq

/-- Modelled from the spec: the status of an emitted hand record (section 3, `HandRecord`),
with the constant names used by `convert_hand_status`. -/
inductive astra_handstatus_t where
  | HAND_STATUS_NOTTRACKING
  | HAND_STATUS_TRACKING
  | HAND_STATUS_LOST
  | HAND_STATUS_CANDIDATE
  deriving DecidableEq

/-- The integer pixel `cv::Point`. -/
structure cvPoint where
  x : Int
  y : Int
  deriving DecidableEq

/-- The `cv::Point3f`, with exact coordinates. -/
structure cvPoint3f where
  x : ℚ
  y : ℚ
  z : ℚ
  deriving DecidableEq

/-- The C struct `astra_vector2i_t`. -/
structure astra_vector2i_t where
  x : Int
  y : Int
  deriving DecidableEq

/-- The C struct `astra_vector3f_t`, with exact coordinates. -/
structure astra_vector3f_t where
  x : ℚ
  y : ℚ
  z : ℚ
  deriving DecidableEq

/-- Modelled from the spec: the fields of a `TrackedPoint` (section 3) that
`update_hand_frame` reads; the struct is declared in `TrackedPoint.h`. -/
structure TrackedPoint where
  trackingId : Int
  fullSizePosition : cvPoint
  fullSizeWorldPosition : cvPoint3f
  fullSizeWorldDeltaPosition : cvPoint3f
  trackingStatus : TrackingStatus
  pointType : TrackedPointType
  deriving DecidableEq

/-- Modelled from the spec: a `HandRecord` (section 3), with the field names that
`update_hand_frame` and `reset_hand_point` assign. -/
structure astra_handpoint_t where
  trackingId : Int
  status : astra_handstatus_t
  depthPosition : astra_vector2i_t
  worldPosition : astra_vector3f_t
  worldDeltaPosition : astra_vector3f_t
  deriving DecidableEq

/-- The struct `_astra_handframe`: `handpoints` is the record buffer the pointer refers to,
`handCount` the count field. -/
structure astra_handframe where
  handpoints : List astra_handpoint_t
  handCount : Nat
  deriving DecidableEq

/-- The struct `astra_handframe_wrapper_t` handed out by `begin_write`: the frame header and the
record storage `frame_data` behind it. -/
structure astra_handframe_wrapper_t where
  frame : astra_handframe
  frame_data : List astra_handpoint_t
  deriving DecidableEq

/-! ## `HandTracker`: writing the hand frame -/

/-- The method `HandTracker::copy_position`. -/
def HandTracker.copy_position (source : cvPoint3f) (_target : astra_vector3f_t) :
    astra_vector3f_t :=
  { x := source.x, y := source.y, z := source.z }

/-- The method `HandTracker::convert_hand_status`. -/
def HandTracker.convert_hand_status (status : TrackingStatus) (type : TrackedPointType) :
    astra_handstatus_t :=
  if type = TrackedPointType.CandidatePoint then
    astra_handstatus_t.HAND_STATUS_CANDIDATE
  else
    match status with
    | TrackingStatus.Tracking => astra_handstatus_t.HAND_STATUS_TRACKING
    | TrackingStatus.Lost => astra_handstatus_t.HAND_STATUS_LOST
    | TrackingStatus.Dead => astra_handstatus_t.HAND_STATUS_NOTTRACKING
    | TrackingStatus.NotTracking => astra_handstatus_t.HAND_STATUS_NOTTRACKING

/-- The method `HandTracker::reset_hand_point`. -/
def HandTracker.reset_hand_point (point : astra_handpoint_t) : astra_handpoint_t :=
  { point with
    trackingId := -1
    status := astra_handstatus_t.HAND_STATUS_NOTTRACKING
    depthPosition := { x := 0, y := 0 }
    worldPosition := { x := 0, y := 0, z := 0 }
    worldDeltaPosition := { x := 0, y := 0, z := 0 } }

/-- Applies `f` to the record that `handpoints[i]` refers to. -/
def at_handpoint (handpoints : List astra_handpoint_t) (i : Nat)
    (f : astra_handpoint_t → astra_handpoint_t) : List astra_handpoint_t :=
  match handpoints[i]? with
  | some point => handpoints.set i (f point)
  | none => handpoints

/-- The assignments of `update_hand_frame` to the record `point` (lines 425 to 433). -/
def HandTracker.write_hand_point (internalPoint : TrackedPoint) (point : astra_handpoint_t) :
    astra_handpoint_t :=
  { point with
    trackingId := internalPoint.trackingId
    depthPosition := { x := internalPoint.fullSizePosition.x, y := internalPoint.fullSizePosition.y }
    worldPosition := HandTracker.copy_position internalPoint.fullSizeWorldPosition point.worldPosition
    worldDeltaPosition :=
      HandTracker.copy_position internalPoint.fullSizeWorldDeltaPosition point.worldDeltaPosition
    status := HandTracker.convert_hand_status internalPoint.trackingStatus internalPoint.pointType }

/-- The loop variables of `update_hand_frame`: the write index and the record buffer. -/
structure HandCursor where
  handIndex : Nat
  handpoints : List astra_handpoint_t
  deriving DecidableEq

/-- The test `includeByStatus` of `update_hand_frame`. -/
def HandTracker.includeByStatus (internalPoint : TrackedPoint) : Bool :=
  internalPoint.trackingStatus == TrackingStatus.Tracking ||
    internalPoint.trackingStatus == TrackingStatus.Lost

/-- The test `includeByType` of `update_hand_frame`. -/
def HandTracker.includeByType (includeCandidates : Bool) (internalPoint : TrackedPoint) : Bool :=
  internalPoint.pointType == TrackedPointType.ActivePoint ||
    (internalPoint.pointType == TrackedPointType.CandidatePoint && includeCandidates)

/-- One iteration of the first loop of `update_hand_frame`. -/
def HandTracker.update_hand_frame_visit (includeCandidates : Bool) (maxHandCount : Nat)
    (cur : HandCursor) (internalPoint : TrackedPoint) : HandCursor :=
  if HandTracker.includeByStatus internalPoint &&
      HandTracker.includeByType includeCandidates internalPoint &&
      decide (cur.handIndex < maxHandCount) then
    { handIndex := cur.handIndex + 1
      handpoints :=
        at_handpoint cur.handpoints cur.handIndex (HandTracker.write_hand_point internalPoint) }
  else
    cur

/-- The second loop of `update_hand_frame`: `reset_hand_point` on the slots
`handIndex .. maxHandCount - 1`. -/
def HandTracker.reset_unused (handIndex maxHandCount : Nat)
    (handpoints : List astra_handpoint_t) : List astra_handpoint_t :=
  (List.range' handIndex (maxHandCount - handIndex)).foldl
    (fun hp i => at_handpoint hp i HandTracker.reset_hand_point) handpoints

/-- The method `HandTracker::update_hand_frame`; `includeCandidates` is the value of
`m_handStream->include_candidate_points()`. -/
def HandTracker.update_hand_frame (includeCandidates : Bool)
    (internalTrackedPoints : List TrackedPoint) (frame : astra_handframe) : astra_handframe :=
  let maxHandCount := frame.handCount
  let cur := internalTrackedPoints.foldl
    (HandTracker.update_hand_frame_visit includeCandidates maxHandCount)
    { handIndex := 0, handpoints := frame.handpoints }
  { frame with handpoints := HandTracker.reset_unused cur.handIndex maxHandCount cur.handpoints }

/-- The body of `HandTracker::generate_hand_frame` from the result of `begin_write` on:
`handFrame` is `none` for `nullptr`, `ASTRA_HANDS_MAX_HAND_COUNT` is the constant of that name
(defined in a header), and the result is the wrapper handed to `end_write`, if any. -/
def HandTracker.generate_hand_frame (ASTRA_HANDS_MAX_HAND_COUNT : Nat) (includeCandidates : Bool)
    (trackedPoints : List TrackedPoint) (handFrame : Option astra_handframe_wrapper_t) :
    Option astra_handframe_wrapper_t :=
  match handFrame with
  | none => none
  | some w =>
    let frame : astra_handframe :=
      { handpoints := w.frame_data, handCount := ASTRA_HANDS_MAX_HAND_COUNT }
    let frame := HandTracker.update_hand_frame includeCandidates trackedPoints frame
    some { frame := frame, frame_data := frame.handpoints }

/-- The eligibility test of the first loop, without the capacity check. -/
def HandTracker.eligible (includeCandidates : Bool) (p : TrackedPoint) : Bool :=
  HandTracker.includeByStatus p && HandTracker.includeByType includeCandidates p

/-- Eligibility of a tracked point for emission, in the words of the specification: its status
is Tracking or Lost, and its type is ActivePoint, or CandidatePoint when candidates are
included. -/
def eligible_for_emission (includeCandidates : Bool) (p : TrackedPoint) : Prop :=
  (p.trackingStatus = TrackingStatus.Tracking ∨ p.trackingStatus = TrackingStatus.Lost) ∧
    (p.pointType = TrackedPointType.ActivePoint ∨
      (p.pointType = TrackedPointType.CandidatePoint ∧ includeCandidates = true))

instance (includeCandidates : Bool) (p : TrackedPoint) :
    Decidable (eligible_for_emission includeCandidates p) := by
  unfold eligible_for_emission
  exact inferInstance

/-! ## `xs::PointProcessor`: depth to world points -/

/-- Modelled from the spec: the projection cache (section 3, `ProjectionCache`); the struct
`conversion_cache_t` is declared in a header. Only the four fields that
`calculate_point_frame` reads are kept, with exact values. -/
structure conversion_cache_t where
  xzFactor : ℚ
  yzFactor : ℚ
  resolutionX : ℚ
  resolutionY : ℚ
  deriving DecidableEq

/-- The struct `Vector3f`, with exact coordinates. -/
structure Vector3f where
  x : ℚ
  y : ℚ
  z : ℚ
  deriving DecidableEq

/-- A `DepthFrame`: its resolution, its frame index, and the `int16_t` samples behind `data()`. -/
structure DepthFrame where
  resolutionX : Nat
  resolutionY : Nat
  frameIndex : Nat
  data : List Int
  deriving DecidableEq

/-- The conversion of an `int16_t` sample to `uint16_t` (`uint16_t depth = *p_depth`): the value
modulo `2^16`. -/
def to_uint16 (sample : Int) : Int := sample % 65536

/-- The loop variables of `calculate_point_frame`: the offsets of the two running pointers and
the point buffer written through `p_points`. -/
structure PointCursor where
  p_points : Nat
  p_depth : Nat
  points : List Vector3f
  deriving DecidableEq

/-- The assignments to `point` in the inner loop of `calculate_point_frame` (lines 102 to
107), for pixel `(x, y)` and the unsigned `depth`. -/
def PointProcessor.world_point (conversionData : conversion_cache_t) (x y : Nat) (depth : Int) :
    Vector3f :=
  let normalizedX : ℚ := (x : ℚ) / conversionData.resolutionX - 1 / 2
  let normalizedY : ℚ := 1 / 2 - (y : ℚ) / conversionData.resolutionY
  { x := normalizedX * (depth : ℚ) * conversionData.xzFactor
    y := normalizedY * (depth : ℚ) * conversionData.yzFactor
    z := (depth : ℚ) }

/-- The body of the inner loop of `calculate_point_frame` (lines 99 to 107), followed by the
increments `++p_points, ++p_depth`. -/
def PointProcessor.calculate_point_frame_pixel (conversionData : conversion_cache_t)
    (data : List Int) (y : Nat) (cur : PointCursor) (x : Nat) : PointCursor :=
  let depth : Int := to_uint16 (data.getD cur.p_depth 0)
  { p_points := cur.p_points + 1
    p_depth := cur.p_depth + 1
    points := cur.points.set cur.p_points (PointProcessor.world_point conversionData x y depth) }

/-- The inner loop of `calculate_point_frame`: `x` from `0` to `width - 1`. -/
def PointProcessor.calculate_point_frame_row (conversionData : conversion_cache_t)
    (data : List Int) (width : Nat) (cur : PointCursor) (y : Nat) : PointCursor :=
  (List.range width).foldl (PointProcessor.calculate_point_frame_pixel conversionData data y) cur

/-- The method `PointProcessor::calculate_point_frame`: `m_depthConversionCache` is the cache
member, `p_points` the buffer the points are written to; the result is that buffer. -/
def PointProcessor.calculate_point_frame (m_depthConversionCache : conversion_cache_t)
    (depthFrame : DepthFrame) (p_points : List Vector3f) : List Vector3f :=
  let width := depthFrame.resolutionX
  let height := depthFrame.resolutionY
  let p_depth := depthFrame.data
  let conversionData := m_depthConversionCache
  ((List.range height).foldl
    (PointProcessor.calculate_point_frame_row conversionData p_depth width)
    { p_points := 0, p_depth := 0, points := p_points }).points

/-- Modelled from the spec: the inverse formula of the projection round trip (section 8,
property 5), `x' = (wx/(wz*xzFactor) + 0.5)*resX` and `y' = (0.5 - wy/(wz*yzFactor))*resY`;
no function under `src/` computes it. -/
def world_to_depth (c : conversion_cache_t) (p : Vector3f) : ℚ × ℚ :=
  ((p.x / (p.z * c.xzFactor) + 1 / 2) * c.resolutionX,
    (1 / 2 - p.y / (p.z * c.yzFactor)) * c.resolutionY)

/-! ## `HandTracker`: the per-frame pipeline

The depth utility, the hand point processor, the segmentation functions and the debug
visualizer are collaborators whose code is not part of this development: they are taken as
parameters (`Collaborators`), and every call to one of them is recorded, in order, in the
`trace` of the tracker. -/

/-- The element types of the matrices that `track_points` creates. -/
inductive MatType where
  | CV_8UC1
  | CV_32FC1
  deriving DecidableEq

/-- A `cv::Mat`: its dimensions, its element type and its elements in row-major order. -/
structure Mat where
  rows : Nat
  cols : Nat
  type : MatType
  data : List ℚ
  deriving DecidableEq

/-- The matrix `cv::Mat::zeros(size, type)` for a size of `cols` by `rows`. -/
def Mat.zeros (rows cols : Nat) (type : MatType) : Mat :=
  { rows := rows, cols := cols, type := type, data := List.replicate (rows * cols) 0 }

/-- The matrix members of `HandTracker` that `HandTracker.cpp` names. -/
inductive MatMember where
  | m_matDepth
  | m_matDepthFullSize
  | m_matVelocitySignal
  | m_matArea
  | m_matAreaSqrt
  | m_layerSegmentation
  | m_layerScore
  | m_layerEdgeDistance
  | m_layerIntegralArea
  | m_layerTestPassMap
  | m_debugUpdateSegmentation
  | m_debugCreateSegmentation
  | m_debugRefineSegmentation
  | m_updateForegroundSearched
  | m_createForegroundSearched
  | m_refineForegroundSearched
  | m_debugUpdateScore
  | m_debugCreateScore
  | m_debugRefineScore
  | m_matDepthWindow
  | m_refineSegmentation
  | m_refineScore
  | m_refineEdgeDistance
  | m_debugUpdateScoreValue
  | m_debugCreateScoreValue
  | m_debugRefineScoreValue
  | m_debugCreateTestPassMap
  | m_debugUpdateTestPassMap
  | m_debugRefineTestPassMap
  deriving DecidableEq

/-- The values of `DebugHandViewType` that `update_debug_image_frame` distinguishes. -/
inductive DebugHandViewType where
  | DEBUG_HAND_VIEW_DEPTH
  | DEBUG_HAND_VIEW_DEPTH_MOD
  | DEBUG_HAND_VIEW_DEPTH_AVG
  | DEBUG_HAND_VIEW_VELOCITY
  | DEBUG_HAND_VIEW_FILTEREDVELOCITY
  | DEBUG_HAND_VIEW_UPDATE_SEGMENTATION
  | DEBUG_HAND_VIEW_CREATE_SEGMENTATION
  | DEBUG_HAND_VIEW_UPDATE_SEARCHED
  | DEBUG_HAND_VIEW_CREATE_SEARCHED
  | DEBUG_HAND_VIEW_CREATE_SCORE
  | DEBUG_HAND_VIEW_UPDATE_SCORE
  | DEBUG_HAND_VIEW_HANDWINDOW
  | DEBUG_HAND_VIEW_TEST_PASS_MAP
  deriving DecidableEq

/-- The bundle `TrackingMatrices`, in the order of its constructor arguments: each matrix
argument is a reference, kept as the member it refers to. The arguments `worldPoints` (always
the member `m_worldPoints`) and `coordinateMapper` (owned by the depth stream) are not
represented. -/
structure TrackingMatrices where
  depthFullSize : MatMember
  depth : MatMember
  area : MatMember
  areaSqrt : MatMember
  velocitySignal : MatMember
  foregroundSearched : MatMember
  layerSegmentation : MatMember
  layerScore : MatMember
  layerEdgeDistance : MatMember
  layerIntegralArea : MatMember
  layerTestPassMap : MatMember
  debugSegmentation : MatMember
  debugScore : MatMember
  debugScoreValue : MatMember
  debugTestPassMap : MatMember
  enabledTestPassMap : Bool
  fullSizeWorldPoints : List Vector3f
  debugLayersEnabled : Bool
  depthToWorldData : conversion_cache_t
  deriving DecidableEq

/-- A call from `HandTracker` to one of its collaborators, with its arguments: the depth utility
(`processDepthToVelocitySignal`), the hand point processor (the next seven), and the
segmentation tests that `debug_probe_point` runs. -/
inductive Call where
  | processDepthToVelocitySignal (depthFrame : DepthFrame)
      (matDepth matDepthFullSize matVelocitySignal : MatMember)
  | initialize_common_calculations (matrices : TrackingMatrices)
  | updateTrackedPoints (matrices : TrackingMatrices)
  | removeDuplicatePoints
  | updateTrackedPointOrCreateNewPointFromSeedPosition (matrices : TrackingMatrices)
      (seedPosition : cvPoint)
  | removeOldOrDeadPoints
  | update_full_resolution_points (matrices : TrackingMatrices)
  | update_trajectories
  | test_point_in_range (matrices : TrackingMatrices) (probePosition : cvPoint)
  | test_point_area_integral (matrices : TrackingMatrices) (probePosition : cvPoint)
  | test_foreground_radius_percentage (matrices : TrackingMatrices) (probePosition : cvPoint)
  | test_natural_edges (matrices : TrackingMatrices) (probePosition : cvPoint)
  deriving DecidableEq

/-- The data of `HandTracker` that the collaborators work on: the matrix members, the world
point buffer with its length, the point processor `PP` and the depth utility `DU`. -/
structure Work (PP DU : Type) where
  mats : MatMember → Mat
  m_worldPoints : Option (List Vector3f)
  m_numWorldPoints : Int
  m_pointProcessor : PP
  m_depthUtility : DU

/-- An RGB pixel of the debug image. -/
structure RGBPixel where
  r : Nat
  g : Nat
  b : Nat
  deriving DecidableEq

/-- The struct `astra_image_metadata_t`; the pixel format written by `HandTracker` is always
`ASTRA_PIXEL_FORMAT_RGB888` and is not represented. -/
structure astra_image_metadata_t where
  width : Int
  height : Int
  deriving DecidableEq

/-- The struct `_astra_imageframe` of the debug image. -/
structure astra_imageframe where
  metadata : astra_image_metadata_t
  data : List RGBPixel
  deriving DecidableEq

/-- The struct `astra_imageframe_wrapper_t` handed out by `begin_write`. -/
structure astra_imageframe_wrapper_t where
  frame : astra_imageframe
  frame_data : List RGBPixel
  deriving DecidableEq

/-- The hand stream as `HandTracker` uses it: its two queries, the wrapper that `begin_write`
hands out (`none` for `nullptr`), and the frames completed by `end_write` with their index. -/
structure HandStream where
  has_connections : Bool
  include_candidate_points : Bool
  begin_write : Option astra_handframe_wrapper_t
  written : List (Nat × astra_handframe_wrapper_t)
  deriving DecidableEq

/-- The debug image stream as `HandTracker` uses it: its queries, the wrapper that
`begin_write` hands out, and the frames completed by `end_write` with their index. -/
structure DebugHandStream where
  has_connections : Bool
  pause_input : Bool
  use_mouse_probe : Bool
  spawn_point_locked : Bool
  view_type : DebugHandViewType
  mouse_norm_position : ℚ × ℚ
  spawn_norm_position : ℚ × ℚ
  begin_write : Option astra_imageframe_wrapper_t
  written : List (Nat × astra_imageframe_wrapper_t)
  deriving DecidableEq

/-- The collaborators of `HandTracker`: `run` is the effect of a call on the data it is given,
`result` the boolean a segmentation test returns, `find_next_velocity_seed_pixel` the seed
search (velocity signal, searched mask and `nextSearchStart` in; seed position and new
`nextSearchStart` out, `none` for `false`), `get_trackedPoints` the getter of the point
processor, and `update_debug_image_frame` the rendering of the debug image. -/
structure Collaborators (PP DU : Type) where
  run : Call → Work PP DU → Work PP DU
  result : Call → Work PP DU → Bool
  find_next_velocity_seed_pixel : Mat → Mat → cvPoint → Option (cvPoint × cvPoint)
  get_trackedPoints : PP → List TrackedPoint
  update_debug_image_frame : Work PP DU → DebugHandStream → astra_imageframe → astra_imageframe

/-- The state of a `HandTracker`: its data, its two output streams, the processing size, the
conversion cache of its depth stream, and the calls made to collaborators so far. -/
structure Tracker (PP DU : Type) where
  work : Work PP DU
  m_handStream : HandStream
  m_debugImageStream : DebugHandStream
  m_processingSizeWidth : Int
  m_processingSizeHeight : Int
  depth_to_world_data : conversion_cache_t
  trace : List Call

/-- A call to a collaborator: its effect on the data, recorded at the end of the trace. -/
def invoke {PP DU : Type} (ops : Collaborators PP DU) (c : Call) (t : Tracker PP DU) :
    Tracker PP DU :=
  { t with work := ops.run c t.work, trace := t.trace ++ [c] }

/-- A step of `HandTracker` itself on its data, without any call to a collaborator. -/
def Tracker.on_work {PP DU : Type} (t : Tracker PP DU) (f : Work PP DU → Work PP DU) :
    Tracker PP DU :=
  { t with work := f t.work }

/-- A sequence of calls to collaborators, one after the other. -/
def invoke_all {PP DU : Type} (ops : Collaborators PP DU) (cs : List Call) (t : Tracker PP DU) :
    Tracker PP DU :=
  cs.foldl (fun t c => invoke ops c t) t

/-- The assignment `member = value` to a matrix member. -/
def Work.assign {PP DU : Type} (w : Work PP DU) (member : MatMember) (value : Mat) :
    Work PP DU :=
  { w with mats := fun m => if m = member then value else w.mats m }

/-- The conversion of a non-integral value to `int`: truncation toward zero. -/
def to_int (q : ℚ) : Int := Int.tdiv q.num q.den

/-- The method `HandTracker::get_spawn_position`. -/
def HandTracker.get_spawn_position {PP DU : Type} (t : Tracker PP DU) : cvPoint :=
  let normPosition :=
    if t.m_debugImageStream.spawn_point_locked then t.m_debugImageStream.spawn_norm_position
    else t.m_debugImageStream.mouse_norm_position
  { x := to_int (max 0 (min (t.m_processingSizeWidth : ℚ)
      (normPosition.1 * (t.m_processingSizeWidth : ℚ))))
    y := to_int (max 0 (min (t.m_processingSizeHeight : ℚ)
      (normPosition.2 * (t.m_processingSizeHeight : ℚ)))) }

/-- The method `HandTracker::get_mouse_probe_position`. -/
def HandTracker.get_mouse_probe_position {PP DU : Type} (t : Tracker PP DU) : cvPoint :=
  let normPosition := t.m_debugImageStream.mouse_norm_position
  { x := to_int (max 0 (min (t.m_processingSizeWidth : ℚ)
      (normPosition.1 * (t.m_processingSizeWidth : ℚ))))
    y := to_int (max 0 (min (t.m_processingSizeHeight : ℚ)
      (normPosition.2 * (t.m_processingSizeHeight : ℚ)))) }

/-- The matrices that `track_points` replaces by zero matrices of the size of `matDepth`, with
their element types, in the order of lines 124 to 144. -/
def HandTracker.zeroed_matrices : List (MatMember × MatType) :=
  [ (MatMember.m_layerSegmentation, MatType.CV_8UC1),
    (MatMember.m_layerScore, MatType.CV_32FC1),
    (MatMember.m_layerEdgeDistance, MatType.CV_32FC1),
    (MatMember.m_debugUpdateSegmentation, MatType.CV_8UC1),
    (MatMember.m_debugCreateSegmentation, MatType.CV_8UC1),
    (MatMember.m_debugRefineSegmentation, MatType.CV_8UC1),
    (MatMember.m_updateForegroundSearched, MatType.CV_8UC1),
    (MatMember.m_createForegroundSearched, MatType.CV_8UC1),
    (MatMember.m_refineForegroundSearched, MatType.CV_8UC1),
    (MatMember.m_debugUpdateScore, MatType.CV_32FC1),
    (MatMember.m_debugCreateScore, MatType.CV_32FC1),
    (MatMember.m_matDepthWindow, MatType.CV_32FC1),
    (MatMember.m_refineSegmentation, MatType.CV_8UC1),
    (MatMember.m_refineScore, MatType.CV_32FC1),
    (MatMember.m_refineEdgeDistance, MatType.CV_32FC1),
    (MatMember.m_debugUpdateScoreValue, MatType.CV_32FC1),
    (MatMember.m_debugCreateScoreValue, MatType.CV_32FC1),
    (MatMember.m_debugRefineScoreValue, MatType.CV_32FC1),
    (MatMember.m_debugCreateTestPassMap, MatType.CV_8UC1),
    (MatMember.m_debugUpdateTestPassMap, MatType.CV_8UC1),
    (MatMember.m_debugRefineTestPassMap, MatType.CV_8UC1) ]

/-- Lines 124 to 144 of `track_points`: the assignments `member = cv::Mat::zeros(matDepth.size(),
type)`, one after the other. -/
def HandTracker.track_points_zero {PP DU : Type} (matDepth : MatMember) (w : Work PP DU) :
    Work PP DU :=
  HandTracker.zeroed_matrices.foldl
    (fun w mt => w.assign mt.1 (Mat.zeros (w.mats matDepth).rows (w.mats matDepth).cols mt.2)) w

/-- Lines 146 to 157 of `track_points`: the world point buffer is replaced by a new one of
`matDepth.cols * matDepth.rows` default-constructed points when it is absent or has another
length. -/
def HandTracker.track_points_world_points {PP DU : Type} (matDepth : MatMember)
    (w : Work PP DU) : Work PP DU :=
  let numPoints : Nat := (w.mats matDepth).cols * (w.mats matDepth).rows
  if w.m_worldPoints = none ∨ w.m_numWorldPoints ≠ (numPoints : Int) then
    { w with
      m_numWorldPoints := (numPoints : Int)
      m_worldPoints := some (List.replicate numPoints { x := 0, y := 0, z := 0 }) }
  else
    w

/-- The local `updateMatrices` of `track_points` (lines 164 to 184). -/
def HandTracker.updateMatrices {PP DU : Type} (t : Tracker PP DU)
    (matDepth matDepthFullSize matVelocitySignal : MatMember)
    (fullSizeWorldPoints : List Vector3f) : TrackingMatrices :=
  { depthFullSize := matDepthFullSize
    depth := matDepth
    area := MatMember.m_matArea
    areaSqrt := MatMember.m_matAreaSqrt
    velocitySignal := matVelocitySignal
    foregroundSearched := MatMember.m_updateForegroundSearched
    layerSegmentation := MatMember.m_layerSegmentation
    layerScore := MatMember.m_layerScore
    layerEdgeDistance := MatMember.m_layerEdgeDistance
    layerIntegralArea := MatMember.m_layerIntegralArea
    layerTestPassMap := MatMember.m_layerTestPassMap
    debugSegmentation := MatMember.m_debugUpdateSegmentation
    debugScore := MatMember.m_debugUpdateScore
    debugScoreValue := MatMember.m_debugUpdateScoreValue
    debugTestPassMap := MatMember.m_debugUpdateTestPassMap
    enabledTestPassMap :=
      decide (t.m_debugImageStream.view_type = DebugHandViewType.DEBUG_HAND_VIEW_TEST_PASS_MAP)
    fullSizeWorldPoints := fullSizeWorldPoints
    debugLayersEnabled := t.m_debugImageStream.has_connections
    depthToWorldData := t.depth_to_world_data }

/-- The local `createMatrices` of `track_points` (lines 198 to 218). -/
def HandTracker.createMatrices {PP DU : Type} (t : Tracker PP DU)
    (matDepth matDepthFullSize matVelocitySignal : MatMember)
    (fullSizeWorldPoints : List Vector3f) : TrackingMatrices :=
  { depthFullSize := matDepthFullSize
    depth := matDepth
    area := MatMember.m_matArea
    areaSqrt := MatMember.m_matAreaSqrt
    velocitySignal := matVelocitySignal
    foregroundSearched := MatMember.m_createForegroundSearched
    layerSegmentation := MatMember.m_layerSegmentation
    layerScore := MatMember.m_layerScore
    layerEdgeDistance := MatMember.m_layerEdgeDistance
    layerIntegralArea := MatMember.m_layerIntegralArea
    layerTestPassMap := MatMember.m_layerTestPassMap
    debugSegmentation := MatMember.m_debugCreateSegmentation
    debugScore := MatMember.m_debugCreateScore
    debugScoreValue := MatMember.m_debugCreateScoreValue
    debugTestPassMap := MatMember.m_debugCreateTestPassMap
    enabledTestPassMap :=
      decide (t.m_debugImageStream.view_type = DebugHandViewType.DEBUG_HAND_VIEW_TEST_PASS_MAP)
    fullSizeWorldPoints := fullSizeWorldPoints
    debugLayersEnabled := t.m_debugImageStream.has_connections
    depthToWorldData := t.depth_to_world_data }

/-- The local `refinementMatrices` of `track_points` (lines 240 to 260). -/
def HandTracker.refinementMatrices {PP DU : Type} (t : Tracker PP DU)
    (matDepthFullSize matVelocitySignal : MatMember)
    (fullSizeWorldPoints : List Vector3f) : TrackingMatrices :=
  { depthFullSize := matDepthFullSize
    depth := MatMember.m_matDepthWindow
    area := MatMember.m_matArea
    areaSqrt := MatMember.m_matAreaSqrt
    velocitySignal := matVelocitySignal
    foregroundSearched := MatMember.m_refineForegroundSearched
    layerSegmentation := MatMember.m_refineSegmentation
    layerScore := MatMember.m_refineScore
    layerEdgeDistance := MatMember.m_refineEdgeDistance
    layerIntegralArea := MatMember.m_layerIntegralArea
    layerTestPassMap := MatMember.m_layerTestPassMap
    debugSegmentation := MatMember.m_debugRefineSegmentation
    debugScore := MatMember.m_debugRefineScore
    debugScoreValue := MatMember.m_debugRefineScoreValue
    debugTestPassMap := MatMember.m_debugRefineTestPassMap
    enabledTestPassMap :=
      decide (t.m_debugImageStream.view_type = DebugHandViewType.DEBUG_HAND_VIEW_TEST_PASS_MAP)
    fullSizeWorldPoints := fullSizeWorldPoints
    debugLayersEnabled := false
    depthToWorldData := t.depth_to_world_data }

/-- The seed loop of `track_points` (lines 225 to 228): `while (find_next_velocity_seed_pixel(
...)) updateTrackedPointOrCreateNewPointFromSeedPosition(createMatrices, seedPosition)`, run
for at most `fuel` evaluations of the loop condition; `none` when the fuel runs out. -/
def HandTracker.seed_loop {PP DU : Type} (ops : Collaborators PP DU)
    (createMatrices : TrackingMatrices) (matVelocitySignal : MatMember) :
    Nat → cvPoint → Tracker PP DU → Option (Tracker PP DU)
  | 0, _, _ => none
  | fuel + 1, nextSearchStart, t =>
    match ops.find_next_velocity_seed_pixel (t.work.mats matVelocitySignal)
        (t.work.mats MatMember.m_createForegroundSearched) nextSearchStart with
    | none => some t
    | some (seedPosition, nextSearchStart) =>
      HandTracker.seed_loop ops createMatrices matVelocitySignal fuel nextSearchStart
        (invoke ops
          (Call.updateTrackedPointOrCreateNewPointFromSeedPosition createMatrices seedPosition) t)

/-- The method `HandTracker::debug_spawn_point`. -/
def HandTracker.debug_spawn_point {PP DU : Type} (ops : Collaborators PP DU)
    (matrices : TrackingMatrices) (t : Tracker PP DU) : Tracker PP DU :=
  let t :=
    if !t.m_debugImageStream.pause_input then
      invoke ops (Call.initialize_common_calculations matrices) t
    else t
  let seedPosition := HandTracker.get_spawn_position t
  invoke ops (Call.updateTrackedPointOrCreateNewPointFromSeedPosition matrices seedPosition) t

/-- The method `HandTracker::debug_probe_point`; the three values read for the log line and the
log line itself are not represented. -/
def HandTracker.debug_probe_point {PP DU : Type} (ops : Collaborators PP DU)
    (matrices : TrackingMatrices) (t : Tracker PP DU) : Tracker PP DU :=
  if !t.m_debugImageStream.use_mouse_probe then
    t
  else
    let probePosition := HandTracker.get_mouse_probe_position t
    let validPointInRange := ops.result (Call.test_point_in_range matrices probePosition) t.work
    let t := invoke ops (Call.test_point_in_range matrices probePosition) t
    if validPointInRange then
      let t := invoke ops (Call.test_point_area_integral matrices probePosition) t
      let t := invoke ops (Call.test_foreground_radius_percentage matrices probePosition) t
      invoke ops (Call.test_natural_edges matrices probePosition) t
    else
      t

/-- The method `HandTracker::track_points`; the matrix arguments are references to members,
and `fuel` bounds the seed loop. -/
def HandTracker.track_points {PP DU : Type} (ops : Collaborators PP DU) (fuel : Nat)
    (t : Tracker PP DU) (matDepth matDepthFullSize matVelocitySignal : MatMember)
    (fullSizeWorldPoints : List Vector3f) : Option (Tracker PP DU) :=
  let t := t.on_work (HandTracker.track_points_zero matDepth)
  let t := t.on_work (HandTracker.track_points_world_points matDepth)
  let updateMatrices :=
    HandTracker.updateMatrices t matDepth matDepthFullSize matVelocitySignal fullSizeWorldPoints
  let t :=
    if !t.m_debugImageStream.pause_input then
      invoke ops (Call.initialize_common_calculations updateMatrices) t
    else t
  let t := invoke ops (Call.updateTrackedPoints updateMatrices) t
  let t := invoke ops Call.removeDuplicatePoints t
  let createMatrices :=
    HandTracker.createMatrices t matDepth matDepthFullSize matVelocitySignal fullSizeWorldPoints
  let created :=
    if !t.m_debugImageStream.use_mouse_probe then
      HandTracker.seed_loop ops createMatrices matVelocitySignal fuel { x := 0, y := 0 } t
    else
      some (HandTracker.debug_spawn_point ops createMatrices t)
  match created with
  | none => none
  | some t =>
    let t := HandTracker.debug_probe_point ops createMatrices t
    let t := invoke ops Call.removeOldOrDeadPoints t
    let refinementMatrices :=
      HandTracker.refinementMatrices t matDepthFullSize matVelocitySignal fullSizeWorldPoints
    let t := invoke ops (Call.update_full_resolution_points refinementMatrices) t
    some (invoke ops Call.update_trajectories t)

/-- The method `HandTracker::generate_hand_frame` on the tracker: the frame built from the
tracked points of the point processor is completed by `end_write`, unless `begin_write` gave
`nullptr`. -/
def HandTracker.generate_hand_frame_on {PP DU : Type} (ASTRA_HANDS_MAX_HAND_COUNT : Nat)
    (ops : Collaborators PP DU) (t : Tracker PP DU) (frameIndex : Nat) : Tracker PP DU :=
  match HandTracker.generate_hand_frame ASTRA_HANDS_MAX_HAND_COUNT
      t.m_handStream.include_candidate_points
      (ops.get_trackedPoints t.work.m_pointProcessor) t.m_handStream.begin_write with
  | none => t
  | some handFrame =>
    { t with
      m_handStream :=
        { t.m_handStream with written := t.m_handStream.written ++ [(frameIndex, handFrame)] } }

/-- The method `HandTracker::generate_hand_debug_image_frame`. -/
def HandTracker.generate_hand_debug_image_frame {PP DU : Type} (ops : Collaborators PP DU)
    (t : Tracker PP DU) (frameIndex : Nat) : Tracker PP DU :=
  match t.m_debugImageStream.begin_write with
  | none => t
  | some debugImageFrame =>
    let metadata : astra_image_metadata_t :=
      { width := t.m_processingSizeWidth, height := t.m_processingSizeHeight }
    let frame : astra_imageframe := { metadata := metadata, data := debugImageFrame.frame_data }
    let frame := ops.update_debug_image_frame t.work t.m_debugImageStream frame
    { t with
      m_debugImageStream :=
        { t.m_debugImageStream with
          written := t.m_debugImageStream.written ++
            [(frameIndex, { frame := frame, frame_data := frame.data })] } }

/-- The method `HandTracker::update_tracking`; `pointFrame` is `pointFrame.data()`. -/
def HandTracker.update_tracking {PP DU : Type} (ASTRA_HANDS_MAX_HAND_COUNT : Nat)
    (ops : Collaborators PP DU) (fuel : Nat) (t : Tracker PP DU) (depthFrame : DepthFrame)
    (pointFrame : List Vector3f) : Option (Tracker PP DU) :=
  let t :=
    if !t.m_debugImageStream.pause_input then
      invoke ops (Call.processDepthToVelocitySignal depthFrame MatMember.m_matDepth
        MatMember.m_matDepthFullSize MatMember.m_matVelocitySignal) t
    else t
  match HandTracker.track_points ops fuel t MatMember.m_matDepth MatMember.m_matDepthFullSize
      MatMember.m_matVelocitySignal pointFrame with
  | none => none
  | some t =>
    let frameIndex := depthFrame.frameIndex
    let t :=
      if t.m_handStream.has_connections then
        HandTracker.generate_hand_frame_on ASTRA_HANDS_MAX_HAND_COUNT ops t frameIndex
      else t
    let t :=
      if t.m_debugImageStream.has_connections then
        HandTracker.generate_hand_debug_image_frame ops t frameIndex
      else t
    some t

/-- The method `HandTracker::on_frame_ready`, for a frame that holds the depth frame `depthFrame`
and the point frame `pointFrame`. -/
def HandTracker.on_frame_ready {PP DU : Type} (ASTRA_HANDS_MAX_HAND_COUNT : Nat)
    (ops : Collaborators PP DU) (fuel : Nat) (t : Tracker PP DU) (depthFrame : DepthFrame)
    (pointFrame : List Vector3f) : Option (Tracker PP DU) :=
  if t.m_handStream.has_connections || t.m_debugImageStream.has_connections then
    HandTracker.update_tracking ASTRA_HANDS_MAX_HAND_COUNT ops fuel t depthFrame pointFrame
  else
    some t

/-- The element that the unchecked `cv::Mat::at<float>(pt)` reads, row `pt.y` and column
`pt.x`, when `pt` lies inside the matrix; `none` for a read outside it. -/
def Mat.read_at (m : Mat) (pt : cvPoint) : Option ℚ :=
  if 0 ≤ pt.y ∧ pt.y < (m.rows : Int) ∧ 0 ≤ pt.x ∧ pt.x < (m.cols : Int) then
    m.data[(pt.y * (m.cols : Int) + pt.x).toNat]?
  else
    none

/-- The function `mark_image_pixel`: the pixel at `index = p.x + p.y * width` takes the color;
`none` when that index lies outside the pixel data, where the unchecked write would land
outside the image. -/
def mark_image_pixel (imageFrame : astra_imageframe) (color : RGBPixel)
    (p : astra_vector2i_t) : Option astra_imageframe :=
  let index : Int := p.x + p.y * imageFrame.metadata.width
  if 0 ≤ index ∧ index < (imageFrame.data.length : Int) then
    some { imageFrame with data := imageFrame.data.set index.toNat color }
  else
    none

/-! ## `xs::PointProcessor`: the point stream -/

/-- The `_astra_imageframe` of a point frame: its metadata (the pixel format is always
`ASTRA_PIXEL_FORMAT_POINT`) and its points. -/
structure astra_pointframe where
  metadata : astra_image_metadata_t
  data : List Vector3f
  deriving DecidableEq

/-- The point stream made by `make_stream<PointStream>(..., width, height)`: the size it was
made for, and the frames completed by `end_write` with the frame index given to
`begin_write`. -/
structure PointStream where
  width : Nat
  height : Nat
  written : List (Nat × astra_pointframe)
  deriving DecidableEq

/-- The members of `xs::PointProcessor` that change after construction: the point stream
(`none` for `nullptr`) and the conversion cache. -/
structure PointProcessor where
  m_pointStream : Option PointStream
  m_depthConversionCache : conversion_cache_t
  deriving DecidableEq

/-- What the streams answer during one `on_frame_ready` of the point processor: the value of
`m_depthStream.depth_to_world_data()`, the value of `m_pointStream->has_connections()`, and the
storage `frame_data` of the wrapper that `begin_write` hands out (`none` for `nullptr`). -/
structure PointStreamAnswers where
  depth_to_world_data : conversion_cache_t
  has_connections : Bool
  begin_write : Option (List Vector3f)
  deriving DecidableEq

/-- The method `PointProcessor::create_point_stream_if_necessary`. -/
def PointProcessor.create_point_stream_if_necessary (p : PointProcessor)
    (depthFrame : DepthFrame) (answers : PointStreamAnswers) : PointProcessor :=
  match p.m_pointStream with
  | some _ => p
  | none =>
    let width := depthFrame.resolutionX
    let height := depthFrame.resolutionY
    { m_pointStream := some { width := width, height := height, written := [] }
      m_depthConversionCache := answers.depth_to_world_data }

/-- The method `PointProcessor::update_pointframe_from_depth`; it is only called once the point
stream exists, and without a stream there is nothing it could write to. -/
def PointProcessor.update_pointframe_from_depth (p : PointProcessor)
    (depthFrame : DepthFrame) (answers : PointStreamAnswers) : PointProcessor :=
  let frameIndex := depthFrame.frameIndex
  match p.m_pointStream, answers.begin_write with
  | some pointStream, some frame_data =>
    let metadata : astra_image_metadata_t :=
      { width := (depthFrame.resolutionX : Int), height := (depthFrame.resolutionY : Int) }
    let p_points :=
      PointProcessor.calculate_point_frame p.m_depthConversionCache depthFrame frame_data
    { p with
      m_pointStream := some
        { pointStream with
          written := pointStream.written ++
            [(frameIndex, { metadata := metadata, data := p_points })] } }
  | _, _ => p

/-- The method `PointProcessor::on_frame_ready`, for a frame that holds `depthFrame`. -/
def PointProcessor.on_frame_ready (p : PointProcessor) (depthFrame : DepthFrame)
    (answers : PointStreamAnswers) : PointProcessor :=
  let p := PointProcessor.create_point_stream_if_necessary p depthFrame answers
  if answers.has_connections then
    PointProcessor.update_pointframe_from_depth p depthFrame answers
  else
    p

/-! ## `sensekit::Vector3f` (`SenseKitUL/Vector3f.h`)

The scalar type `F` stands for `float`: the rationals for exact evaluation, the reals for the
statements that need square roots. The C function `sqrtf` is a parameter. -/

/-- The struct `sensekit::Vector3f`, with coordinates in `F`. -/
structure sensekit.Vector3f (F : Type) where
  x : F
  y : F
  z : F
  deriving DecidableEq

/-- The method `Vector3f::length`. -/
def sensekit.Vector3f.length {F : Type} [Add F] [Mul F] (sqrtf : F → F)
    (v : sensekit.Vector3f F) : F :=
  sqrtf (v.x * v.x + v.y * v.y + v.z * v.z)

/-- The method `Vector3f::length_squared`. -/
def sensekit.Vector3f.length_squared {F : Type} [Add F] [Mul F] (v : sensekit.Vector3f F) : F :=
  v.x * v.x + v.y * v.y + v.z * v.z

/-- The method `Vector3f::dot`. -/
def sensekit.Vector3f.dot {F : Type} [Add F] [Mul F] (a v : sensekit.Vector3f F) : F :=
  a.x * v.x + a.y * v.y + a.z * v.z

/-- The method `Vector3f::cross`. -/
def sensekit.Vector3f.cross {F : Type} [Sub F] [Mul F] (a v : sensekit.Vector3f F) :
    sensekit.Vector3f F :=
  { x := a.y * v.z - a.z * v.y, y := a.z * v.x - a.x * v.z, z := a.x * v.y - a.y * v.x }

/-- The unary `Vector3f::operator-`. -/
def sensekit.Vector3f.neg {F : Type} [Neg F] (a : sensekit.Vector3f F) : sensekit.Vector3f F :=
  { x := -a.x, y := -a.y, z := -a.z }

/-- The static method `Vector3f::normalize`. -/
def sensekit.Vector3f.normalize {F : Type} [LinearOrderedField F] (sqrtf : F → F)
    (v : sensekit.Vector3f F) : sensekit.Vector3f F :=
  let length : F := sqrtf (v.x * v.x + v.y * v.y + v.z * v.z)
  if length < 1 / 1000000000 then
    { x := 0, y := 0, z := 0 }
  else
    { x := v.x / length, y := v.y / length, z := v.z / length }

/-! ## Example data

Concrete inputs on which the statements below are instantiated. -/

/-- An active point that is being tracked. -/
def example_active_point : TrackedPoint :=
  { trackingId := 3
    fullSizePosition := { x := 10, y := 20 }
    fullSizeWorldPosition := { x := 1, y := 2, z := 700 }
    fullSizeWorldDeltaPosition := { x := 0, y := 1, z := 0 }
    trackingStatus := TrackingStatus.Tracking
    pointType := TrackedPointType.ActivePoint }

/-- A candidate point that is being tracked. -/
def example_candidate_point : TrackedPoint :=
  { trackingId := 4
    fullSizePosition := { x := 30, y := 40 }
    fullSizeWorldPosition := { x := 5, y := 6, z := 800 }
    fullSizeWorldDeltaPosition := { x := 1, y := 0, z := 0 }
    trackingStatus := TrackingStatus.Tracking
    pointType := TrackedPointType.CandidatePoint }

/-- A record left in a slot by an earlier frame. -/
def stale_hand_point : astra_handpoint_t :=
  { trackingId := 7
    status := astra_handstatus_t.HAND_STATUS_TRACKING
    depthPosition := { x := 1, y := 1 }
    worldPosition := { x := 1, y := 1, z := 1 }
    worldDeltaPosition := { x := 1, y := 1, z := 1 } }

/-- A frame with room for two records, both stale. -/
def example_hand_frame : astra_handframe :=
  { handpoints := [stale_hand_point, stale_hand_point], handCount := 2 }

/-- A frame wrapper as `begin_write` hands it out: storage for ten stale records. -/
def example_hand_wrapper : astra_handframe_wrapper_t :=
  { frame := { handpoints := [], handCount := 0 }
    frame_data := List.replicate 10 stale_hand_point }

/-- A second active point, lost in this frame. -/
def example_active_point_5 : TrackedPoint :=
  { example_active_point with trackingId := 5, trackingStatus := TrackingStatus.Lost }

/-- A third active point. -/
def example_active_point_6 : TrackedPoint :=
  { example_active_point with trackingId := 6 }

/-- A tracked-point list with one candidate and three active points. -/
def example_points : List TrackedPoint :=
  [example_candidate_point, example_active_point, example_active_point_5, example_active_point_6]

/-- A projection cache for a 4 x 3 frame. -/
def example_cache : conversion_cache_t :=
  { xzFactor := 11 / 10, yzFactor := 4 / 5, resolutionX := 4, resolutionY := 3 }

/-- A 4 x 3 depth frame; the sample at pixel (2, 1) is 700, the one at (3, 2) is stored as the
negative `int16_t` value -1536. -/
def example_depth_frame : DepthFrame :=
  { resolutionX := 4
    resolutionY := 3
    frameIndex := 1
    data := [0, 0, 0, 0, 0, 0, 700, 0, 0, 0, 0, -1536] }

/-- A point buffer of twelve stale points. -/
def example_point_buffer : List Vector3f :=
  List.replicate 12 { x := 9, y := 9, z := 9 }

/-- Example collaborators over a point processor that is its list of tracked points and a depth
utility that counts the frames it has preprocessed: the seed search yields the seeds (0, 0) and
(1, 0), and each seed adds a candidate point. -/
def example_collaborators : Collaborators (List TrackedPoint) Nat :=
  { run := fun c w =>
      match c with
      | Call.processDepthToVelocitySignal _ _ _ _ =>
        { w with m_depthUtility := w.m_depthUtility + 1 }
      | Call.updateTrackedPointOrCreateNewPointFromSeedPosition _ seedPosition =>
        { w with
          m_pointProcessor := w.m_pointProcessor ++
            [{ example_candidate_point with fullSizePosition := seedPosition }] }
      | _ => w
    result := fun _ _ => true
    find_next_velocity_seed_pixel := fun _ _ nextSearchStart =>
      if 0 ≤ nextSearchStart.x ∧ nextSearchStart.x < 2 then
        some ({ x := nextSearchStart.x, y := 0 }, { x := nextSearchStart.x + 1, y := 0 })
      else none
    get_trackedPoints := fun pp => pp
    update_debug_image_frame := fun _ _ frame => frame }

/-- The number of seeds that the example seed search still yields from `nextSearchStart`. -/
def example_measure (nextSearchStart : cvPoint) (_w : Work (List TrackedPoint) Nat) : Nat :=
  if 0 ≤ nextSearchStart.x ∧ nextSearchStart.x < 2 then (2 - nextSearchStart.x).toNat else 0

/-- Example data of a tracker at a working resolution of 4 x 3, before its first frame. -/
def example_work : Work (List TrackedPoint) Nat :=
  { mats := fun _ => { rows := 3, cols := 4, type := MatType.CV_32FC1, data := List.replicate 12 5 }
    m_worldPoints := none
    m_numWorldPoints := 0
    m_pointProcessor := []
    m_depthUtility := 0 }

/-- An example tracker whose hand stream has a consumer and whose debug stream has none. -/
def example_tracker : Tracker (List TrackedPoint) Nat :=
  { work := example_work
    m_handStream :=
      { has_connections := true
        include_candidate_points := true
        begin_write := some example_hand_wrapper
        written := [] }
    m_debugImageStream :=
      { has_connections := false
        pause_input := false
        use_mouse_probe := false
        spawn_point_locked := false
        view_type := DebugHandViewType.DEBUG_HAND_VIEW_DEPTH
        mouse_norm_position := (0, 0)
        spawn_norm_position := (0, 0)
        begin_write := none
        written := [] }
    m_processingSizeWidth := 4
    m_processingSizeHeight := 3
    depth_to_world_data := example_cache
    trace := [] }

/-- The example tracker with no consumer on either stream. -/
def example_idle_tracker : Tracker (List TrackedPoint) Nat :=
  { example_tracker with
    m_handStream := { example_tracker.m_handStream with has_connections := false } }

/-- Example data of a tracker after an earlier frame at a working resolution of 4 x 3: every
matrix holds the value 5 everywhere, and the world point buffer holds twelve points (9, 9, 9). -/
def example_work_next : Work (List TrackedPoint) Nat :=
  { example_work with
    m_worldPoints := some (List.replicate 12 { x := 9, y := 9, z := 9 })
    m_numWorldPoints := 12 }

/-- A point processor before its first frame: no point stream yet. -/
def example_point_processor : PointProcessor :=
  { m_pointStream := none
    m_depthConversionCache := { xzFactor := 0, yzFactor := 0, resolutionX := 0, resolutionY := 0 } }

/-- The answers of the streams at the first frame: the example cache, a consumer attached, and
storage for the twelve points of a 4 x 3 frame. -/
def example_answers : PointStreamAnswers :=
  { depth_to_world_data := example_cache
    has_connections := true
    begin_write := some example_point_buffer }

/-- A later depth frame with another resolution, 2 x 2. -/
def example_depth_frame_small : DepthFrame :=
  { resolutionX := 2, resolutionY := 2, frameIndex := 2, data := [100, 200, 300, 400] }

/-- The answers of the streams at that later frame: the depth stream now reports another
conversion cache. -/
def example_answers_later : PointStreamAnswers :=
  { depth_to_world_data := { xzFactor := 2, yzFactor := 2, resolutionX := 2, resolutionY := 2 }
    has_connections := true
    begin_write := some example_point_buffer }

/-- The point stream of the example point processor once it exists: made for 4 x 3 frames,
nothing written yet. -/
def example_point_stream : PointStream :=
  { width := 4, height := 3, written := [] }

/-- The example point processor after its stream has been created. -/
def example_point_processor_streaming : PointProcessor :=
  { m_pointStream := some example_point_stream
    m_depthConversionCache := example_cache }

/-- The example tracker with the mouse probe on, a consumer on the debug stream, and the mouse
at the normalized position (1, 1). -/
def example_probe_tracker : Tracker (List TrackedPoint) Nat :=
  { example_tracker with
    m_debugImageStream :=
      { example_tracker.m_debugImageStream with
        has_connections := true
        use_mouse_probe := true
        mouse_norm_position := (1, 1) } }

/-- A debug image of 4 x 3 black pixels. -/
def example_debug_image : astra_imageframe :=
  { metadata := { width := 4, height := 3 }
    data := List.replicate 12 { r := 0, g := 0, b := 0 } }

/-! # Theorems -/

/-! ## Hand frame emission -/

theorem at_handpoint_length (hp : List astra_handpoint_t) (i : Nat)
    (f : astra_handpoint_t → astra_handpoint_t) : (at_handpoint hp i f).length = hp.length := by
  unfold at_handpoint
  split <;> simp

theorem at_handpoint_getElem? (hp : List astra_handpoint_t) (i : Nat)
    (f : astra_handpoint_t → astra_handpoint_t) (j : Nat) :
    (at_handpoint hp i f)[j]? = if j = i then hp[j]?.map f else hp[j]? := by
  unfold at_handpoint
  split
  · rename_i point h
    by_cases hji : j = i
    · subst hji
      have hlt : j < hp.length := by
        rcases List.getElem?_eq_some.1 h with ⟨hlt, _⟩
        exact hlt
      simp [h, List.getElem?_set_self, hlt]
    · have hij : i ≠ j := fun e => hji e.symm
      simp [hji, List.getElem?_set_ne hij]
  · rename_i h
    by_cases hji : j = i
    · subst hji
      simp [h]
    · simp [hji]

theorem visit_full (inc : Bool) (M : Nat) (pts : List TrackedPoint) (cur : HandCursor)
    (h : M ≤ cur.handIndex) :
    pts.foldl (HandTracker.update_hand_frame_visit inc M) cur = cur := by
  induction pts with
  | nil => rfl
  | cons p pts ih =>
    have : HandTracker.update_hand_frame_visit inc M cur p = cur := by
      unfold HandTracker.update_hand_frame_visit
      have : ¬ cur.handIndex < M := by omega
      simp [this]
    simp [List.foldl, this, ih]

theorem visit_fold (inc : Bool) (M : Nat) (pts : List TrackedPoint) (cur : HandCursor)
    (h : cur.handIndex ≤ M) :
    (pts.foldl (HandTracker.update_hand_frame_visit inc M) cur).handIndex
        = min (cur.handIndex + (pts.filter (HandTracker.eligible inc)).length) M ∧
    (∀ j, (j < cur.handIndex ∨
          min (cur.handIndex + (pts.filter (HandTracker.eligible inc)).length) M ≤ j) →
        (pts.foldl (HandTracker.update_hand_frame_visit inc M) cur).handpoints[j]?
          = cur.handpoints[j]?) ∧
    (∀ j p, cur.handIndex ≤ j → j < M →
        (pts.filter (HandTracker.eligible inc))[j - cur.handIndex]? = some p →
        (pts.foldl (HandTracker.update_hand_frame_visit inc M) cur).handpoints[j]?
          = cur.handpoints[j]?.map (HandTracker.write_hand_point p)) := by
  induction pts generalizing cur with
  | nil =>
    refine ⟨by simp; omega, fun j _ => rfl, ?_⟩
    intro j p _ _ hp
    simp at hp
  | cons q pts ih =>
    by_cases he : HandTracker.eligible inc q = true
    · by_cases hlt : cur.handIndex < M
      · have hstep : HandTracker.update_hand_frame_visit inc M cur q =
            { handIndex := cur.handIndex + 1
              handpoints := at_handpoint cur.handpoints cur.handIndex
                (HandTracker.write_hand_point q) } := by
          unfold HandTracker.update_hand_frame_visit
          unfold HandTracker.eligible at he
          simp only [Bool.and_eq_true] at he
          simp [he.1, he.2, hlt]
        obtain ⟨ih1, ih2, ih3⟩ := ih _ (show (HandTracker.update_hand_frame_visit inc M cur q).handIndex ≤ M by
          rw [hstep]; exact hlt)
        rw [hstep] at ih1 ih2 ih3
        dsimp only at ih1 ih2 ih3
        simp only [List.foldl_cons, List.filter_cons, he, if_true, List.length_cons, hstep]
        refine ⟨by rw [ih1]; congr 1; omega, ?_, ?_⟩
        · intro j hj
          rw [ih2 j (by omega)]
          rw [at_handpoint_getElem?]
          have : j ≠ cur.handIndex := by omega
          simp [this]
        · intro j p hj1 hj2 hp
          by_cases hj : j = cur.handIndex
          · subst hj
            simp at hp
            subst hp
            rw [ih2 _ (Or.inl (by simp))]
            rw [at_handpoint_getElem?]
            simp
          · have hsub : j - cur.handIndex = (j - (cur.handIndex + 1)) + 1 := by omega
            rw [hsub, List.getElem?_cons_succ] at hp
            rw [ih3 j p (by omega) hj2 hp]
            rw [at_handpoint_getElem?]
            simp [hj]
      · have hM : M ≤ cur.handIndex := by omega
        have hfull := visit_full inc M (q :: pts) cur hM
        rw [hfull]
        refine ⟨by omega, fun j _ => rfl, ?_⟩
        intro j p h1 h2
        omega
    · have hstep : HandTracker.update_hand_frame_visit inc M cur q = cur := by
        unfold HandTracker.update_hand_frame_visit
        unfold HandTracker.eligible at he
        simp only [Bool.and_eq_true] at he
        have : ¬ (HandTracker.includeByStatus q = true ∧
            HandTracker.includeByType inc q = true) := he
        simp only [Bool.and_eq_true, decide_eq_true_eq]
        rw [if_neg]
        tauto
      simp only [List.foldl_cons, List.filter_cons, he, hstep]
      exact ih cur h

theorem reset_unused_getElem? (n i : Nat) (hp : List astra_handpoint_t) (j : Nat) :
    ((List.range' i n).foldl (fun hp i => at_handpoint hp i HandTracker.reset_hand_point) hp)[j]?
      = if i ≤ j ∧ j < i + n then hp[j]?.map HandTracker.reset_hand_point else hp[j]? := by
  induction n generalizing i hp with
  | zero =>
    have : ¬ (i ≤ j ∧ j < i) := by omega
    simp [this]
  | succ n ih =>
    simp only [List.range'_succ, List.foldl_cons]
    rw [ih, at_handpoint_getElem?]
    by_cases hji : j = i
    · subst hji
      have h1 : ¬ (j + 1 ≤ j ∧ j < j + 1 + n) := by omega
      have h2 : (j ≤ j ∧ j < j + (n + 1)) := by omega
      simp [h1, h2]
    · by_cases hr : i + 1 ≤ j ∧ j < i + 1 + n
      · have h2 : (i ≤ j ∧ j < i + (n + 1)) := by omega
        simp only [hr, h2, hji]
        simp
      · have h2 : ¬ (i ≤ j ∧ j < i + (n + 1)) := by omega
        simp only [hr, h2, hji]
        simp

theorem eligible_eq_decide (inc : Bool) (p : TrackedPoint) :
    HandTracker.eligible inc p = decide (eligible_for_emission inc p) := by
  apply Bool.eq_iff_iff.2
  simp [HandTracker.eligible, HandTracker.includeByStatus, HandTracker.includeByType,
    eligible_for_emission]

theorem eligible_filter_eq (inc : Bool) (pts : List TrackedPoint) :
    pts.filter (HandTracker.eligible inc)
      = pts.filter (fun p => decide (eligible_for_emission inc p)) := by
  congr 1
  funext p
  exact eligible_eq_decide inc p

/-- The populated slots of `update_hand_frame`: slot `j` below the number of points written
holds the assignments from the `j`-th eligible point. -/
theorem update_hand_frame_written (inc : Bool) (pts : List TrackedPoint)
    (frame : astra_handframe) (j : Nat) (p : TrackedPoint)
    (hj : j < frame.handCount)
    (hp : (pts.filter (fun p => decide (eligible_for_emission inc p)))[j]? = some p) :
    (HandTracker.update_hand_frame inc pts frame).handpoints[j]?
      = frame.handpoints[j]?.map (HandTracker.write_hand_point p) := by
  rw [← eligible_filter_eq] at hp
  obtain ⟨h1, _, h3⟩ := visit_fold inc frame.handCount pts
    { handIndex := 0, handpoints := frame.handpoints } (Nat.zero_le _)
  dsimp only at h1 h3
  have hlen : j < (pts.filter (HandTracker.eligible inc)).length := by
    rcases List.getElem?_eq_some.1 hp with ⟨hlt, _⟩
    exact hlt
  unfold HandTracker.update_hand_frame HandTracker.reset_unused
  dsimp only
  rw [reset_unused_getElem?, h1]
  have hno : ¬ (min (0 + (pts.filter (HandTracker.eligible inc)).length) frame.handCount ≤ j ∧
      j < min (0 + (pts.filter (HandTracker.eligible inc)).length) frame.handCount +
        (frame.handCount -
          min (0 + (pts.filter (HandTracker.eligible inc)).length) frame.handCount)) := by
    omega
  rw [if_neg hno]
  exact h3 j p (Nat.zero_le _) hj (by simpa using hp)

/-- The unused slots of `update_hand_frame`: slot `j` from the number of points written up to
`handCount` holds `reset_hand_point` of what it held. -/
theorem update_hand_frame_unused (inc : Bool) (pts : List TrackedPoint)
    (frame : astra_handframe) (j : Nat)
    (hk : min (pts.filter (fun p => decide (eligible_for_emission inc p))).length
      frame.handCount ≤ j)
    (hj : j < frame.handCount) :
    (HandTracker.update_hand_frame inc pts frame).handpoints[j]?
      = frame.handpoints[j]?.map HandTracker.reset_hand_point := by
  rw [← eligible_filter_eq] at hk
  obtain ⟨h1, h2, _⟩ := visit_fold inc frame.handCount pts
    { handIndex := 0, handpoints := frame.handpoints } (Nat.zero_le _)
  dsimp only at h1 h2
  unfold HandTracker.update_hand_frame HandTracker.reset_unused
  dsimp only
  rw [reset_unused_getElem?, h1]
  have hyes : (min (0 + (pts.filter (HandTracker.eligible inc)).length) frame.handCount ≤ j ∧
      j < min (0 + (pts.filter (HandTracker.eligible inc)).length) frame.handCount +
        (frame.handCount -
          min (0 + (pts.filter (HandTracker.eligible inc)).length) frame.handCount)) := by
    omega
  rw [if_pos hyes, h2 j (Or.inr (by omega))]

/-- The slots past `handCount` are not touched by `update_hand_frame`. -/
theorem update_hand_frame_beyond (inc : Bool) (pts : List TrackedPoint)
    (frame : astra_handframe) (j : Nat) (hj : frame.handCount ≤ j) :
    (HandTracker.update_hand_frame inc pts frame).handpoints[j]? = frame.handpoints[j]? := by
  obtain ⟨h1, h2, _⟩ := visit_fold inc frame.handCount pts
    { handIndex := 0, handpoints := frame.handpoints } (Nat.zero_le _)
  dsimp only at h1 h2
  unfold HandTracker.update_hand_frame HandTracker.reset_unused
  dsimp only
  rw [reset_unused_getElem?, h1]
  have hno : ¬ (min (0 + (pts.filter (HandTracker.eligible inc)).length) frame.handCount ≤ j ∧
      j < min (0 + (pts.filter (HandTracker.eligible inc)).length) frame.handCount +
        (frame.handCount -
          min (0 + (pts.filter (HandTracker.eligible inc)).length) frame.handCount)) := by
    omega
  rw [if_neg hno, h2 j (Or.inr (by omega))]

theorem visit_fold_length (inc : Bool) (M : Nat) (pts : List TrackedPoint) (cur : HandCursor) :
    (pts.foldl (HandTracker.update_hand_frame_visit inc M) cur).handpoints.length
      = cur.handpoints.length := by
  induction pts generalizing cur with
  | nil => rfl
  | cons q pts ih =>
    rw [List.foldl_cons, ih]
    unfold HandTracker.update_hand_frame_visit
    split
    · exact at_handpoint_length _ _ _
    · rfl

theorem reset_fold_length (l : List Nat) (hp : List astra_handpoint_t) :
    (l.foldl (fun hp i => at_handpoint hp i HandTracker.reset_hand_point) hp).length
      = hp.length := by
  induction l generalizing hp with
  | nil => rfl
  | cons i l ih => rw [List.foldl_cons, ih, at_handpoint_length]

/-- The record buffer keeps its length through `update_hand_frame`. -/
theorem update_hand_frame_length (inc : Bool) (pts : List TrackedPoint)
    (frame : astra_handframe) :
    (HandTracker.update_hand_frame inc pts frame).handpoints.length
      = frame.handpoints.length := by
  unfold HandTracker.update_hand_frame HandTracker.reset_unused
  dsimp only
  rw [reset_fold_length, visit_fold_length]

theorem getElem?_of_lt_length (hp : List astra_handpoint_t) (j : Nat) (h : j < hp.length) :
    ∃ r, hp[j]? = some r := ⟨hp[j], List.getElem?_eq_getElem h⟩

/-! ### The claims on the hand frame -/

/-- C1, as stated, fails: with no tracked point and ten slots, `generate_hand_frame` leaves
`handCount` at ten and the first record has `trackingId = -1`. -/
theorem generate_hand_frame_empty_violates_emission_bound :
    ∃ out, HandTracker.generate_hand_frame 10 false [] (some example_hand_wrapper) = some out ∧
      ¬ (out.frame.handCount ≤ 10 ∧
        ∀ i, i < out.frame.handCount →
          ∃ r, out.frame.handpoints[i]? = some r ∧ 0 ≤ r.trackingId) := by
  refine ⟨_, rfl, ?_⟩
  rintro ⟨_, h⟩
  obtain ⟨r, hr, h0⟩ := h 0 (by decide)
  have hr0 : r = HandTracker.reset_hand_point stale_hand_point := by
    have : (some (HandTracker.reset_hand_point stale_hand_point) : Option astra_handpoint_t)
        = some r := by
      rw [← hr]
      rfl
    exact (Option.some.inj this).symm
  rw [hr0] at h0
  exact absurd h0 (by decide)

/-- C1, amended: `generate_hand_frame` sets `handCount` to the capacity
`ASTRA_HANDS_MAX_HAND_COUNT`; when the tracked points have `trackingId ≥ 0`, each of the first
`k` records has `trackingId ≥ 0`, where `k` is the number of eligible points capped at the
capacity, and the records from `k` up to `handCount` have `trackingId = -1`. -/
theorem generate_hand_frame_emission_bound (cap : Nat) (includeCandidates : Bool)
    (pts : List TrackedPoint) (w : astra_handframe_wrapper_t)
    (hbuf : cap ≤ w.frame_data.length) (hids : ∀ p ∈ pts, 0 ≤ p.trackingId) :
    ∃ out, HandTracker.generate_hand_frame cap includeCandidates pts (some w) = some out ∧
      out.frame.handCount = cap ∧
      (∀ i, i < min (pts.filter
            (fun p => decide (eligible_for_emission includeCandidates p))).length cap →
          ∃ r, out.frame.handpoints[i]? = some r ∧ 0 ≤ r.trackingId) ∧
      (∀ i, min (pts.filter
            (fun p => decide (eligible_for_emission includeCandidates p))).length cap ≤ i →
          i < cap → ∃ r, out.frame.handpoints[i]? = some r ∧ r.trackingId = -1) := by
  refine ⟨_, rfl, rfl, ?_, ?_⟩
  · intro i hi
    have hlen : i < (pts.filter
        (fun p => decide (eligible_for_emission includeCandidates p))).length := by omega
    have hp := List.getElem?_eq_getElem hlen
    obtain ⟨old, hold⟩ := getElem?_of_lt_length w.frame_data i (by omega)
    have hw := update_hand_frame_written includeCandidates pts
      { handpoints := w.frame_data, handCount := cap } i _ (by dsimp only; omega) hp
    dsimp only at hw ⊢
    rw [hw, hold]
    refine ⟨_, rfl, ?_⟩
    have hmem := List.getElem_mem hlen
    exact hids _ (List.mem_of_mem_filter hmem)
  · intro i hk hi
    obtain ⟨old, hold⟩ := getElem?_of_lt_length w.frame_data i (by omega)
    have hw := update_hand_frame_unused includeCandidates pts
      { handpoints := w.frame_data, handCount := cap } i hk hi
    dsimp only at hw ⊢
    rw [hw, hold]
    exact ⟨_, rfl, rfl⟩

/-- Witness of `generate_hand_frame_emission_bound`: ten slots, an active and a candidate
point, candidates included. -/
theorem generate_hand_frame_emission_bound_witness :
    (10 ≤ example_hand_wrapper.frame_data.length ∧
      ∀ p ∈ [example_active_point, example_candidate_point], 0 ≤ p.trackingId) ∧
    ∃ out, HandTracker.generate_hand_frame 10 true
        [example_active_point, example_candidate_point] (some example_hand_wrapper) = some out ∧
      out.frame.handCount = 10 ∧
      (∀ i, i < min ([example_active_point, example_candidate_point].filter
            (fun p => decide (eligible_for_emission true p))).length 10 →
          ∃ r, out.frame.handpoints[i]? = some r ∧ 0 ≤ r.trackingId) ∧
      (∀ i, min ([example_active_point, example_candidate_point].filter
            (fun p => decide (eligible_for_emission true p))).length 10 ≤ i →
          i < 10 → ∃ r, out.frame.handpoints[i]? = some r ∧ r.trackingId = -1) :=
  ⟨⟨by decide, by decide⟩,
    generate_hand_frame_emission_bound 10 true [example_active_point, example_candidate_point]
      example_hand_wrapper (by decide) (by decide)⟩

/-- C2: `update_hand_frame` fills the slots `0 .. k-1` with the first `k` eligible points in
container order, `k` being the number of eligible points capped at `maxHandCount`
(`frame.handCount`): slot `i` carries the `i`-th eligible point's `trackingId`,
`fullSizePosition`, `fullSizeWorldPosition` and `fullSizeWorldDeltaPosition` (and its converted
status); `handCount` is unchanged and nothing past `maxHandCount` is written, so later eligible
points are dropped. -/
theorem update_hand_frame_fills_first_eligible (includeCandidates : Bool)
    (pts : List TrackedPoint) (frame : astra_handframe)
    (hbuf : frame.handCount ≤ frame.handpoints.length) :
    (∀ i, i < min (pts.filter
          (fun p => decide (eligible_for_emission includeCandidates p))).length frame.handCount →
        ∃ p, (pts.filter (fun p => decide (eligible_for_emission includeCandidates p)))[i]?
            = some p ∧
          (HandTracker.update_hand_frame includeCandidates pts frame).handpoints[i]? = some
            { trackingId := p.trackingId
              status := HandTracker.convert_hand_status p.trackingStatus p.pointType
              depthPosition := { x := p.fullSizePosition.x, y := p.fullSizePosition.y }
              worldPosition :=
                { x := p.fullSizeWorldPosition.x
                  y := p.fullSizeWorldPosition.y
                  z := p.fullSizeWorldPosition.z }
              worldDeltaPosition :=
                { x := p.fullSizeWorldDeltaPosition.x
                  y := p.fullSizeWorldDeltaPosition.y
                  z := p.fullSizeWorldDeltaPosition.z } }) ∧
    (HandTracker.update_hand_frame includeCandidates pts frame).handCount = frame.handCount ∧
    (HandTracker.update_hand_frame includeCandidates pts frame).handpoints.length
      = frame.handpoints.length ∧
    (∀ i, frame.handCount ≤ i →
      (HandTracker.update_hand_frame includeCandidates pts frame).handpoints[i]?
        = frame.handpoints[i]?) := by
  refine ⟨?_, rfl, ?_, fun i hi => update_hand_frame_beyond includeCandidates pts frame i hi⟩
  · intro i hi
    have hlen : i < (pts.filter
        (fun p => decide (eligible_for_emission includeCandidates p))).length := by omega
    have hp := List.getElem?_eq_getElem hlen
    obtain ⟨old, hold⟩ := getElem?_of_lt_length frame.handpoints i (by omega)
    refine ⟨_, hp, ?_⟩
    rw [update_hand_frame_written includeCandidates pts frame i _ (by omega) hp, hold]
    rfl
  · exact update_hand_frame_length includeCandidates pts frame

/-- Witness of `update_hand_frame_fills_first_eligible`: two slots, three eligible points after
an excluded candidate. -/
theorem update_hand_frame_fills_first_eligible_witness :
    example_hand_frame.handCount ≤ example_hand_frame.handpoints.length ∧
    ((∀ i, i < min (example_points.filter
          (fun p => decide (eligible_for_emission false p))).length
            example_hand_frame.handCount →
        ∃ p, (example_points.filter (fun p => decide (eligible_for_emission false p)))[i]?
            = some p ∧
          (HandTracker.update_hand_frame false example_points example_hand_frame).handpoints[i]?
            = some
            { trackingId := p.trackingId
              status := HandTracker.convert_hand_status p.trackingStatus p.pointType
              depthPosition := { x := p.fullSizePosition.x, y := p.fullSizePosition.y }
              worldPosition :=
                { x := p.fullSizeWorldPosition.x
                  y := p.fullSizeWorldPosition.y
                  z := p.fullSizeWorldPosition.z }
              worldDeltaPosition :=
                { x := p.fullSizeWorldDeltaPosition.x
                  y := p.fullSizeWorldDeltaPosition.y
                  z := p.fullSizeWorldDeltaPosition.z } }) ∧
    (HandTracker.update_hand_frame false example_points example_hand_frame).handCount
      = example_hand_frame.handCount ∧
    (HandTracker.update_hand_frame false example_points example_hand_frame).handpoints.length
      = example_hand_frame.handpoints.length ∧
    (∀ i, example_hand_frame.handCount ≤ i →
      (HandTracker.update_hand_frame false example_points example_hand_frame).handpoints[i]?
        = example_hand_frame.handpoints[i]?)) :=
  ⟨by decide,
    update_hand_frame_fills_first_eligible false example_points example_hand_frame (by decide)⟩

/-- C3: after `update_hand_frame`, every slot from the number `k` of points written up to
`maxHandCount - 1` has `trackingId = -1`, status NotTracking and zero depth position, world
position and world delta, whatever the slot held before. -/
theorem update_hand_frame_resets_unused (includeCandidates : Bool)
    (pts : List TrackedPoint) (frame : astra_handframe)
    (hbuf : frame.handCount ≤ frame.handpoints.length) :
    ∀ i, min (pts.filter
          (fun p => decide (eligible_for_emission includeCandidates p))).length
            frame.handCount ≤ i →
      i < frame.handCount →
      (HandTracker.update_hand_frame includeCandidates pts frame).handpoints[i]? = some
        { trackingId := -1
          status := astra_handstatus_t.HAND_STATUS_NOTTRACKING
          depthPosition := { x := 0, y := 0 }
          worldPosition := { x := 0, y := 0, z := 0 }
          worldDeltaPosition := { x := 0, y := 0, z := 0 } } := by
  intro i hk hi
  obtain ⟨old, hold⟩ := getElem?_of_lt_length frame.handpoints i (by omega)
  rw [update_hand_frame_unused includeCandidates pts frame i hk hi, hold]
  rfl

/-- Witness of `update_hand_frame_resets_unused`: two stale slots and one eligible point, so
slot 1 is reset. -/
theorem update_hand_frame_resets_unused_witness :
    example_hand_frame.handCount ≤ example_hand_frame.handpoints.length ∧
    ∀ i, min ([example_active_point].filter
          (fun p => decide (eligible_for_emission true p))).length
            example_hand_frame.handCount ≤ i →
      i < example_hand_frame.handCount →
      (HandTracker.update_hand_frame true [example_active_point]
          example_hand_frame).handpoints[i]? = some
        { trackingId := -1
          status := astra_handstatus_t.HAND_STATUS_NOTTRACKING
          depthPosition := { x := 0, y := 0 }
          worldPosition := { x := 0, y := 0, z := 0 }
          worldDeltaPosition := { x := 0, y := 0, z := 0 } } :=
  ⟨by decide,
    update_hand_frame_resets_unused true [example_active_point] example_hand_frame (by decide)⟩

/-- C4: a record of the frame written by `update_hand_frame` has status Candidate only when
`includeCandidatePoints` is true; with the flag false no record has that status. -/
theorem update_hand_frame_candidate_only_if_included (includeCandidates : Bool)
    (pts : List TrackedPoint) (frame : astra_handframe) (i : Nat) (r : astra_handpoint_t)
    (hi : i < frame.handCount)
    (hr : (HandTracker.update_hand_frame includeCandidates pts frame).handpoints[i]? = some r)
    (hc : r.status = astra_handstatus_t.HAND_STATUS_CANDIDATE) :
    includeCandidates = true := by
  by_cases hk : min (pts.filter
      (fun p => decide (eligible_for_emission includeCandidates p))).length frame.handCount ≤ i
  · rw [update_hand_frame_unused includeCandidates pts frame i hk hi] at hr
    cases hold : frame.handpoints[i]? with
    | none => rw [hold] at hr; cases hr
    | some old =>
      rw [hold] at hr
      have : r = HandTracker.reset_hand_point old := (Option.some.inj hr).symm
      rw [this] at hc
      cases hc
  · have hlen : i < (pts.filter
        (fun p => decide (eligible_for_emission includeCandidates p))).length := by omega
    have hp := List.getElem?_eq_getElem hlen
    rw [update_hand_frame_written includeCandidates pts frame i _ hi hp] at hr
    cases hold : frame.handpoints[i]? with
    | none => rw [hold] at hr; cases hr
    | some old =>
      rw [hold] at hr
      have hrw : r = HandTracker.write_hand_point _ old := (Option.some.inj hr).symm
      rw [hrw] at hc
      have hel := List.of_mem_filter (List.getElem_mem hlen)
      simp only [decide_eq_true_eq] at hel
      rcases hel.2 with hact | ⟨_, hinc⟩
      · have hst : HandTracker.convert_hand_status
            ((pts.filter (fun p => decide (eligible_for_emission includeCandidates p)))[i]).trackingStatus
            ((pts.filter (fun p => decide (eligible_for_emission includeCandidates p)))[i]).pointType
            = astra_handstatus_t.HAND_STATUS_CANDIDATE := hc
        rw [hact] at hst
        unfold HandTracker.convert_hand_status at hst
        simp only [reduceCtorEq, if_false] at hst
        split at hst <;> cases hst
      · exact hinc

/-- Witness of `update_hand_frame_candidate_only_if_included`: with candidates included, a
tracked candidate point is emitted in slot 0 with status Candidate. -/
theorem update_hand_frame_candidate_only_if_included_witness :
    (0 < example_hand_frame.handCount ∧
      (HandTracker.update_hand_frame true [example_candidate_point]
          example_hand_frame).handpoints[0]?
        = some (HandTracker.write_hand_point example_candidate_point stale_hand_point) ∧
      (HandTracker.write_hand_point example_candidate_point stale_hand_point).status
        = astra_handstatus_t.HAND_STATUS_CANDIDATE) ∧
    true = true :=
  ⟨⟨by decide, by rfl, by rfl⟩,
    update_hand_frame_candidate_only_if_included true [example_candidate_point]
      example_hand_frame 0
      (HandTracker.write_hand_point example_candidate_point stale_hand_point)
      (by decide) (by rfl) (by rfl)⟩

/-- C5: `convert_hand_status` is a total function into the four hand statuses; it returns
Candidate for every CandidatePoint whatever the tracking status, and for an ActivePoint it
returns Tracking for Tracking, Lost for Lost, and NotTracking for Dead and for NotTracking. -/
theorem convert_hand_status_table :
    (∀ status, HandTracker.convert_hand_status status TrackedPointType.CandidatePoint
        = astra_handstatus_t.HAND_STATUS_CANDIDATE) ∧
    HandTracker.convert_hand_status TrackingStatus.Tracking TrackedPointType.ActivePoint
      = astra_handstatus_t.HAND_STATUS_TRACKING ∧
    HandTracker.convert_hand_status TrackingStatus.Lost TrackedPointType.ActivePoint
      = astra_handstatus_t.HAND_STATUS_LOST ∧
    HandTracker.convert_hand_status TrackingStatus.Dead TrackedPointType.ActivePoint
      = astra_handstatus_t.HAND_STATUS_NOTTRACKING ∧
    HandTracker.convert_hand_status TrackingStatus.NotTracking TrackedPointType.ActivePoint
      = astra_handstatus_t.HAND_STATUS_NOTTRACKING ∧
    (∀ status type,
      HandTracker.convert_hand_status status type = astra_handstatus_t.HAND_STATUS_NOTTRACKING ∨
      HandTracker.convert_hand_status status type = astra_handstatus_t.HAND_STATUS_TRACKING ∨
      HandTracker.convert_hand_status status type = astra_handstatus_t.HAND_STATUS_LOST ∨
      HandTracker.convert_hand_status status type = astra_handstatus_t.HAND_STATUS_CANDIDATE) := by
  refine ⟨fun status => rfl, rfl, rfl, rfl, rfl, ?_⟩
  intro status type
  cases status <;> cases type <;> decide

/-- C10, as stated, fails: with an empty tracked-point list and ten slots, the frame written by
`generate_hand_frame` has `handCount = 10`, not 0. -/
theorem generate_hand_frame_empty_handCount_not_zero :
    ∃ out, HandTracker.generate_hand_frame 10 true [] (some example_hand_wrapper) = some out ∧
      out.frame.handCount = 10 ∧ out.frame.handCount ≠ 0 :=
  ⟨_, rfl, rfl, by decide⟩

/-- C10, amended: with an empty tracked-point list, the frame written by `generate_hand_frame`
has `handCount` equal to the capacity `ASTRA_HANDS_MAX_HAND_COUNT`, and every one of its records
is a reset one: `trackingId = -1`, status NotTracking, zero positions. -/
theorem generate_hand_frame_empty (cap : Nat) (includeCandidates : Bool)
    (w : astra_handframe_wrapper_t) (hbuf : cap ≤ w.frame_data.length) :
    ∃ out, HandTracker.generate_hand_frame cap includeCandidates [] (some w) = some out ∧
      out.frame.handCount = cap ∧
      ∀ i, i < cap → out.frame.handpoints[i]? = some
        { trackingId := -1
          status := astra_handstatus_t.HAND_STATUS_NOTTRACKING
          depthPosition := { x := 0, y := 0 }
          worldPosition := { x := 0, y := 0, z := 0 }
          worldDeltaPosition := { x := 0, y := 0, z := 0 } } := by
  refine ⟨_, rfl, rfl, ?_⟩
  intro i hi
  obtain ⟨old, hold⟩ := getElem?_of_lt_length w.frame_data i (by omega)
  have hw := update_hand_frame_unused includeCandidates []
    { handpoints := w.frame_data, handCount := cap } i (by simp) hi
  dsimp only at hw ⊢
  rw [hw, hold]
  rfl

/-- Witness of `generate_hand_frame_empty`: ten stale slots. -/
theorem generate_hand_frame_empty_witness :
    10 ≤ example_hand_wrapper.frame_data.length ∧
    ∃ out, HandTracker.generate_hand_frame 10 false [] (some example_hand_wrapper) = some out ∧
      out.frame.handCount = 10 ∧
      ∀ i, i < 10 → out.frame.handpoints[i]? = some
        { trackingId := -1
          status := astra_handstatus_t.HAND_STATUS_NOTTRACKING
          depthPosition := { x := 0, y := 0 }
          worldPosition := { x := 0, y := 0, z := 0 }
          worldDeltaPosition := { x := 0, y := 0, z := 0 } } :=
  ⟨by decide, generate_hand_frame_empty 10 false example_hand_wrapper (by decide)⟩

/-! ## Depth to world projection -/

theorem calculate_point_frame_pixel_points (c : conversion_cache_t) (data : List Int)
    (y : Nat) (cur : PointCursor) (x : Nat) (j : Nat) :
    (PointProcessor.calculate_point_frame_pixel c data y cur x).points[j]?
      = if j = cur.p_points then
          cur.points[j]?.map (fun _ =>
            PointProcessor.world_point c x y (to_uint16 (data.getD cur.p_depth 0)))
        else cur.points[j]? := by
  unfold PointProcessor.calculate_point_frame_pixel
  dsimp only
  rw [List.getElem?_set]
  by_cases h : j = cur.p_points
  · rw [h]
    by_cases hl : cur.p_points < cur.points.length
    · simp [hl, List.getElem?_eq_getElem hl]
    · have : cur.points[cur.p_points]? = none := List.getElem?_eq_none (by omega)
      simp [hl, this]
  · have : ¬ cur.p_points = j := fun e => h e.symm
    simp [h, this]

theorem calculate_point_frame_row_spec (c : conversion_cache_t) (data : List Int)
    (cur : PointCursor) (y : Nat) (n : Nat) :
    ((List.range n).foldl (PointProcessor.calculate_point_frame_pixel c data y) cur).p_points
        = cur.p_points + n ∧
    ((List.range n).foldl (PointProcessor.calculate_point_frame_pixel c data y) cur).p_depth
        = cur.p_depth + n ∧
    ∀ j, ((List.range n).foldl
            (PointProcessor.calculate_point_frame_pixel c data y) cur).points[j]?
      = if cur.p_points ≤ j ∧ j < cur.p_points + n then
          cur.points[j]?.map (fun _ =>
            PointProcessor.world_point c (j - cur.p_points) y
              (to_uint16 (data.getD (cur.p_depth + (j - cur.p_points)) 0)))
        else cur.points[j]? := by
  induction n with
  | zero =>
    refine ⟨rfl, rfl, ?_⟩
    intro j
    have : ¬ (cur.p_points ≤ j ∧ j < cur.p_points) := by omega
    simp [this]
  | succ n ih =>
    obtain ⟨ih1, ih2, ih3⟩ := ih
    rw [List.range_succ, List.foldl_append]
    simp only [List.foldl_cons, List.foldl_nil]
    refine ⟨?_, ?_, ?_⟩
    · show _ + 1 = _
      rw [ih1]; omega
    · show _ + 1 = _
      rw [ih2]; omega
    · intro j
      rw [calculate_point_frame_pixel_points, ih1, ih2, ih3]
      by_cases hj : j = cur.p_points + n
      · subst hj
        have h1 : ¬ (cur.p_points ≤ cur.p_points + n ∧ cur.p_points + n < cur.p_points + n) := by
          omega
        have h2 : (cur.p_points ≤ cur.p_points + n ∧
            cur.p_points + n < cur.p_points + (n + 1)) := by omega
        have h3 : cur.p_points + n - cur.p_points = n := by omega
        rw [if_pos rfl, if_neg h1, if_pos h2, h3]
      · by_cases hr : cur.p_points ≤ j ∧ j < cur.p_points + n
        · have h2 : (cur.p_points ≤ j ∧ j < cur.p_points + (n + 1)) := by omega
          rw [if_neg hj, if_pos hr, if_pos h2]
        · have h2 : ¬ (cur.p_points ≤ j ∧ j < cur.p_points + (n + 1)) := by omega
          rw [if_neg hj, if_neg hr, if_neg h2]

theorem row_index_div_mod (W h j : Nat) (h1 : h * W ≤ j) (h2 : j < h * W + W) :
    j / W = h ∧ j % W = j - h * W := by
  have hW : 0 < W := by
    rcases Nat.eq_zero_or_pos W with h0 | h0
    · subst h0; omega
    · exact h0
  have hj : j = (j - h * W) + h * W := by omega
  have hlt : j - h * W < W := by omega
  constructor
  · rw [hj, Nat.add_mul_div_right _ _ hW, Nat.div_eq_of_lt hlt]
    omega
  · conv_lhs => rw [hj]
    rw [Nat.add_mul_mod_self_right, Nat.mod_eq_of_lt hlt]

theorem calculate_point_frame_rows_spec (c : conversion_cache_t) (data : List Int)
    (W : Nat) (buf : List Vector3f) (h : Nat) :
    ((List.range h).foldl (PointProcessor.calculate_point_frame_row c data W)
        { p_points := 0, p_depth := 0, points := buf }).p_points = h * W ∧
    ((List.range h).foldl (PointProcessor.calculate_point_frame_row c data W)
        { p_points := 0, p_depth := 0, points := buf }).p_depth = h * W ∧
    ∀ j, ((List.range h).foldl (PointProcessor.calculate_point_frame_row c data W)
        { p_points := 0, p_depth := 0, points := buf }).points[j]?
      = if j < h * W then
          buf[j]?.map (fun _ =>
            PointProcessor.world_point c (j % W) (j / W) (to_uint16 (data.getD j 0)))
        else buf[j]? := by
  induction h with
  | zero =>
    refine ⟨by simp, by simp, ?_⟩
    intro j
    simp
  | succ h ih =>
    obtain ⟨ih1, ih2, ih3⟩ := ih
    rw [List.range_succ, List.foldl_append]
    simp only [List.foldl_cons, List.foldl_nil]
    unfold PointProcessor.calculate_point_frame_row
    obtain ⟨r1, r2, r3⟩ := calculate_point_frame_row_spec c data
      ((List.range h).foldl (PointProcessor.calculate_point_frame_row c data W)
        { p_points := 0, p_depth := 0, points := buf }) h W
    unfold PointProcessor.calculate_point_frame_row at r1 r2 r3 ih1 ih2 ih3
    refine ⟨?_, ?_, ?_⟩
    · rw [r1, ih1, Nat.succ_mul]
    · rw [r2, ih2, Nat.succ_mul]
    · intro j
      rw [r3, ih1, ih2, ih3]
      by_cases hr : h * W ≤ j ∧ j < h * W + W
      · obtain ⟨hd, hm⟩ := row_index_div_mod W h j hr.1 hr.2
        have h1 : ¬ j < h * W := by omega
        have h2 : j < (h + 1) * W := by rw [Nat.succ_mul]; omega
        have h3 : h * W + (j - h * W) = j := by omega
        rw [if_pos hr, if_neg h1, if_pos h2, hd, hm, h3]
      · rw [if_neg hr]
        by_cases h1 : j < h * W
        · have h2 : j < (h + 1) * W := by rw [Nat.succ_mul]; omega
          rw [if_pos h1, if_pos h2]
        · have h2 : ¬ j < (h + 1) * W := by rw [Nat.succ_mul]; omega
          rw [if_neg h1, if_neg h2]

/-- The buffer written by `calculate_point_frame`, slot by slot. -/
theorem calculate_point_frame_getElem? (c : conversion_cache_t) (frame : DepthFrame)
    (buf : List Vector3f) (j : Nat) :
    (PointProcessor.calculate_point_frame c frame buf)[j]?
      = if j < frame.resolutionY * frame.resolutionX then
          buf[j]?.map (fun _ =>
            PointProcessor.world_point c (j % frame.resolutionX) (j / frame.resolutionX)
              (to_uint16 (frame.data.getD j 0)))
        else buf[j]? :=
  (calculate_point_frame_rows_spec c frame.data frame.resolutionX buf frame.resolutionY).2.2 j

/-- C6: for a depth frame of width `W` and height `H` and a pixel `(x, y)` inside it,
`calculate_point_frame` writes at the row-major index `y*W + x` the world point
`wx = (x/resX - 0.5)*depth*xzFactor`, `wy = (0.5 - y/resY)*depth*yzFactor`, `wz = depth`, in
exact arithmetic, where `depth` is the frame's sample at that pixel read as `uint16_t` (the
sample itself when it is not negative). -/
theorem calculate_point_frame_world_point (c : conversion_cache_t) (frame : DepthFrame)
    (buf : List Vector3f) (x y : Nat) (s : Int)
    (hx : x < frame.resolutionX) (hy : y < frame.resolutionY)
    (hbuf : frame.resolutionX * frame.resolutionY ≤ buf.length)
    (hs : frame.data[y * frame.resolutionX + x]? = some s) :
    (PointProcessor.calculate_point_frame c frame buf)[y * frame.resolutionX + x]? = some
      { x := ((x : ℚ) / c.resolutionX - 1 / 2) * ((to_uint16 s : Int) : ℚ) * c.xzFactor
        y := (1 / 2 - (y : ℚ) / c.resolutionY) * ((to_uint16 s : Int) : ℚ) * c.yzFactor
        z := ((to_uint16 s : Int) : ℚ) } ∧
    (0 ≤ s → s < 65536 → to_uint16 s = s) := by
  have hlt : y * frame.resolutionX + x < frame.resolutionY * frame.resolutionX := by
    calc y * frame.resolutionX + x < y * frame.resolutionX + frame.resolutionX := by omega
      _ = (y + 1) * frame.resolutionX := by rw [Nat.succ_mul]
      _ ≤ frame.resolutionY * frame.resolutionX := Nat.mul_le_mul_right _ hy
  constructor
  · rw [calculate_point_frame_getElem?, if_pos hlt]
    obtain ⟨hd, hm⟩ := row_index_div_mod frame.resolutionX y (y * frame.resolutionX + x)
      (by omega) (by omega)
    have hm2 : (y * frame.resolutionX + x) % frame.resolutionX = x := by rw [hm]; omega
    have hb : y * frame.resolutionX + x < buf.length := by
      rw [Nat.mul_comm frame.resolutionY frame.resolutionX] at hlt; omega
    have hget : frame.data.getD (y * frame.resolutionX + x) 0 = s := by
      rw [List.getD_eq_getElem?_getD, hs]; rfl
    rw [hd, hm2, hget, List.getElem?_eq_getElem hb]
    rfl
  · intro h0 h1
    unfold to_uint16
    exact Int.emod_eq_of_lt h0 h1

/-- Witness of `calculate_point_frame_world_point`: pixel (2, 1) of the 4 x 3 example frame,
whose sample is 700. -/
theorem calculate_point_frame_world_point_witness :
    (2 < example_depth_frame.resolutionX ∧ 1 < example_depth_frame.resolutionY ∧
      example_depth_frame.resolutionX * example_depth_frame.resolutionY
        ≤ example_point_buffer.length ∧
      example_depth_frame.data[1 * example_depth_frame.resolutionX + 2]? = some 700) ∧
    ((PointProcessor.calculate_point_frame example_cache example_depth_frame
        example_point_buffer)[1 * example_depth_frame.resolutionX + 2]? = some
      { x := (((2 : Nat) : ℚ) / example_cache.resolutionX - 1 / 2) *
            ((to_uint16 700 : Int) : ℚ) * example_cache.xzFactor
        y := (1 / 2 - ((1 : Nat) : ℚ) / example_cache.resolutionY) *
            ((to_uint16 700 : Int) : ℚ) * example_cache.yzFactor
        z := ((to_uint16 700 : Int) : ℚ) } ∧
    ((0 : Int) ≤ 700 → (700 : Int) < 65536 → to_uint16 700 = 700)) :=
  ⟨⟨by decide, by decide, by decide, by decide⟩,
    calculate_point_frame_world_point example_cache example_depth_frame example_point_buffer
      2 1 700 (by decide) (by decide) (by decide) (by decide)⟩

/-- C7: for a pixel `(x, y)` with depth `d > 0` and a projection cache whose `resolutionX`,
`resolutionY`, `xzFactor` and `yzFactor` are not zero, projecting `(x, y, d)` to the world with
the formula of `calculate_point_frame` and mapping the world point back with the inverse
formula returns `(x, y)`. -/
theorem projection_round_trip (c : conversion_cache_t) (x y : Nat) (d : Int)
    (hd : 0 < d) (hrx : c.resolutionX ≠ 0) (hry : c.resolutionY ≠ 0)
    (hxz : c.xzFactor ≠ 0) (hyz : c.yzFactor ≠ 0) :
    world_to_depth c (PointProcessor.world_point c x y d) = ((x : ℚ), (y : ℚ)) := by
  have hdq : (d : ℚ) ≠ 0 := by
    have : (0 : ℚ) < (d : ℚ) := by exact_mod_cast hd
    exact ne_of_gt this
  unfold world_to_depth PointProcessor.world_point
  dsimp only
  refine Prod.ext ?_ ?_
  · dsimp only
    field_simp
    ring
  · dsimp only
    field_simp
    ring

/-- Witness of `projection_round_trip`: pixel (2, 1) at depth 700 with the example cache. -/
theorem projection_round_trip_witness :
    ((0 : Int) < 700 ∧ example_cache.resolutionX ≠ 0 ∧ example_cache.resolutionY ≠ 0 ∧
      example_cache.xzFactor ≠ 0 ∧ example_cache.yzFactor ≠ 0) ∧
    world_to_depth example_cache (PointProcessor.world_point example_cache 2 1 700)
      = (((2 : Nat) : ℚ), ((1 : Nat) : ℚ)) :=
  ⟨⟨by decide, by decide, by decide, by norm_num [example_cache],
      by norm_num [example_cache]⟩,
    projection_round_trip example_cache 2 1 700 (by decide) (by decide) (by decide)
      (by norm_num [example_cache]) (by norm_num [example_cache])⟩

/-! ## The per-frame pipeline -/

theorem invoke_all_eq {PP DU : Type} (ops : Collaborators PP DU) (cs : List Call)
    (t : Tracker PP DU) :
    invoke_all ops cs t =
      { t with work := cs.foldl (fun w c => ops.run c w) t.work, trace := t.trace ++ cs } := by
  induction cs generalizing t with
  | nil => simp [invoke_all]
  | cons c cs ih =>
    have : invoke_all ops (c :: cs) t = invoke_all ops cs (invoke ops c t) := rfl
    rw [this, ih]
    simp [invoke]

theorem invoke_all_append {PP DU : Type} (ops : Collaborators PP DU) (as bs : List Call)
    (t : Tracker PP DU) :
    invoke_all ops bs (invoke_all ops as t) = invoke_all ops (as ++ bs) t := by
  simp [invoke_all, List.foldl_append]

theorem invoke_all_debugImageStream {PP DU : Type} (ops : Collaborators PP DU)
    (cs : List Call) (t : Tracker PP DU) :
    (invoke_all ops cs t).m_debugImageStream = t.m_debugImageStream := by
  rw [invoke_all_eq]

theorem invoke_all_handStream {PP DU : Type} (ops : Collaborators PP DU)
    (cs : List Call) (t : Tracker PP DU) :
    (invoke_all ops cs t).m_handStream = t.m_handStream := by
  rw [invoke_all_eq]

theorem invoke_all_depth_to_world_data {PP DU : Type} (ops : Collaborators PP DU)
    (cs : List Call) (t : Tracker PP DU) :
    (invoke_all ops cs t).depth_to_world_data = t.depth_to_world_data := by
  rw [invoke_all_eq]

theorem invoke_all_work {PP DU : Type} (ops : Collaborators PP DU)
    (cs : List Call) (t : Tracker PP DU) :
    (invoke_all ops cs t).work = cs.foldl (fun w c => ops.run c w) t.work := by
  rw [invoke_all_eq]

theorem invoke_all_trace {PP DU : Type} (ops : Collaborators PP DU)
    (cs : List Call) (t : Tracker PP DU) :
    (invoke_all ops cs t).trace = t.trace ++ cs := by
  rw [invoke_all_eq]

/-- The three matrix bundles depend on the tracker only through its debug stream and its
conversion cache. -/
theorem matrices_congr {PP DU : Type} (t t' : Tracker PP DU)
    (h1 : t'.m_debugImageStream = t.m_debugImageStream)
    (h2 : t'.depth_to_world_data = t.depth_to_world_data)
    (d dfs vel : MatMember) (pf : List Vector3f) :
    HandTracker.updateMatrices t' d dfs vel pf = HandTracker.updateMatrices t d dfs vel pf ∧
    HandTracker.createMatrices t' d dfs vel pf = HandTracker.createMatrices t d dfs vel pf ∧
    HandTracker.refinementMatrices t' dfs vel pf
      = HandTracker.refinementMatrices t dfs vel pf := by
  unfold HandTracker.updateMatrices HandTracker.createMatrices HandTracker.refinementMatrices
  rw [h1, h2]
  exact ⟨rfl, rfl, rfl⟩

/-- The seed loop ends when each iteration lowers a measure that the fuel exceeds: it makes one
`updateTrackedPointOrCreateNewPointFromSeedPosition` call per seed found and nothing else. -/
theorem seed_loop_spec {PP DU : Type} (ops : Collaborators PP DU) (cm : TrackingMatrices)
    (vel : MatMember) (μ : cvPoint → Work PP DU → Nat)
    (hdec : ∀ start w seed next,
      ops.find_next_velocity_seed_pixel (w.mats vel)
        (w.mats MatMember.m_createForegroundSearched) start = some (seed, next) →
      μ next (ops.run (Call.updateTrackedPointOrCreateNewPointFromSeedPosition cm seed) w)
        < μ start w)
    (fuel : Nat) (start : cvPoint) (t : Tracker PP DU) (hfuel : μ start t.work < fuel) :
    ∃ seeds : List cvPoint,
      HandTracker.seed_loop ops cm vel fuel start t = some
        (invoke_all ops
          (seeds.map (fun s => Call.updateTrackedPointOrCreateNewPointFromSeedPosition cm s))
          t) := by
  induction fuel generalizing start t with
  | zero => omega
  | succ fuel ih =>
    unfold HandTracker.seed_loop
    cases hf : ops.find_next_velocity_seed_pixel (t.work.mats vel)
        (t.work.mats MatMember.m_createForegroundSearched) start with
    | none => exact ⟨[], rfl⟩
    | some found =>
      obtain ⟨seed, next⟩ := found
      have hlt := hdec start t.work seed next hf
      obtain ⟨seeds, hs⟩ := ih next
        (invoke ops (Call.updateTrackedPointOrCreateNewPointFromSeedPosition cm seed) t)
        (by
          show μ next (ops.run _ t.work) < fuel
          omega)
      refine ⟨seed :: seeds, ?_⟩
      dsimp only
      rw [hs]
      rfl

/-- The calls of `track_points` with input not paused and the mouse probe off, for the seeds
found by the seed loop. -/
theorem track_points_spec {PP DU : Type} (ops : Collaborators PP DU)
    (fuel : Nat) (t : Tracker PP DU) (d dfs vel : MatMember) (pointFrame : List Vector3f)
    (μ : cvPoint → Work PP DU → Nat)
    (hpause : t.m_debugImageStream.pause_input = false)
    (hprobe : t.m_debugImageStream.use_mouse_probe = false)
    (hdec : ∀ start w seed next,
      ops.find_next_velocity_seed_pixel (w.mats vel)
        (w.mats MatMember.m_createForegroundSearched) start = some (seed, next) →
      μ next (ops.run (Call.updateTrackedPointOrCreateNewPointFromSeedPosition
        (HandTracker.createMatrices t d dfs vel pointFrame) seed) w) < μ start w)
    (hfuel : ∀ start w, μ start w < fuel) :
    ∃ seeds : List cvPoint,
      HandTracker.track_points ops fuel t d dfs vel pointFrame = some
        (invoke_all ops
          ([Call.initialize_common_calculations
              (HandTracker.updateMatrices t d dfs vel pointFrame),
            Call.updateTrackedPoints (HandTracker.updateMatrices t d dfs vel pointFrame),
            Call.removeDuplicatePoints] ++
          seeds.map (fun s => Call.updateTrackedPointOrCreateNewPointFromSeedPosition
            (HandTracker.createMatrices t d dfs vel pointFrame) s) ++
          [Call.removeOldOrDeadPoints,
            Call.update_full_resolution_points
              (HandTracker.refinementMatrices t dfs vel pointFrame),
            Call.update_trajectories])
          ((t.on_work (HandTracker.track_points_zero d)).on_work
            (HandTracker.track_points_world_points d))) := by
  obtain ⟨seeds, hs⟩ := seed_loop_spec ops (HandTracker.createMatrices t d dfs vel pointFrame)
    vel μ hdec fuel { x := 0, y := 0 }
    (invoke_all ops
      [Call.initialize_common_calculations (HandTracker.updateMatrices t d dfs vel pointFrame),
        Call.updateTrackedPoints (HandTracker.updateMatrices t d dfs vel pointFrame),
        Call.removeDuplicatePoints]
      ((t.on_work (HandTracker.track_points_zero d)).on_work
        (HandTracker.track_points_world_points d)))
    (hfuel _ _)
  refine ⟨seeds, ?_⟩
  rw [← invoke_all_append, ← invoke_all_append]
  generalize hX : invoke_all ops
      (seeds.map (fun s => Call.updateTrackedPointOrCreateNewPointFromSeedPosition
        (HandTracker.createMatrices t d dfs vel pointFrame) s))
      (invoke_all ops
        [Call.initialize_common_calculations (HandTracker.updateMatrices t d dfs vel pointFrame),
          Call.updateTrackedPoints (HandTracker.updateMatrices t d dfs vel pointFrame),
          Call.removeDuplicatePoints]
        ((t.on_work (HandTracker.track_points_zero d)).on_work
          (HandTracker.track_points_world_points d))) = X at hs ⊢
  have hXd : X.m_debugImageStream = t.m_debugImageStream := by
    rw [← hX, invoke_all_debugImageStream, invoke_all_debugImageStream]
    rfl
  have hXc : X.depth_to_world_data = t.depth_to_world_data := by
    rw [← hX, invoke_all_depth_to_world_data, invoke_all_depth_to_world_data]
    rfl
  have hprobeX : X.m_debugImageStream.use_mouse_probe = false := by rw [hXd]; exact hprobe
  have hrm : HandTracker.refinementMatrices (invoke ops Call.removeOldOrDeadPoints X) dfs vel
      pointFrame = HandTracker.refinementMatrices t dfs vel pointFrame :=
    (matrices_congr t (invoke ops Call.removeOldOrDeadPoints X) hXd hXc d dfs vel pointFrame).2.2
  have hbody : (invoke ops Call.update_trajectories
      (invoke ops (Call.update_full_resolution_points
          (HandTracker.refinementMatrices
            (invoke ops Call.removeOldOrDeadPoints
              (HandTracker.debug_probe_point ops
                (HandTracker.createMatrices t d dfs vel pointFrame) X)) dfs vel pointFrame))
        (invoke ops Call.removeOldOrDeadPoints
          (HandTracker.debug_probe_point ops
            (HandTracker.createMatrices t d dfs vel pointFrame) X))))
      = invoke_all ops
        [Call.removeOldOrDeadPoints,
          Call.update_full_resolution_points
            (HandTracker.refinementMatrices t dfs vel pointFrame),
          Call.update_trajectories] X := by
    have hp : HandTracker.debug_probe_point ops
        (HandTracker.createMatrices t d dfs vel pointFrame) X = X := by
      unfold HandTracker.debug_probe_point
      simp [hprobeX]
    rw [hp, hrm]
    rfl
  rw [← hbody]
  unfold HandTracker.track_points
  have hs' : HandTracker.seed_loop ops (HandTracker.createMatrices t d dfs vel pointFrame) vel
      fuel { x := 0, y := 0 }
      (invoke ops Call.removeDuplicatePoints
        (invoke ops (Call.updateTrackedPoints
            (HandTracker.updateMatrices t d dfs vel pointFrame))
          (invoke ops (Call.initialize_common_calculations
              (HandTracker.updateMatrices t d dfs vel pointFrame))
            ((t.on_work (HandTracker.track_points_zero d)).on_work
              (HandTracker.track_points_world_points d))))) = some X := hs
  have hpause' : ((t.on_work (HandTracker.track_points_zero d)).on_work
      (HandTracker.track_points_world_points d)).m_debugImageStream.pause_input = false :=
    hpause
  have hum : HandTracker.updateMatrices ((t.on_work (HandTracker.track_points_zero d)).on_work
      (HandTracker.track_points_world_points d)) d dfs vel pointFrame
      = HandTracker.updateMatrices t d dfs vel pointFrame := rfl
  have hcm : ∀ a b c, HandTracker.createMatrices
      (invoke ops a (invoke ops b (invoke ops c
        ((t.on_work (HandTracker.track_points_zero d)).on_work
          (HandTracker.track_points_world_points d))))) d dfs vel pointFrame
      = HandTracker.createMatrices t d dfs vel pointFrame := fun _ _ _ => rfl
  have hprobe' : ∀ a b c, (invoke ops a (invoke ops b (invoke ops c
        ((t.on_work (HandTracker.track_points_zero d)).on_work
          (HandTracker.track_points_world_points d))))).m_debugImageStream.use_mouse_probe
      = false := fun _ _ _ => hprobe
  simp only [hpause', hum, hcm, hprobe', Bool.not_false, if_true, hs']

theorem generate_hand_frame_on_fields {PP DU : Type} (cap : Nat) (ops : Collaborators PP DU)
    (t : Tracker PP DU) (frameIndex : Nat) :
    (HandTracker.generate_hand_frame_on cap ops t frameIndex).work = t.work ∧
    (HandTracker.generate_hand_frame_on cap ops t frameIndex).trace = t.trace ∧
    (HandTracker.generate_hand_frame_on cap ops t frameIndex).m_debugImageStream
      = t.m_debugImageStream := by
  unfold HandTracker.generate_hand_frame_on
  split <;> exact ⟨rfl, rfl, rfl⟩

theorem generate_hand_debug_image_frame_fields {PP DU : Type} (ops : Collaborators PP DU)
    (t : Tracker PP DU) (frameIndex : Nat) :
    (HandTracker.generate_hand_debug_image_frame ops t frameIndex).work = t.work ∧
    (HandTracker.generate_hand_debug_image_frame ops t frameIndex).trace = t.trace ∧
    (HandTracker.generate_hand_debug_image_frame ops t frameIndex).m_handStream
      = t.m_handStream := by
  unfold HandTracker.generate_hand_debug_image_frame
  split <;> exact ⟨rfl, rfl, rfl⟩

/-- The frame generation at the end of `update_tracking` makes no call to a collaborator and
leaves the data of the tracker as it is. -/
theorem frame_generation_fields {PP DU : Type} (cap : Nat) (ops : Collaborators PP DU)
    (t : Tracker PP DU) (frameIndex : Nat) (t' : Tracker PP DU)
    (h : t' =
      (if (if t.m_handStream.has_connections then
            HandTracker.generate_hand_frame_on cap ops t frameIndex
          else t).m_debugImageStream.has_connections then
        HandTracker.generate_hand_debug_image_frame ops
          (if t.m_handStream.has_connections then
            HandTracker.generate_hand_frame_on cap ops t frameIndex
          else t) frameIndex
      else
        (if t.m_handStream.has_connections then
          HandTracker.generate_hand_frame_on cap ops t frameIndex
        else t))) :
    t'.work = t.work ∧ t'.trace = t.trace := by
  subst h
  have h1 : (if t.m_handStream.has_connections then
        HandTracker.generate_hand_frame_on cap ops t frameIndex
      else t).work = t.work ∧
      (if t.m_handStream.has_connections then
        HandTracker.generate_hand_frame_on cap ops t frameIndex
      else t).trace = t.trace := by
    have h0 := generate_hand_frame_on_fields cap ops t frameIndex
    by_cases hh : t.m_handStream.has_connections = true
    · rw [if_pos hh]
      exact ⟨h0.1, h0.2.1⟩
    · rw [if_neg hh]
      exact ⟨rfl, rfl⟩
  generalize (if t.m_handStream.has_connections then
      HandTracker.generate_hand_frame_on cap ops t frameIndex
    else t) = T at h1 ⊢
  have h2 := generate_hand_debug_image_frame_fields ops T frameIndex
  by_cases hd : T.m_debugImageStream.has_connections = true
  · rw [if_pos hd]
    exact ⟨h2.1.trans h1.1, h2.2.1.trans h1.2⟩
  · rw [if_neg hd]
    exact h1

/-- C8: for a frame handled by `update_tracking` with input not paused and the mouse probe off,
the collaborator calls are, in this order and once each: `processDepthToVelocitySignal`,
`initialize_common_calculations`, `updateTrackedPoints`, `removeDuplicatePoints`, the seed
iteration (one `updateTrackedPointOrCreateNewPointFromSeedPosition` call per seed found),
`removeOldOrDeadPoints`, `update_full_resolution_points`, `update_trajectories`; the resulting
data of the tracker, point processor included, is the composition of these calls in that order
(after the depth preprocessing, `track_points` first clears its matrices and sizes the world
point buffer). The seed loop is assumed to end: each iteration lowers a measure `μ` that the
fuel exceeds. -/
theorem update_tracking_stage_order {PP DU : Type} (cap : Nat) (ops : Collaborators PP DU)
    (fuel : Nat) (t : Tracker PP DU) (depthFrame : DepthFrame) (pointFrame : List Vector3f)
    (μ : cvPoint → Work PP DU → Nat)
    (hpause : t.m_debugImageStream.pause_input = false)
    (hprobe : t.m_debugImageStream.use_mouse_probe = false)
    (hdec : ∀ start w seed next,
      ops.find_next_velocity_seed_pixel (w.mats MatMember.m_matVelocitySignal)
        (w.mats MatMember.m_createForegroundSearched) start = some (seed, next) →
      μ next (ops.run (Call.updateTrackedPointOrCreateNewPointFromSeedPosition
        (HandTracker.createMatrices t MatMember.m_matDepth MatMember.m_matDepthFullSize
          MatMember.m_matVelocitySignal pointFrame) seed) w) < μ start w)
    (hfuel : ∀ start w, μ start w < fuel) :
    ∃ (seeds : List cvPoint) (t' : Tracker PP DU),
      HandTracker.update_tracking cap ops fuel t depthFrame pointFrame = some t' ∧
      t'.trace = t.trace ++
        ([Call.processDepthToVelocitySignal depthFrame MatMember.m_matDepth
            MatMember.m_matDepthFullSize MatMember.m_matVelocitySignal,
          Call.initialize_common_calculations
            (HandTracker.updateMatrices t MatMember.m_matDepth MatMember.m_matDepthFullSize
              MatMember.m_matVelocitySignal pointFrame),
          Call.updateTrackedPoints
            (HandTracker.updateMatrices t MatMember.m_matDepth MatMember.m_matDepthFullSize
              MatMember.m_matVelocitySignal pointFrame),
          Call.removeDuplicatePoints] ++
        seeds.map (fun s => Call.updateTrackedPointOrCreateNewPointFromSeedPosition
          (HandTracker.createMatrices t MatMember.m_matDepth MatMember.m_matDepthFullSize
            MatMember.m_matVelocitySignal pointFrame) s) ++
        [Call.removeOldOrDeadPoints,
          Call.update_full_resolution_points
            (HandTracker.refinementMatrices t MatMember.m_matDepthFullSize
              MatMember.m_matVelocitySignal pointFrame),
          Call.update_trajectories]) ∧
      t'.work =
        ([Call.initialize_common_calculations
            (HandTracker.updateMatrices t MatMember.m_matDepth MatMember.m_matDepthFullSize
              MatMember.m_matVelocitySignal pointFrame),
          Call.updateTrackedPoints
            (HandTracker.updateMatrices t MatMember.m_matDepth MatMember.m_matDepthFullSize
              MatMember.m_matVelocitySignal pointFrame),
          Call.removeDuplicatePoints] ++
        seeds.map (fun s => Call.updateTrackedPointOrCreateNewPointFromSeedPosition
          (HandTracker.createMatrices t MatMember.m_matDepth MatMember.m_matDepthFullSize
            MatMember.m_matVelocitySignal pointFrame) s) ++
        [Call.removeOldOrDeadPoints,
          Call.update_full_resolution_points
            (HandTracker.refinementMatrices t MatMember.m_matDepthFullSize
              MatMember.m_matVelocitySignal pointFrame),
          Call.update_trajectories]).foldl (fun w c => ops.run c w)
          (HandTracker.track_points_world_points MatMember.m_matDepth
            (HandTracker.track_points_zero MatMember.m_matDepth
              (ops.run (Call.processDepthToVelocitySignal depthFrame MatMember.m_matDepth
                MatMember.m_matDepthFullSize MatMember.m_matVelocitySignal) t.work))) := by
  obtain ⟨seeds, hs⟩ := track_points_spec ops fuel
    (invoke ops (Call.processDepthToVelocitySignal depthFrame MatMember.m_matDepth
      MatMember.m_matDepthFullSize MatMember.m_matVelocitySignal) t)
    MatMember.m_matDepth MatMember.m_matDepthFullSize MatMember.m_matVelocitySignal pointFrame
    μ hpause hprobe hdec hfuel
  refine ⟨seeds, ?_⟩
  unfold HandTracker.update_tracking
  simp only [hpause, Bool.not_false, if_true]
  rw [hs]
  refine ⟨_, rfl, ?_⟩
  obtain ⟨hw, ht⟩ := frame_generation_fields cap ops _ depthFrame.frameIndex _ rfl
  rw [hw, ht, invoke_all_work, invoke_all_trace]
  constructor
  · show (t.trace ++ [_]) ++ _ = _
    simp only [List.append_assoc, List.singleton_append, List.cons_append]
    rfl
  · rfl

theorem example_measure_decreases (cm : TrackingMatrices) :
    ∀ (start : cvPoint) (w : Work (List TrackedPoint) Nat) (seed next : cvPoint),
      example_collaborators.find_next_velocity_seed_pixel
        (w.mats MatMember.m_matVelocitySignal)
        (w.mats MatMember.m_createForegroundSearched) start = some (seed, next) →
      example_measure next (example_collaborators.run
        (Call.updateTrackedPointOrCreateNewPointFromSeedPosition cm seed) w)
        < example_measure start w := by
  intro start w seed next h
  unfold example_collaborators at h
  dsimp only at h
  by_cases hr : 0 ≤ start.x ∧ start.x < 2
  · rw [if_pos hr] at h
    have hn : next = { x := start.x + 1, y := 0 } := by
      have := Option.some.inj h
      exact (congrArg Prod.snd this).symm
    subst hn
    unfold example_measure
    rw [if_pos hr]
    dsimp only
    split <;> omega
  · rw [if_neg hr] at h
    cases h

theorem example_measure_bound (start : cvPoint) (w : Work (List TrackedPoint) Nat) :
    example_measure start w < 3 := by
  unfold example_measure
  split <;> omega

/-- Witness of `update_tracking_stage_order`: the example tracker, whose seed search yields two
seeds, with fuel 3. -/
theorem update_tracking_stage_order_witness :
    (example_tracker.m_debugImageStream.pause_input = false ∧
      example_tracker.m_debugImageStream.use_mouse_probe = false ∧
      (∀ start w seed next,
        example_collaborators.find_next_velocity_seed_pixel
          (w.mats MatMember.m_matVelocitySignal)
          (w.mats MatMember.m_createForegroundSearched) start = some (seed, next) →
        example_measure next (example_collaborators.run
          (Call.updateTrackedPointOrCreateNewPointFromSeedPosition
            (HandTracker.createMatrices example_tracker MatMember.m_matDepth
              MatMember.m_matDepthFullSize MatMember.m_matVelocitySignal example_point_buffer)
            seed) w) < example_measure start w) ∧
      (∀ start w, example_measure start w < 3)) ∧
    ∃ (seeds : List cvPoint) (t' : Tracker (List TrackedPoint) Nat),
      HandTracker.update_tracking 10 example_collaborators 3 example_tracker
        example_depth_frame example_point_buffer = some t' ∧
      t'.trace = example_tracker.trace ++
        ([Call.processDepthToVelocitySignal example_depth_frame MatMember.m_matDepth
            MatMember.m_matDepthFullSize MatMember.m_matVelocitySignal,
          Call.initialize_common_calculations
            (HandTracker.updateMatrices example_tracker MatMember.m_matDepth
              MatMember.m_matDepthFullSize MatMember.m_matVelocitySignal example_point_buffer),
          Call.updateTrackedPoints
            (HandTracker.updateMatrices example_tracker MatMember.m_matDepth
              MatMember.m_matDepthFullSize MatMember.m_matVelocitySignal example_point_buffer),
          Call.removeDuplicatePoints] ++
        seeds.map (fun s => Call.updateTrackedPointOrCreateNewPointFromSeedPosition
          (HandTracker.createMatrices example_tracker MatMember.m_matDepth
            MatMember.m_matDepthFullSize MatMember.m_matVelocitySignal example_point_buffer) s) ++
        [Call.removeOldOrDeadPoints,
          Call.update_full_resolution_points
            (HandTracker.refinementMatrices example_tracker MatMember.m_matDepthFullSize
              MatMember.m_matVelocitySignal example_point_buffer),
          Call.update_trajectories]) ∧
      t'.work =
        ([Call.initialize_common_calculations
            (HandTracker.updateMatrices example_tracker MatMember.m_matDepth
              MatMember.m_matDepthFullSize MatMember.m_matVelocitySignal example_point_buffer),
          Call.updateTrackedPoints
            (HandTracker.updateMatrices example_tracker MatMember.m_matDepth
              MatMember.m_matDepthFullSize MatMember.m_matVelocitySignal example_point_buffer),
          Call.removeDuplicatePoints] ++
        seeds.map (fun s => Call.updateTrackedPointOrCreateNewPointFromSeedPosition
          (HandTracker.createMatrices example_tracker MatMember.m_matDepth
            MatMember.m_matDepthFullSize MatMember.m_matVelocitySignal example_point_buffer) s) ++
        [Call.removeOldOrDeadPoints,
          Call.update_full_resolution_points
            (HandTracker.refinementMatrices example_tracker MatMember.m_matDepthFullSize
              MatMember.m_matVelocitySignal example_point_buffer),
          Call.update_trajectories]).foldl (fun w c => example_collaborators.run c w)
          (HandTracker.track_points_world_points MatMember.m_matDepth
            (HandTracker.track_points_zero MatMember.m_matDepth
              (example_collaborators.run
                (Call.processDepthToVelocitySignal example_depth_frame MatMember.m_matDepth
                  MatMember.m_matDepthFullSize MatMember.m_matVelocitySignal)
                example_tracker.work))) :=
  ⟨⟨rfl, rfl, example_measure_decreases _, example_measure_bound⟩,
    update_tracking_stage_order 10 example_collaborators 3 example_tracker example_depth_frame
      example_point_buffer example_measure rfl rfl (example_measure_decreases _)
      example_measure_bound⟩

/-- C9, as stated, fails: with no consumer on either stream, `on_frame_ready` on the example
tracker makes no call at all, so the depth preprocessing is not run: the trace stays empty and
the depth utility has preprocessed no frame. -/
theorem on_frame_ready_idle_skips_preprocessing :
    example_idle_tracker.m_handStream.has_connections = false ∧
    example_idle_tracker.m_debugImageStream.has_connections = false ∧
    ∃ t', HandTracker.on_frame_ready 10 example_collaborators 3 example_idle_tracker
        example_depth_frame example_point_buffer = some t' ∧
      Call.processDepthToVelocitySignal example_depth_frame MatMember.m_matDepth
        MatMember.m_matDepthFullSize MatMember.m_matVelocitySignal ∉ t'.trace ∧
      t'.trace = [] ∧
      t'.work.m_depthUtility = 0 ∧
      (example_collaborators.run
        (Call.processDepthToVelocitySignal example_depth_frame MatMember.m_matDepth
          MatMember.m_matDepthFullSize MatMember.m_matVelocitySignal)
        example_idle_tracker.work).m_depthUtility = 1 :=
  ⟨rfl, rfl, example_idle_tracker, rfl, by simp [example_idle_tracker, example_tracker], rfl,
    rfl, rfl⟩

/-- C9, amended: when neither the hand stream nor the debug image stream has a consumer
attached, `on_frame_ready` does nothing at all: it returns the tracker as it was, so the depth
preprocessing is not run, no point-processor operation runs, the tracked points are unchanged,
and no hand or debug frame is written. -/
theorem on_frame_ready_without_consumers {PP DU : Type} (cap : Nat)
    (ops : Collaborators PP DU) (fuel : Nat) (t : Tracker PP DU) (depthFrame : DepthFrame)
    (pointFrame : List Vector3f)
    (hhand : t.m_handStream.has_connections = false)
    (hdebug : t.m_debugImageStream.has_connections = false) :
    ∃ t', HandTracker.on_frame_ready cap ops fuel t depthFrame pointFrame = some t' ∧
      t' = t ∧
      t'.trace = t.trace ∧
      ops.get_trackedPoints t'.work.m_pointProcessor
        = ops.get_trackedPoints t.work.m_pointProcessor ∧
      t'.m_handStream.written = t.m_handStream.written ∧
      t'.m_debugImageStream.written = t.m_debugImageStream.written := by
  refine ⟨t, ?_, rfl, rfl, rfl, rfl, rfl⟩
  unfold HandTracker.on_frame_ready
  simp [hhand, hdebug]

/-- Witness of `on_frame_ready_without_consumers`: the example tracker without consumers. -/
theorem on_frame_ready_without_consumers_witness :
    (example_idle_tracker.m_handStream.has_connections = false ∧
      example_idle_tracker.m_debugImageStream.has_connections = false) ∧
    ∃ t', HandTracker.on_frame_ready 10 example_collaborators 3 example_idle_tracker
        example_depth_frame example_point_buffer = some t' ∧
      t' = example_idle_tracker ∧
      t'.trace = example_idle_tracker.trace ∧
      example_collaborators.get_trackedPoints t'.work.m_pointProcessor
        = example_collaborators.get_trackedPoints example_idle_tracker.work.m_pointProcessor ∧
      t'.m_handStream.written = example_idle_tracker.m_handStream.written ∧
      t'.m_debugImageStream.written = example_idle_tracker.m_debugImageStream.written :=
  ⟨⟨rfl, rfl⟩,
    on_frame_ready_without_consumers 10 example_collaborators 3 example_idle_tracker
      example_depth_frame example_point_buffer rfl rfl⟩

/-! ## Identity and status of the emitted records -/

/-- A record inside `handCount` after `update_hand_frame` is either written from the eligible
point of its index, or a reset one at an index from the number of points written on. -/
theorem update_hand_frame_record_cases (inc : Bool) (pts : List TrackedPoint)
    (frame : astra_handframe) (i : Nat) (r : astra_handpoint_t)
    (hi : i < frame.handCount)
    (hr : (HandTracker.update_hand_frame inc pts frame).handpoints[i]? = some r) :
    (∃ (hlen : i < (pts.filter (fun p => decide (eligible_for_emission inc p))).length)
        (old : astra_handpoint_t),
        r = HandTracker.write_hand_point
          ((pts.filter (fun p => decide (eligible_for_emission inc p)))[i]) old) ∨
    (min (pts.filter (fun p => decide (eligible_for_emission inc p))).length frame.handCount ≤ i ∧
      ∃ old : astra_handpoint_t, r = HandTracker.reset_hand_point old) := by
  by_cases hk : min (pts.filter
      (fun p => decide (eligible_for_emission inc p))).length frame.handCount ≤ i
  · right
    rw [update_hand_frame_unused inc pts frame i hk hi] at hr
    cases hold : frame.handpoints[i]? with
    | none => rw [hold] at hr; cases hr
    | some old =>
      rw [hold] at hr
      exact ⟨hk, old, (Option.some.inj hr).symm⟩
  · left
    have hlen : i < (pts.filter
        (fun p => decide (eligible_for_emission inc p))).length := by omega
    rw [update_hand_frame_written inc pts frame i _ hi (List.getElem?_eq_getElem hlen)] at hr
    cases hold : frame.handpoints[i]? with
    | none => rw [hold] at hr; cases hr
    | some old =>
      rw [hold] at hr
      exact ⟨hlen, old, (Option.some.inj hr).symm⟩

/-- C11: if the tracked points have pairwise distinct `trackingId`s, then in the frame written
by `update_hand_frame` two records with `trackingId ≠ -1` and the same `trackingId` are the same
slot, and the `trackingId` of such a record is that of a tracked point of the list. -/
theorem update_hand_frame_distinct_tracking_ids (includeCandidates : Bool)
    (pts : List TrackedPoint) (frame : astra_handframe)
    (hdistinct : (pts.map (fun p => p.trackingId)).Nodup)
    (i j : Nat) (ri rj : astra_handpoint_t)
    (hi : i < frame.handCount) (hj : j < frame.handCount)
    (hri : (HandTracker.update_hand_frame includeCandidates pts frame).handpoints[i]? = some ri)
    (hrj : (HandTracker.update_hand_frame includeCandidates pts frame).handpoints[j]? = some rj)
    (hni : ri.trackingId ≠ -1) (hnj : rj.trackingId ≠ -1) :
    (ri.trackingId = rj.trackingId → i = j) ∧ ∃ p ∈ pts, p.trackingId = ri.trackingId := by
  have hnd : ((pts.filter (fun p => decide (eligible_for_emission includeCandidates p))).map
      (fun p => p.trackingId)).Nodup :=
    List.Nodup.sublist ((List.filter_sublist pts).map _) hdistinct
  rcases update_hand_frame_record_cases includeCandidates pts frame i ri hi hri with
    ⟨hli, oi, hwi⟩ | ⟨_, oi, hwi⟩
  · rcases update_hand_frame_record_cases includeCandidates pts frame j rj hj hrj with
      ⟨hlj, oj, hwj⟩ | ⟨_, oj, hwj⟩
    · refine ⟨?_, _, List.mem_of_mem_filter (List.getElem_mem hli), by rw [hwi]; rfl⟩
      intro heq
      have hmi : i < ((pts.filter
          (fun p => decide (eligible_for_emission includeCandidates p))).map
          (fun p => p.trackingId)).length := by simpa using hli
      have hmj : j < ((pts.filter
          (fun p => decide (eligible_for_emission includeCandidates p))).map
          (fun p => p.trackingId)).length := by simpa using hlj
      have h1 : ((pts.filter (fun p => decide (eligible_for_emission includeCandidates p))).map
          (fun p => p.trackingId))[i]
          = ((pts.filter (fun p => decide (eligible_for_emission includeCandidates p))).map
          (fun p => p.trackingId))[j] := by
        rw [List.getElem_map, List.getElem_map]
        rw [hwi, hwj] at heq
        exact heq
      exact (List.Nodup.getElem_inj_iff hnd).1 h1
    · exact absurd (by rw [hwj]; rfl) hnj
  · exact absurd (by rw [hwi]; rfl) hni

/-- Witness of `update_hand_frame_distinct_tracking_ids`: the example points have the distinct
ids 4, 3, 5, 6; without candidates the two slots carry the ids 3 and 5. -/
theorem update_hand_frame_distinct_tracking_ids_witness :
    ((example_points.map (fun p => p.trackingId)).Nodup ∧
      0 < example_hand_frame.handCount ∧ 1 < example_hand_frame.handCount ∧
      (HandTracker.update_hand_frame false example_points example_hand_frame).handpoints[0]?
        = some (HandTracker.write_hand_point example_active_point stale_hand_point) ∧
      (HandTracker.update_hand_frame false example_points example_hand_frame).handpoints[1]?
        = some (HandTracker.write_hand_point example_active_point_5 stale_hand_point) ∧
      (HandTracker.write_hand_point example_active_point stale_hand_point).trackingId ≠ -1 ∧
      (HandTracker.write_hand_point example_active_point_5 stale_hand_point).trackingId ≠ -1) ∧
    (((HandTracker.write_hand_point example_active_point stale_hand_point).trackingId
        = (HandTracker.write_hand_point example_active_point_5 stale_hand_point).trackingId →
        0 = 1) ∧
      ∃ p ∈ example_points,
        p.trackingId
          = (HandTracker.write_hand_point example_active_point stale_hand_point).trackingId) :=
  ⟨⟨by decide, by decide, by decide, by rfl, by rfl, by decide, by decide⟩,
    update_hand_frame_distinct_tracking_ids false example_points example_hand_frame
      (by decide) 0 1
      (HandTracker.write_hand_point example_active_point stale_hand_point)
      (HandTracker.write_hand_point example_active_point_5 stale_hand_point)
      (by decide) (by decide) (by rfl) (by rfl) (by decide) (by decide)⟩

/-- C16: a record that `update_hand_frame` populates (a slot below the number `k` of points
written) takes its `trackingId` from a tracked point whose status is Tracking or Lost, never
Dead or NotTracking, and has status Tracking, Lost or Candidate, never NotTracking; the records
from `k` up to `handCount` are reset ones with status NotTracking, so inside `handCount` a record
has status NotTracking exactly when it is an unused slot. -/
theorem update_hand_frame_populated_status (includeCandidates : Bool)
    (pts : List TrackedPoint) (frame : astra_handframe) (i : Nat) (r : astra_handpoint_t)
    (hi : i < frame.handCount)
    (hr : (HandTracker.update_hand_frame includeCandidates pts frame).handpoints[i]? = some r) :
    (i < min (pts.filter
          (fun p => decide (eligible_for_emission includeCandidates p))).length
            frame.handCount →
      ∃ p ∈ pts, r.trackingId = p.trackingId ∧
        (p.trackingStatus = TrackingStatus.Tracking ∨ p.trackingStatus = TrackingStatus.Lost) ∧
        p.trackingStatus ≠ TrackingStatus.Dead ∧
        p.trackingStatus ≠ TrackingStatus.NotTracking ∧
        (r.status = astra_handstatus_t.HAND_STATUS_TRACKING ∨
          r.status = astra_handstatus_t.HAND_STATUS_LOST ∨
          r.status = astra_handstatus_t.HAND_STATUS_CANDIDATE)) ∧
    (r.status = astra_handstatus_t.HAND_STATUS_NOTTRACKING ↔
      min (pts.filter
          (fun p => decide (eligible_for_emission includeCandidates p))).length
            frame.handCount ≤ i) := by
  rcases update_hand_frame_record_cases includeCandidates pts frame i r hi hr with
    ⟨hlen, old, hw⟩ | ⟨hk, old, hw⟩
  · have hmem := List.getElem_mem hlen
    have hel := List.of_mem_filter hmem
    simp only [decide_eq_true_eq] at hel
    have hstatus : r.status = astra_handstatus_t.HAND_STATUS_TRACKING ∨
        r.status = astra_handstatus_t.HAND_STATUS_LOST ∨
        r.status = astra_handstatus_t.HAND_STATUS_CANDIDATE := by
      have hst : r.status = HandTracker.convert_hand_status
          ((pts.filter
            (fun p => decide (eligible_for_emission includeCandidates p)))[i]).trackingStatus
          ((pts.filter
            (fun p => decide (eligible_for_emission includeCandidates p)))[i]).pointType := by
        rw [hw]; rfl
      rw [hst]
      rcases hel.1 with h1 | h1 <;> rw [h1] <;>
        cases ((pts.filter
          (fun p => decide (eligible_for_emission includeCandidates p)))[i]).pointType <;>
        decide
    refine ⟨fun _ => ⟨_, List.mem_of_mem_filter hmem, by rw [hw]; rfl, hel.1, ?_, ?_, hstatus⟩,
      ?_⟩
    · rcases hel.1 with h1 | h1 <;> rw [h1] <;> decide
    · rcases hel.1 with h1 | h1 <;> rw [h1] <;> decide
    · constructor
      · intro hnt
        rw [hnt] at hstatus
        rcases hstatus with h | h | h <;> cases h
      · intro hk
        omega
  · refine ⟨fun hlt => absurd hk (by omega), ?_⟩
    constructor
    · intro _
      exact hk
    · intro _
      rw [hw]
      rfl

/-- Witness of `update_hand_frame_populated_status`: slot 0 of the example frame is populated
from the tracked active point with id 3. -/
theorem update_hand_frame_populated_status_witness :
    (0 < example_hand_frame.handCount ∧
      (HandTracker.update_hand_frame false example_points example_hand_frame).handpoints[0]?
        = some (HandTracker.write_hand_point example_active_point stale_hand_point)) ∧
    ((0 < min (example_points.filter
          (fun p => decide (eligible_for_emission false p))).length
            example_hand_frame.handCount →
      ∃ p ∈ example_points,
        (HandTracker.write_hand_point example_active_point stale_hand_point).trackingId
          = p.trackingId ∧
        (p.trackingStatus = TrackingStatus.Tracking ∨ p.trackingStatus = TrackingStatus.Lost) ∧
        p.trackingStatus ≠ TrackingStatus.Dead ∧
        p.trackingStatus ≠ TrackingStatus.NotTracking ∧
        ((HandTracker.write_hand_point example_active_point stale_hand_point).status
            = astra_handstatus_t.HAND_STATUS_TRACKING ∨
          (HandTracker.write_hand_point example_active_point stale_hand_point).status
            = astra_handstatus_t.HAND_STATUS_LOST ∨
          (HandTracker.write_hand_point example_active_point stale_hand_point).status
            = astra_handstatus_t.HAND_STATUS_CANDIDATE)) ∧
    ((HandTracker.write_hand_point example_active_point stale_hand_point).status
        = astra_handstatus_t.HAND_STATUS_NOTTRACKING ↔
      min (example_points.filter
          (fun p => decide (eligible_for_emission false p))).length
            example_hand_frame.handCount ≤ 0)) :=
  ⟨⟨by decide, by rfl⟩,
    update_hand_frame_populated_status false example_points example_hand_frame 0
      (HandTracker.write_hand_point example_active_point stale_hand_point)
      (by decide) (by rfl)⟩

/-! ## The start of `track_points`: matrices and world point buffer -/

theorem assign_fields {PP DU : Type} (w : Work PP DU) (m : MatMember) (v : Mat) :
    (w.assign m v).m_worldPoints = w.m_worldPoints ∧
    (w.assign m v).m_numWorldPoints = w.m_numWorldPoints ∧
    (w.assign m v).m_pointProcessor = w.m_pointProcessor ∧
    (w.assign m v).m_depthUtility = w.m_depthUtility ∧
    ∀ m', (w.assign m v).mats m' = if m' = m then v else w.mats m' :=
  ⟨rfl, rfl, rfl, rfl, fun _ => rfl⟩

/-- The effect of a run of assignments `member = cv::Mat::zeros(matDepth.size(), type)`: the
size of `matDepth` stays what it was, the members outside the list keep their value, the
members of the list (each named once) become zero matrices of that size, and nothing but
matrices changes. -/
theorem zero_fold_spec {PP DU : Type} (d : MatMember) (l : List (MatMember × MatType))
    (w : Work PP DU) :
    ((l.foldl (fun w mt =>
        w.assign mt.1 (Mat.zeros (w.mats d).rows (w.mats d).cols mt.2)) w).mats d).rows
      = (w.mats d).rows ∧
    ((l.foldl (fun w mt =>
        w.assign mt.1 (Mat.zeros (w.mats d).rows (w.mats d).cols mt.2)) w).mats d).cols
      = (w.mats d).cols ∧
    (l.foldl (fun w mt =>
        w.assign mt.1 (Mat.zeros (w.mats d).rows (w.mats d).cols mt.2)) w).m_worldPoints
      = w.m_worldPoints ∧
    (l.foldl (fun w mt =>
        w.assign mt.1 (Mat.zeros (w.mats d).rows (w.mats d).cols mt.2)) w).m_numWorldPoints
      = w.m_numWorldPoints ∧
    (l.foldl (fun w mt =>
        w.assign mt.1 (Mat.zeros (w.mats d).rows (w.mats d).cols mt.2)) w).m_pointProcessor
      = w.m_pointProcessor ∧
    (l.foldl (fun w mt =>
        w.assign mt.1 (Mat.zeros (w.mats d).rows (w.mats d).cols mt.2)) w).m_depthUtility
      = w.m_depthUtility ∧
    (∀ m, m ∉ l.map Prod.fst →
      (l.foldl (fun w mt =>
        w.assign mt.1 (Mat.zeros (w.mats d).rows (w.mats d).cols mt.2)) w).mats m = w.mats m) ∧
    ((l.map Prod.fst).Nodup → ∀ mt ∈ l,
      (l.foldl (fun w mt =>
        w.assign mt.1 (Mat.zeros (w.mats d).rows (w.mats d).cols mt.2)) w).mats mt.1
        = Mat.zeros (w.mats d).rows (w.mats d).cols mt.2) := by
  induction l generalizing w with
  | nil =>
    refine ⟨rfl, rfl, rfl, rfl, rfl, rfl, fun _ _ => rfl, ?_⟩
    intro _ mt hmt
    cases hmt
  | cons a l ih =>
    obtain ⟨i1, i2, i3, i4, i5, i6, i7, i8⟩ :=
      ih (w.assign a.1 (Mat.zeros (w.mats d).rows (w.mats d).cols a.2))
    have hr : ((w.assign a.1 (Mat.zeros (w.mats d).rows (w.mats d).cols a.2)).mats d).rows
        = (w.mats d).rows := by
      show (if d = a.1 then _ else _ : Mat).rows = _
      split <;> rfl
    have hc : ((w.assign a.1 (Mat.zeros (w.mats d).rows (w.mats d).cols a.2)).mats d).cols
        = (w.mats d).cols := by
      show (if d = a.1 then _ else _ : Mat).cols = _
      split <;> rfl
    simp only [List.foldl_cons]
    refine ⟨i1.trans hr, i2.trans hc, i3, i4, i5, i6, ?_, ?_⟩
    · intro m hm
      simp only [List.map_cons, List.mem_cons, not_or] at hm
      rw [i7 m hm.2]
      show (if m = a.1 then _ else _ : Mat) = _
      rw [if_neg hm.1]
    · intro hnd mt hmt
      simp only [List.map_cons, List.nodup_cons] at hnd
      rcases List.mem_cons.1 hmt with h | h
      · subst h
        rw [i7 _ hnd.1]
        show (if mt.1 = mt.1 then _ else _ : Mat) = _
        rw [if_pos rfl]
      · rw [i8 hnd.2 mt h, hr, hc]

/-- The data of the tracker after lines 124 to 157 of `track_points`, which is the data that
the first call to a collaborator works on. -/
theorem track_points_start_spec {PP DU : Type} (d : MatMember) (w : Work PP DU) :
    (∀ mt ∈ HandTracker.zeroed_matrices,
      (HandTracker.track_points_world_points d (HandTracker.track_points_zero d w)).mats mt.1
        = Mat.zeros (w.mats d).rows (w.mats d).cols mt.2) ∧
    (∀ m, m ∉ HandTracker.zeroed_matrices.map Prod.fst →
      (HandTracker.track_points_world_points d (HandTracker.track_points_zero d w)).mats m
        = w.mats m) ∧
    (HandTracker.track_points_world_points d (HandTracker.track_points_zero d w)).m_numWorldPoints
      = (((w.mats d).cols * (w.mats d).rows : Nat) : Int) ∧
    (HandTracker.track_points_world_points d (HandTracker.track_points_zero d w)).m_worldPoints
      = (if w.m_worldPoints = none ∨
            w.m_numWorldPoints ≠ (((w.mats d).cols * (w.mats d).rows : Nat) : Int) then
          some (List.replicate ((w.mats d).cols * (w.mats d).rows) { x := 0, y := 0, z := 0 })
        else w.m_worldPoints) := by
  obtain ⟨z1, z2, z3, z4, _, _, z7, z8⟩ := zero_fold_spec d HandTracker.zeroed_matrices w
  have hnd : (HandTracker.zeroed_matrices.map Prod.fst).Nodup := by decide
  have hmats : ∀ m,
      (HandTracker.track_points_world_points d (HandTracker.track_points_zero d w)).mats m
        = (HandTracker.track_points_zero d w).mats m := by
    intro m
    unfold HandTracker.track_points_world_points
    dsimp only
    split <;> rfl
  unfold HandTracker.track_points_zero at hmats ⊢
  refine ⟨?_, ?_, ?_, ?_⟩
  · intro mt hmt
    rw [hmats, z8 hnd mt hmt]
  · intro m hm
    rw [hmats, z7 m hm]
  · unfold HandTracker.track_points_world_points
    dsimp only
    rw [z1, z2, z3, z4]
    split
    · rfl
    · rename_i h
      simp only [not_or, not_not] at h
      exact h.2
  · unfold HandTracker.track_points_world_points
    dsimp only
    rw [z1, z2, z3, z4]
    split
    · rfl
    · exact z3

/-- C12, as stated, fails: on a tracker whose matrices and world point buffer (of the right
length) hold non-zero values from the previous frame, the data at the start of `track_points`,
before any point-processor operation, still has the integral area matrix full of 5 and the
world points equal to (9, 9, 9): neither is reset to zero. -/
theorem track_points_start_keeps_integral_area_and_world_points :
    ((HandTracker.track_points_world_points MatMember.m_matDepth
        (HandTracker.track_points_zero MatMember.m_matDepth example_work_next)).mats
          MatMember.m_layerIntegralArea).data = List.replicate 12 5 ∧
    ((HandTracker.track_points_world_points MatMember.m_matDepth
        (HandTracker.track_points_zero MatMember.m_matDepth example_work_next)).mats
          MatMember.m_layerIntegralArea).data ≠ List.replicate 12 0 ∧
    (HandTracker.track_points_world_points MatMember.m_matDepth
        (HandTracker.track_points_zero MatMember.m_matDepth example_work_next)).m_worldPoints
      = some (List.replicate 12 { x := 9, y := 9, z := 9 }) ∧
    (HandTracker.track_points_world_points MatMember.m_matDepth
        (HandTracker.track_points_zero MatMember.m_matDepth example_work_next)).m_worldPoints
      ≠ some (List.replicate 12 { x := 0, y := 0, z := 0 }) := by
  have h1 : ((HandTracker.track_points_world_points MatMember.m_matDepth
      (HandTracker.track_points_zero MatMember.m_matDepth example_work_next)).mats
        MatMember.m_layerIntegralArea).data = List.replicate 12 5 := by
    rw [(track_points_start_spec MatMember.m_matDepth example_work_next).2.1
      MatMember.m_layerIntegralArea (by decide)]
    rfl
  have h2 : (HandTracker.track_points_world_points MatMember.m_matDepth
      (HandTracker.track_points_zero MatMember.m_matDepth example_work_next)).m_worldPoints
      = some (List.replicate 12 { x := 9, y := 9, z := 9 }) := by
    rw [(track_points_start_spec MatMember.m_matDepth example_work_next).2.2.2]
    rfl
  refine ⟨h1, ?_, h2, ?_⟩
  · rw [h1]
    decide
  · rw [h2]
    decide

/-- C12, amended: at the start of every `track_points` call, before any point-processor
operation runs, `m_layerSegmentation`, `m_layerScore` and the three foreground-searched masks
(like every matrix assigned in lines 124 to 144) are zero matrices of the size of `matDepth`,
whatever they held before; `m_layerIntegralArea` is left as it was; and the world point buffer
is a new all-zero buffer of `matDepth.cols * matDepth.rows` points only when it was absent or
had another length, and is left as it was otherwise. -/
theorem track_points_start_resets (PP DU : Type) (matDepth : MatMember) (w : Work PP DU) :
    (HandTracker.track_points_world_points matDepth
        (HandTracker.track_points_zero matDepth w)).mats MatMember.m_layerSegmentation
      = Mat.zeros (w.mats matDepth).rows (w.mats matDepth).cols MatType.CV_8UC1 ∧
    (HandTracker.track_points_world_points matDepth
        (HandTracker.track_points_zero matDepth w)).mats MatMember.m_layerScore
      = Mat.zeros (w.mats matDepth).rows (w.mats matDepth).cols MatType.CV_32FC1 ∧
    (HandTracker.track_points_world_points matDepth
        (HandTracker.track_points_zero matDepth w)).mats MatMember.m_updateForegroundSearched
      = Mat.zeros (w.mats matDepth).rows (w.mats matDepth).cols MatType.CV_8UC1 ∧
    (HandTracker.track_points_world_points matDepth
        (HandTracker.track_points_zero matDepth w)).mats MatMember.m_createForegroundSearched
      = Mat.zeros (w.mats matDepth).rows (w.mats matDepth).cols MatType.CV_8UC1 ∧
    (HandTracker.track_points_world_points matDepth
        (HandTracker.track_points_zero matDepth w)).mats MatMember.m_refineForegroundSearched
      = Mat.zeros (w.mats matDepth).rows (w.mats matDepth).cols MatType.CV_8UC1 ∧
    (HandTracker.zeroed_matrices.all (fun mt =>
      decide ((HandTracker.track_points_world_points matDepth
          (HandTracker.track_points_zero matDepth w)).mats mt.1
        = Mat.zeros (w.mats matDepth).rows (w.mats matDepth).cols mt.2))) = true ∧
    (HandTracker.track_points_world_points matDepth
        (HandTracker.track_points_zero matDepth w)).mats MatMember.m_layerIntegralArea
      = w.mats MatMember.m_layerIntegralArea ∧
    (HandTracker.track_points_world_points matDepth
        (HandTracker.track_points_zero matDepth w)).m_worldPoints
      = (if w.m_worldPoints = none ∨
            w.m_numWorldPoints
              ≠ (((w.mats matDepth).cols * (w.mats matDepth).rows : Nat) : Int) then
          some (List.replicate ((w.mats matDepth).cols * (w.mats matDepth).rows)
            { x := 0, y := 0, z := 0 })
        else w.m_worldPoints) := by
  obtain ⟨h1, h2, _, h4⟩ := track_points_start_spec matDepth w
  refine ⟨h1 (MatMember.m_layerSegmentation, MatType.CV_8UC1) (by decide),
    h1 (MatMember.m_layerScore, MatType.CV_32FC1) (by decide),
    h1 (MatMember.m_updateForegroundSearched, MatType.CV_8UC1) (by decide),
    h1 (MatMember.m_createForegroundSearched, MatType.CV_8UC1) (by decide),
    h1 (MatMember.m_refineForegroundSearched, MatType.CV_8UC1) (by decide),
    ?_, h2 MatMember.m_layerIntegralArea (by decide), h4⟩
  rw [List.all_eq_true]
  intro mt hmt
  exact decide_eq_true (h1 mt hmt)

/-! ## Every mode of `track_points` is a run of collaborator calls -/

theorem debug_spawn_point_calls {PP DU : Type} (ops : Collaborators PP DU)
    (m : TrackingMatrices) (t : Tracker PP DU) :
    ∃ cs, HandTracker.debug_spawn_point ops m t = invoke_all ops cs t := by
  unfold HandTracker.debug_spawn_point
  by_cases hp : t.m_debugImageStream.pause_input = true
  · simp only [hp, Bool.not_true, Bool.false_eq_true, if_false]
    exact ⟨[_], rfl⟩
  · simp only [hp, Bool.not_eq_true] at hp ⊢
    simp only [hp, Bool.not_false, if_true]
    exact ⟨[_, _], rfl⟩

theorem debug_probe_point_calls {PP DU : Type} (ops : Collaborators PP DU)
    (m : TrackingMatrices) (t : Tracker PP DU) :
    ∃ cs, HandTracker.debug_probe_point ops m t = invoke_all ops cs t := by
  unfold HandTracker.debug_probe_point
  split
  · exact ⟨[], rfl⟩
  · dsimp only
    split
    · exact ⟨[_, _, _, _], rfl⟩
    · exact ⟨[_], rfl⟩

/-- Whatever the pause and mouse-probe modes, `track_points` returns the tracker after lines
124 to 157 followed by a run of collaborator calls, provided the seed loop ends (each iteration
lowers a measure that the fuel exceeds). -/
theorem track_points_calls {PP DU : Type} (ops : Collaborators PP DU)
    (fuel : Nat) (t : Tracker PP DU) (d dfs vel : MatMember) (pointFrame : List Vector3f)
    (μ : cvPoint → Work PP DU → Nat)
    (hdec : ∀ start w seed next,
      ops.find_next_velocity_seed_pixel (w.mats vel)
        (w.mats MatMember.m_createForegroundSearched) start = some (seed, next) →
      μ next (ops.run (Call.updateTrackedPointOrCreateNewPointFromSeedPosition
        (HandTracker.createMatrices t d dfs vel pointFrame) seed) w) < μ start w)
    (hfuel : ∀ start w, μ start w < fuel) :
    ∃ cs, HandTracker.track_points ops fuel t d dfs vel pointFrame = some
      (invoke_all ops cs
        ((t.on_work (HandTracker.track_points_zero d)).on_work
          (HandTracker.track_points_world_points d))) := by
  unfold HandTracker.track_points
  dsimp only
  generalize hT0 : (t.on_work (HandTracker.track_points_zero d)).on_work
    (HandTracker.track_points_world_points d) = T0
  have hT0d : T0.m_debugImageStream = t.m_debugImageStream := by rw [← hT0]; rfl
  have hT0c : T0.depth_to_world_data = t.depth_to_world_data := by rw [← hT0]; rfl
  obtain ⟨csA, hA⟩ : ∃ csA, (if (!T0.m_debugImageStream.pause_input) = true then
      invoke ops (Call.initialize_common_calculations
        (HandTracker.updateMatrices T0 d dfs vel pointFrame)) T0 else T0)
      = invoke_all ops csA T0 := by
    split
    · exact ⟨[_], rfl⟩
    · exact ⟨[], rfl⟩
  rw [hA]
  have hB : invoke ops Call.removeDuplicatePoints
      (invoke ops (Call.updateTrackedPoints
        (HandTracker.updateMatrices T0 d dfs vel pointFrame)) (invoke_all ops csA T0))
      = invoke_all ops (csA ++ [Call.updateTrackedPoints
          (HandTracker.updateMatrices T0 d dfs vel pointFrame), Call.removeDuplicatePoints])
        T0 := by
    rw [← invoke_all_append]
    rfl
  rw [hB]
  generalize hBdef : invoke_all ops (csA ++ [Call.updateTrackedPoints
      (HandTracker.updateMatrices T0 d dfs vel pointFrame), Call.removeDuplicatePoints]) T0
    = B
  generalize hcsB : csA ++ [Call.updateTrackedPoints
      (HandTracker.updateMatrices T0 d dfs vel pointFrame), Call.removeDuplicatePoints]
    = csB at hBdef
  have hBd : B.m_debugImageStream = t.m_debugImageStream := by
    rw [← hBdef, invoke_all_debugImageStream, hT0d]
  have hBc : B.depth_to_world_data = t.depth_to_world_data := by
    rw [← hBdef, invoke_all_depth_to_world_data, hT0c]
  have hcm : HandTracker.createMatrices B d dfs vel pointFrame
      = HandTracker.createMatrices t d dfs vel pointFrame :=
    (matrices_congr t B hBd hBc d dfs vel pointFrame).2.1
  obtain ⟨csC, hC⟩ : ∃ csC, (if (!B.m_debugImageStream.use_mouse_probe) = true then
      HandTracker.seed_loop ops (HandTracker.createMatrices B d dfs vel pointFrame) vel fuel
        { x := 0, y := 0 } B
      else some (HandTracker.debug_spawn_point ops
        (HandTracker.createMatrices B d dfs vel pointFrame) B))
      = some (invoke_all ops csC B) := by
    split
    · rw [hcm]
      obtain ⟨seeds, hs⟩ := seed_loop_spec ops
        (HandTracker.createMatrices t d dfs vel pointFrame) vel μ hdec fuel { x := 0, y := 0 }
        B (hfuel _ _)
      exact ⟨_, hs⟩
    · obtain ⟨cs, hcs⟩ := debug_spawn_point_calls ops
        (HandTracker.createMatrices B d dfs vel pointFrame) B
      exact ⟨cs, by rw [hcs]⟩
  rw [hC]
  dsimp only
  obtain ⟨csP, hP⟩ := debug_probe_point_calls ops
    (HandTracker.createMatrices B d dfs vel pointFrame) (invoke_all ops csC B)
  rw [hP]
  have hY : invoke_all ops csP (invoke_all ops csC B)
      = invoke_all ops (csB ++ csC ++ csP) T0 := by
    rw [← hBdef, invoke_all_append, invoke_all_append, List.append_assoc]
  generalize invoke_all ops csP (invoke_all ops csC B) = Y at hY ⊢
  refine ⟨(csB ++ csC ++ csP) ++ [Call.removeOldOrDeadPoints,
    Call.update_full_resolution_points
      (HandTracker.refinementMatrices (invoke ops Call.removeOldOrDeadPoints Y)
        dfs vel pointFrame),
    Call.update_trajectories], ?_⟩
  rw [← invoke_all_append, ← hY]
  rfl

theorem run_all_numWorldPoints {PP DU : Type} (ops : Collaborators PP DU)
    (hops : ∀ c w, (ops.run c w).m_numWorldPoints = w.m_numWorldPoints)
    (cs : List Call) (w : Work PP DU) :
    (cs.foldl (fun w c => ops.run c w) w).m_numWorldPoints = w.m_numWorldPoints := by
  induction cs generalizing w with
  | nil => rfl
  | cons c cs ih => rw [List.foldl_cons, ih, hops]

/-- C14: after a `track_points` call the recorded length `m_numWorldPoints` of the world point
buffer equals `matDepth.cols * matDepth.rows`, and at lines 146 to 157 the buffer is replaced by
a new one of that length exactly when it was absent or its recorded length differed from that
pixel count, and is kept otherwise. The collaborators are given the buffer only, not the member
`m_numWorldPoints`, which they leave as it is; the seed loop is assumed to end. -/
theorem track_points_world_point_buffer {PP DU : Type} (ops : Collaborators PP DU)
    (fuel : Nat) (t : Tracker PP DU) (d dfs vel : MatMember) (pointFrame : List Vector3f)
    (μ : cvPoint → Work PP DU → Nat)
    (hdec : ∀ start w seed next,
      ops.find_next_velocity_seed_pixel (w.mats vel)
        (w.mats MatMember.m_createForegroundSearched) start = some (seed, next) →
      μ next (ops.run (Call.updateTrackedPointOrCreateNewPointFromSeedPosition
        (HandTracker.createMatrices t d dfs vel pointFrame) seed) w) < μ start w)
    (hfuel : ∀ start w, μ start w < fuel)
    (hops : ∀ c w, (ops.run c w).m_numWorldPoints = w.m_numWorldPoints) :
    (∃ t', HandTracker.track_points ops fuel t d dfs vel pointFrame = some t' ∧
      t'.work.m_numWorldPoints
        = ((((t.work.mats d).cols * (t.work.mats d).rows : Nat)) : Int)) ∧
    (HandTracker.track_points_world_points d
        (HandTracker.track_points_zero d t.work)).m_numWorldPoints
      = ((((t.work.mats d).cols * (t.work.mats d).rows : Nat)) : Int) ∧
    ((t.work.m_worldPoints = none ∨
        t.work.m_numWorldPoints ≠ ((((t.work.mats d).cols * (t.work.mats d).rows : Nat)) : Int)) →
      (HandTracker.track_points_world_points d
          (HandTracker.track_points_zero d t.work)).m_worldPoints
        = some (List.replicate ((t.work.mats d).cols * (t.work.mats d).rows)
            { x := 0, y := 0, z := 0 })) ∧
    (¬ (t.work.m_worldPoints = none ∨
        t.work.m_numWorldPoints ≠ ((((t.work.mats d).cols * (t.work.mats d).rows : Nat)) : Int)) →
      (HandTracker.track_points_world_points d
          (HandTracker.track_points_zero d t.work)).m_worldPoints = t.work.m_worldPoints) := by
  obtain ⟨_, _, h3, h4⟩ := track_points_start_spec d t.work
  obtain ⟨cs, hcs⟩ := track_points_calls ops fuel t d dfs vel pointFrame μ hdec hfuel
  refine ⟨⟨_, hcs, ?_⟩, h3, ?_, ?_⟩
  · rw [invoke_all_work, run_all_numWorldPoints ops hops]
    exact h3
  · intro h
    rw [h4, if_pos h]
  · intro h
    rw [h4, if_neg h]

theorem example_collaborators_numWorldPoints (c : Call) (w : Work (List TrackedPoint) Nat) :
    (example_collaborators.run c w).m_numWorldPoints = w.m_numWorldPoints := by
  cases c <;> rfl

/-- Witness of `track_points_world_point_buffer`: the example tracker before its first frame,
whose world point buffer is absent. -/
theorem track_points_world_point_buffer_witness :
    ((∀ start w seed next,
        example_collaborators.find_next_velocity_seed_pixel
          (w.mats MatMember.m_matVelocitySignal)
          (w.mats MatMember.m_createForegroundSearched) start = some (seed, next) →
        example_measure next (example_collaborators.run
          (Call.updateTrackedPointOrCreateNewPointFromSeedPosition
            (HandTracker.createMatrices example_tracker MatMember.m_matDepth
              MatMember.m_matDepthFullSize MatMember.m_matVelocitySignal example_point_buffer)
            seed) w) < example_measure start w) ∧
      (∀ start w, example_measure start w < 3) ∧
      (∀ c w, (example_collaborators.run c w).m_numWorldPoints = w.m_numWorldPoints)) ∧
    ((∃ t', HandTracker.track_points example_collaborators 3 example_tracker
          MatMember.m_matDepth MatMember.m_matDepthFullSize MatMember.m_matVelocitySignal
          example_point_buffer = some t' ∧
        t'.work.m_numWorldPoints
          = ((((example_tracker.work.mats MatMember.m_matDepth).cols *
              (example_tracker.work.mats MatMember.m_matDepth).rows : Nat)) : Int)) ∧
      (HandTracker.track_points_world_points MatMember.m_matDepth
          (HandTracker.track_points_zero MatMember.m_matDepth
            example_tracker.work)).m_numWorldPoints
        = ((((example_tracker.work.mats MatMember.m_matDepth).cols *
            (example_tracker.work.mats MatMember.m_matDepth).rows : Nat)) : Int) ∧
      ((example_tracker.work.m_worldPoints = none ∨
          example_tracker.work.m_numWorldPoints
            ≠ ((((example_tracker.work.mats MatMember.m_matDepth).cols *
              (example_tracker.work.mats MatMember.m_matDepth).rows : Nat)) : Int)) →
        (HandTracker.track_points_world_points MatMember.m_matDepth
            (HandTracker.track_points_zero MatMember.m_matDepth
              example_tracker.work)).m_worldPoints
          = some (List.replicate ((example_tracker.work.mats MatMember.m_matDepth).cols *
              (example_tracker.work.mats MatMember.m_matDepth).rows)
              { x := 0, y := 0, z := 0 })) ∧
      (¬ (example_tracker.work.m_worldPoints = none ∨
          example_tracker.work.m_numWorldPoints
            ≠ ((((example_tracker.work.mats MatMember.m_matDepth).cols *
              (example_tracker.work.mats MatMember.m_matDepth).rows : Nat)) : Int)) →
        (HandTracker.track_points_world_points MatMember.m_matDepth
            (HandTracker.track_points_zero MatMember.m_matDepth
              example_tracker.work)).m_worldPoints = example_tracker.work.m_worldPoints)) :=
  ⟨⟨example_measure_decreases _, example_measure_bound, example_collaborators_numWorldPoints⟩,
    track_points_world_point_buffer example_collaborators 3 example_tracker
      MatMember.m_matDepth MatMember.m_matDepthFullSize MatMember.m_matVelocitySignal
      example_point_buffer example_measure (example_measure_decreases _) example_measure_bound
      example_collaborators_numWorldPoints⟩

/-! ## The point stream and its conversion cache -/

theorem create_point_stream_once (p : PointProcessor) (depthFrame : DepthFrame)
    (answers : PointStreamAnswers) (h : p.m_pointStream ≠ none) :
    PointProcessor.create_point_stream_if_necessary p depthFrame answers = p := by
  unfold PointProcessor.create_point_stream_if_necessary
  cases hs : p.m_pointStream with
  | none => exact absurd hs h
  | some ps => rfl

theorem update_pointframe_from_depth_spec (p : PointProcessor) (ps : PointStream)
    (depthFrame : DepthFrame) (answers : PointStreamAnswers) (h : p.m_pointStream = some ps) :
    (PointProcessor.update_pointframe_from_depth p depthFrame answers).m_depthConversionCache
      = p.m_depthConversionCache ∧
    (PointProcessor.update_pointframe_from_depth p depthFrame answers).m_pointStream = some
      { ps with
        written := ps.written ++
          (match answers.begin_write with
            | some frame_data =>
              [(depthFrame.frameIndex,
                { metadata :=
                    { width := (depthFrame.resolutionX : Int)
                      height := (depthFrame.resolutionY : Int) }
                  data := PointProcessor.calculate_point_frame p.m_depthConversionCache
                    depthFrame frame_data })]
            | none => []) } := by
  unfold PointProcessor.update_pointframe_from_depth
  cases hb : answers.begin_write with
  | none => simp [h]
  | some buf => simp [h]

/-- Once the point stream exists, `on_frame_ready` keeps the conversion cache and the size the
stream was made for. -/
theorem on_frame_ready_keeps_stream (p : PointProcessor) (ps : PointStream)
    (depthFrame : DepthFrame) (answers : PointStreamAnswers) (h : p.m_pointStream = some ps) :
    (PointProcessor.on_frame_ready p depthFrame answers).m_depthConversionCache
      = p.m_depthConversionCache ∧
    ∃ ps', (PointProcessor.on_frame_ready p depthFrame answers).m_pointStream = some ps' ∧
      ps'.width = ps.width ∧ ps'.height = ps.height := by
  have hne : p.m_pointStream ≠ none := by rw [h]; exact Option.some_ne_none ps
  unfold PointProcessor.on_frame_ready
  dsimp only
  rw [create_point_stream_once p depthFrame answers hne]
  split
  · obtain ⟨h1, h2⟩ := update_pointframe_from_depth_spec p ps depthFrame answers h
    exact ⟨h1, _, h2, rfl, rfl⟩
  · exact ⟨rfl, ps, h, rfl, rfl⟩

theorem on_frame_ready_fold_keeps_stream (later : List (DepthFrame × PointStreamAnswers))
    (p : PointProcessor) (ps : PointStream) (h : p.m_pointStream = some ps) :
    (later.foldl (fun q ev => PointProcessor.on_frame_ready q ev.1 ev.2) p).m_depthConversionCache
      = p.m_depthConversionCache ∧
    ∃ ps', (later.foldl (fun q ev => PointProcessor.on_frame_ready q ev.1 ev.2) p).m_pointStream
        = some ps' ∧
      ps'.width = ps.width ∧ ps'.height = ps.height := by
  induction later generalizing p ps with
  | nil => exact ⟨rfl, ps, h, rfl, rfl⟩
  | cons ev later ih =>
    obtain ⟨h1, ps1, h2, h3, h4⟩ := on_frame_ready_keeps_stream p ps ev.1 ev.2 h
    obtain ⟨i1, ps2, i2, i3, i4⟩ := ih (PointProcessor.on_frame_ready p ev.1 ev.2) ps1 h2
    rw [List.foldl_cons]
    exact ⟨i1.trans h1, ps2, i2, i3.trans h3, i4.trans h4⟩

theorem on_frame_ready_first (p : PointProcessor) (depthFrame : DepthFrame)
    (answers : PointStreamAnswers) (h : p.m_pointStream = none) :
    (PointProcessor.on_frame_ready p depthFrame answers).m_depthConversionCache
      = answers.depth_to_world_data ∧
    ∃ ps, (PointProcessor.on_frame_ready p depthFrame answers).m_pointStream = some ps ∧
      ps.width = depthFrame.resolutionX ∧ ps.height = depthFrame.resolutionY := by
  have hc : PointProcessor.create_point_stream_if_necessary p depthFrame answers =
      { m_pointStream := some
          { width := depthFrame.resolutionX, height := depthFrame.resolutionY, written := [] }
        m_depthConversionCache := answers.depth_to_world_data } := by
    unfold PointProcessor.create_point_stream_if_necessary
    rw [h]
  unfold PointProcessor.on_frame_ready
  dsimp only
  rw [hc]
  split
  · obtain ⟨h1, h2⟩ := update_pointframe_from_depth_spec
      { m_pointStream := some
          { width := depthFrame.resolutionX, height := depthFrame.resolutionY, written := [] }
        m_depthConversionCache := answers.depth_to_world_data }
      { width := depthFrame.resolutionX, height := depthFrame.resolutionY, written := [] }
      depthFrame answers rfl
    exact ⟨h1, _, h2, rfl, rfl⟩
  · exact ⟨rfl, _, rfl, rfl, rfl⟩

/-- C13: the conversion cache that `calculate_point_frame` uses is the one captured when the
point stream is created on the first frame. `create_point_stream_if_necessary` does nothing once
the stream exists, and after any later frames, whatever their resolution and whatever the depth
stream then reports, the cache is still the one of the first frame, the stream still has the
size of the first frame, and a point frame written next is computed with that cache. -/
theorem point_processor_cache_captured_once (p : PointProcessor)
    (hp : p.m_pointStream = none) (firstFrame : DepthFrame) (firstAnswers : PointStreamAnswers)
    (later : List (DepthFrame × PointStreamAnswers)) :
    (∀ q depthFrame answers, q.m_pointStream ≠ none →
      PointProcessor.create_point_stream_if_necessary q depthFrame answers = q) ∧
    (later.foldl (fun q ev => PointProcessor.on_frame_ready q ev.1 ev.2)
        (PointProcessor.on_frame_ready p firstFrame firstAnswers)).m_depthConversionCache
      = firstAnswers.depth_to_world_data ∧
    ∃ ps, (later.foldl (fun q ev => PointProcessor.on_frame_ready q ev.1 ev.2)
        (PointProcessor.on_frame_ready p firstFrame firstAnswers)).m_pointStream = some ps ∧
      ps.width = firstFrame.resolutionX ∧ ps.height = firstFrame.resolutionY ∧
      ∀ (depthFrame : DepthFrame) (answers : PointStreamAnswers) (frame_data : List Vector3f),
        answers.has_connections = true → answers.begin_write = some frame_data →
        (PointProcessor.on_frame_ready
          (later.foldl (fun q ev => PointProcessor.on_frame_ready q ev.1 ev.2)
            (PointProcessor.on_frame_ready p firstFrame firstAnswers))
          depthFrame answers).m_pointStream = some
          { ps with
            written := ps.written ++
              [(depthFrame.frameIndex,
                { metadata :=
                    { width := (depthFrame.resolutionX : Int)
                      height := (depthFrame.resolutionY : Int) }
                  data := PointProcessor.calculate_point_frame
                    firstAnswers.depth_to_world_data depthFrame frame_data })] } := by
  obtain ⟨f1, ps1, f2, f3, f4⟩ := on_frame_ready_first p firstFrame firstAnswers hp
  obtain ⟨k1, ps2, k2, k3, k4⟩ := on_frame_ready_fold_keeps_stream later
    (PointProcessor.on_frame_ready p firstFrame firstAnswers) ps1 f2
  refine ⟨fun q df a h => create_point_stream_once q df a h, k1.trans f1, ps2, k2,
    k3.trans f3, k4.trans f4, ?_⟩
  intro depthFrame answers frame_data hc hb
  generalize later.foldl (fun q ev => PointProcessor.on_frame_ready q ev.1 ev.2)
    (PointProcessor.on_frame_ready p firstFrame firstAnswers) = pn at k1 k2
  have hne : pn.m_pointStream ≠ none := by rw [k2]; exact Option.some_ne_none ps2
  unfold PointProcessor.on_frame_ready
  dsimp only
  rw [create_point_stream_once pn depthFrame answers hne, if_pos hc,
    (update_pointframe_from_depth_spec pn ps2 depthFrame answers k2).2, hb, k1, f1]

/-- Witness of `point_processor_cache_captured_once`: a first 4 x 3 frame, then a 2 x 2 frame
at which the depth stream reports another cache. -/
theorem point_processor_cache_captured_once_witness :
    example_point_processor.m_pointStream = none ∧
    ((∀ q depthFrame answers, q.m_pointStream ≠ none →
      PointProcessor.create_point_stream_if_necessary q depthFrame answers = q) ∧
    ([(example_depth_frame_small, example_answers_later)].foldl
        (fun q ev => PointProcessor.on_frame_ready q ev.1 ev.2)
        (PointProcessor.on_frame_ready example_point_processor example_depth_frame
          example_answers)).m_depthConversionCache
      = example_answers.depth_to_world_data ∧
    ∃ ps, ([(example_depth_frame_small, example_answers_later)].foldl
        (fun q ev => PointProcessor.on_frame_ready q ev.1 ev.2)
        (PointProcessor.on_frame_ready example_point_processor example_depth_frame
          example_answers)).m_pointStream = some ps ∧
      ps.width = example_depth_frame.resolutionX ∧
      ps.height = example_depth_frame.resolutionY ∧
      ∀ (depthFrame : DepthFrame) (answers : PointStreamAnswers) (frame_data : List Vector3f),
        answers.has_connections = true → answers.begin_write = some frame_data →
        (PointProcessor.on_frame_ready
          ([(example_depth_frame_small, example_answers_later)].foldl
            (fun q ev => PointProcessor.on_frame_ready q ev.1 ev.2)
            (PointProcessor.on_frame_ready example_point_processor example_depth_frame
              example_answers))
          depthFrame answers).m_pointStream = some
          { ps with
            written := ps.written ++
              [(depthFrame.frameIndex,
                { metadata :=
                    { width := (depthFrame.resolutionX : Int)
                      height := (depthFrame.resolutionY : Int) }
                  data := PointProcessor.calculate_point_frame
                    example_answers.depth_to_world_data depthFrame frame_data })] }) :=
  ⟨rfl,
    point_processor_cache_captured_once example_point_processor rfl example_depth_frame
      example_answers [(example_depth_frame_small, example_answers_later)]⟩

/-! ## Frame indices of the written frames -/

theorem generate_hand_frame_on_written {PP DU : Type} (cap : Nat) (ops : Collaborators PP DU)
    (t : Tracker PP DU) (frameIndex : Nat) :
    (HandTracker.generate_hand_frame_on cap ops t frameIndex).m_debugImageStream
      = t.m_debugImageStream ∧
    ∃ hs, (HandTracker.generate_hand_frame_on cap ops t frameIndex).m_handStream.written
        = t.m_handStream.written ++ hs ∧
      (∀ e ∈ hs, e.1 = frameIndex) ∧
      (t.m_handStream.begin_write = none → hs = []) ∧
      (t.m_handStream.begin_write ≠ none → hs.length = 1) := by
  unfold HandTracker.generate_hand_frame_on
  cases hb : t.m_handStream.begin_write with
  | none =>
    refine ⟨rfl, [], ?_, ?_, fun _ => rfl, fun h => absurd rfl h⟩
    · simp [HandTracker.generate_hand_frame]
    · intro e he
      cases he
  | some w =>
    refine ⟨rfl, [(frameIndex, _)], rfl, ?_, fun h => Option.noConfusion h, fun _ => rfl⟩
    intro e he
    rw [List.mem_singleton] at he
    rw [he]

theorem generate_hand_debug_image_frame_written {PP DU : Type} (ops : Collaborators PP DU)
    (t : Tracker PP DU) (frameIndex : Nat) :
    (HandTracker.generate_hand_debug_image_frame ops t frameIndex).m_handStream
      = t.m_handStream ∧
    ∃ ds, (HandTracker.generate_hand_debug_image_frame ops t frameIndex).m_debugImageStream.written
        = t.m_debugImageStream.written ++ ds ∧
      (∀ e ∈ ds, e.1 = frameIndex) := by
  unfold HandTracker.generate_hand_debug_image_frame
  cases hb : t.m_debugImageStream.begin_write with
  | none =>
    refine ⟨rfl, [], by simp, ?_⟩
    intro e he
    cases he
  | some w =>
    refine ⟨rfl, [(frameIndex, _)], rfl, ?_⟩
    intro e he
    rw [List.mem_singleton] at he
    rw [he]

/-- C15: every frame is written under the frame index of the depth frame it was computed
from. The hand frame and the debug image frame that `update_tracking` adds to their streams
carry `depthFrame.frameIndex()`, a hand frame is added only when the hand stream has
connections (and then one is, unless `begin_write` gives `nullptr`), and the point frame that
`update_pointframe_from_depth` adds carries `depthFrame.frameIndex()` too. The seed loop is
assumed to end. -/
theorem written_frames_carry_depth_frame_index {PP DU : Type} (cap : Nat)
    (ops : Collaborators PP DU) (fuel : Nat) (t : Tracker PP DU) (depthFrame : DepthFrame)
    (pointFrame : List Vector3f) (μ : cvPoint → Work PP DU → Nat)
    (p : PointProcessor) (ps : PointStream) (answers : PointStreamAnswers)
    (hdec : ∀ start w seed next,
      ops.find_next_velocity_seed_pixel (w.mats MatMember.m_matVelocitySignal)
        (w.mats MatMember.m_createForegroundSearched) start = some (seed, next) →
      μ next (ops.run (Call.updateTrackedPointOrCreateNewPointFromSeedPosition
        (HandTracker.createMatrices t MatMember.m_matDepth MatMember.m_matDepthFullSize
          MatMember.m_matVelocitySignal pointFrame) seed) w) < μ start w)
    (hfuel : ∀ start w, μ start w < fuel)
    (hps : p.m_pointStream = some ps) :
    (∃ t' hs ds,
      HandTracker.update_tracking cap ops fuel t depthFrame pointFrame = some t' ∧
      t'.m_handStream.written = t.m_handStream.written ++ hs ∧
      (∀ e ∈ hs, e.1 = depthFrame.frameIndex) ∧
      (t.m_handStream.has_connections = false → hs = []) ∧
      (t.m_handStream.has_connections = true → t.m_handStream.begin_write ≠ none →
        hs.length = 1) ∧
      t'.m_debugImageStream.written = t.m_debugImageStream.written ++ ds ∧
      (∀ e ∈ ds, e.1 = depthFrame.frameIndex) ∧
      (t.m_debugImageStream.has_connections = false → ds = [])) ∧
    (∃ ns,
      (PointProcessor.update_pointframe_from_depth p depthFrame answers).m_pointStream
        = some { ps with written := ps.written ++ ns } ∧
      (∀ e ∈ ns, e.1 = depthFrame.frameIndex) ∧
      (answers.begin_write ≠ none → ns.length = 1)) := by
  constructor
  · unfold HandTracker.update_tracking
    dsimp only
    generalize ht0 : (if (!t.m_debugImageStream.pause_input) = true then
        invoke ops (Call.processDepthToVelocitySignal depthFrame MatMember.m_matDepth
          MatMember.m_matDepthFullSize MatMember.m_matVelocitySignal) t
      else t) = t0
    have h0 : t0.m_handStream = t.m_handStream ∧
        t0.m_debugImageStream = t.m_debugImageStream ∧
        t0.depth_to_world_data = t.depth_to_world_data := by
      rw [← ht0]
      split <;> exact ⟨rfl, rfl, rfl⟩
    have hcm := (matrices_congr t t0 h0.2.1 h0.2.2 MatMember.m_matDepth
      MatMember.m_matDepthFullSize MatMember.m_matVelocitySignal pointFrame).2.1
    obtain ⟨cs, hcs⟩ := track_points_calls ops fuel t0 MatMember.m_matDepth
      MatMember.m_matDepthFullSize MatMember.m_matVelocitySignal pointFrame μ
      (by rw [hcm]; exact hdec) hfuel
    rw [hcs]
    dsimp only
    generalize hT : invoke_all ops cs
      ((t0.on_work (HandTracker.track_points_zero MatMember.m_matDepth)).on_work
        (HandTracker.track_points_world_points MatMember.m_matDepth)) = T
    have hTh : T.m_handStream = t.m_handStream := by
      rw [← hT, invoke_all_handStream]
      exact h0.1
    have hTd : T.m_debugImageStream = t.m_debugImageStream := by
      rw [← hT, invoke_all_debugImageStream]
      exact h0.2.1
    obtain ⟨g1, hs, g2, g3, g4, g5⟩ :=
      generate_hand_frame_on_written cap ops T depthFrame.frameIndex
    obtain ⟨hs', hT1h, hs1, hs2, hs3, hT1d⟩ : ∃ hs',
        (if T.m_handStream.has_connections = true then
          HandTracker.generate_hand_frame_on cap ops T depthFrame.frameIndex
        else T).m_handStream.written = t.m_handStream.written ++ hs' ∧
        (∀ e ∈ hs', e.1 = depthFrame.frameIndex) ∧
        (t.m_handStream.has_connections = false → hs' = []) ∧
        (t.m_handStream.has_connections = true → t.m_handStream.begin_write ≠ none →
          hs'.length = 1) ∧
        (if T.m_handStream.has_connections = true then
          HandTracker.generate_hand_frame_on cap ops T depthFrame.frameIndex
        else T).m_debugImageStream = t.m_debugImageStream := by
      by_cases hc : T.m_handStream.has_connections = true
      · rw [if_pos hc]
        refine ⟨hs, by rw [g2, hTh], g3, ?_, ?_, g1.trans hTd⟩
        · intro hf
          rw [hTh, hf] at hc
          cases hc
        · intro _ hb
          exact g5 (by rw [hTh]; exact hb)
      · rw [if_neg hc]
        refine ⟨[], by rw [hTh, List.append_nil], ?_, fun _ => rfl, ?_, hTd⟩
        · intro e he
          cases he
        · intro hf
          rw [hTh] at hc
          exact absurd hf hc
    generalize (if T.m_handStream.has_connections = true then
        HandTracker.generate_hand_frame_on cap ops T depthFrame.frameIndex
      else T) = T1 at hT1h hT1d ⊢
    obtain ⟨d1, ds, d2, d3⟩ :=
      generate_hand_debug_image_frame_written ops T1 depthFrame.frameIndex
    by_cases hc : T1.m_debugImageStream.has_connections = true
    · rw [if_pos hc]
      refine ⟨_, hs', ds, rfl, by rw [d1, hT1h], hs1, hs2, hs3, by rw [d2, hT1d], d3, ?_⟩
      intro hf
      rw [hT1d, hf] at hc
      cases hc
    · rw [if_neg hc]
      refine ⟨_, hs', [], rfl, hT1h, hs1, hs2, hs3, by rw [hT1d, List.append_nil], ?_,
        fun _ => rfl⟩
      intro e he
      cases he
  · obtain ⟨_, h2⟩ := update_pointframe_from_depth_spec p ps depthFrame answers hps
    rw [h2]
    cases hb : answers.begin_write with
    | none =>
      refine ⟨[], rfl, ?_, fun h => absurd rfl h⟩
      intro e he
      cases he
    | some buf =>
      refine ⟨[(depthFrame.frameIndex, _)], rfl, ?_, fun _ => rfl⟩
      intro e he
      rw [List.mem_singleton] at he
      rw [he]

/-- Witness of `written_frames_carry_depth_frame_index`: the example tracker, whose hand stream
has a consumer, and the example point processor with its stream. -/
theorem written_frames_carry_depth_frame_index_witness :
    ((∀ start w seed next,
        example_collaborators.find_next_velocity_seed_pixel
          (w.mats MatMember.m_matVelocitySignal)
          (w.mats MatMember.m_createForegroundSearched) start = some (seed, next) →
        example_measure next (example_collaborators.run
          (Call.updateTrackedPointOrCreateNewPointFromSeedPosition
            (HandTracker.createMatrices example_tracker MatMember.m_matDepth
              MatMember.m_matDepthFullSize MatMember.m_matVelocitySignal example_point_buffer)
            seed) w) < example_measure start w) ∧
      (∀ start w, example_measure start w < 3) ∧
      example_point_processor_streaming.m_pointStream = some example_point_stream) ∧
    ((∃ t' hs ds,
      HandTracker.update_tracking 10 example_collaborators 3 example_tracker
        example_depth_frame example_point_buffer = some t' ∧
      t'.m_handStream.written = example_tracker.m_handStream.written ++ hs ∧
      (∀ e ∈ hs, e.1 = example_depth_frame.frameIndex) ∧
      (example_tracker.m_handStream.has_connections = false → hs = []) ∧
      (example_tracker.m_handStream.has_connections = true →
        example_tracker.m_handStream.begin_write ≠ none → hs.length = 1) ∧
      t'.m_debugImageStream.written = example_tracker.m_debugImageStream.written ++ ds ∧
      (∀ e ∈ ds, e.1 = example_depth_frame.frameIndex) ∧
      (example_tracker.m_debugImageStream.has_connections = false → ds = [])) ∧
    (∃ ns,
      (PointProcessor.update_pointframe_from_depth example_point_processor_streaming
          example_depth_frame example_answers).m_pointStream
        = some { example_point_stream with written := example_point_stream.written ++ ns } ∧
      (∀ e ∈ ns, e.1 = example_depth_frame.frameIndex) ∧
      (example_answers.begin_write ≠ none → ns.length = 1))) :=
  ⟨⟨example_measure_decreases _, example_measure_bound, rfl⟩,
    written_frames_carry_depth_frame_index 10 example_collaborators 3 example_tracker
      example_depth_frame example_point_buffer example_measure
      example_point_processor_streaming example_point_stream example_answers
      (example_measure_decreases _) example_measure_bound rfl⟩

/-! ## Unsigned depth samples -/

/-- The point that `calculate_point_frame` writes for a pixel inside the frame, from the
sample stored at that pixel. -/
theorem calculate_point_frame_at_pixel (c : conversion_cache_t) (frame : DepthFrame)
    (buf : List Vector3f) (x y : Nat) (s : Int)
    (hx : x < frame.resolutionX) (hy : y < frame.resolutionY)
    (hbuf : frame.resolutionX * frame.resolutionY ≤ buf.length)
    (hs : frame.data[y * frame.resolutionX + x]? = some s) :
    (PointProcessor.calculate_point_frame c frame buf)[y * frame.resolutionX + x]?
      = some (PointProcessor.world_point c x y (to_uint16 s)) := by
  have hlt : y * frame.resolutionX + x < frame.resolutionY * frame.resolutionX := by
    calc y * frame.resolutionX + x < y * frame.resolutionX + frame.resolutionX := by omega
      _ = (y + 1) * frame.resolutionX := by rw [Nat.succ_mul]
      _ ≤ frame.resolutionY * frame.resolutionX := Nat.mul_le_mul_right _ hy
  rw [calculate_point_frame_getElem?, if_pos hlt]
  obtain ⟨hd, hm⟩ := row_index_div_mod frame.resolutionX y (y * frame.resolutionX + x)
    (by omega) (by omega)
  have hm2 : (y * frame.resolutionX + x) % frame.resolutionX = x := by rw [hm]; omega
  have hb : y * frame.resolutionX + x < buf.length := by
    rw [Nat.mul_comm frame.resolutionY frame.resolutionX] at hlt; omega
  have hget : frame.data.getD (y * frame.resolutionX + x) 0 = s := by
    rw [List.getD_eq_getElem?_getD, hs]; rfl
  rw [hd, hm2, hget, List.getElem?_eq_getElem hb]
  rfl

/-- C18: `calculate_point_frame` reads each stored 16-bit sample as an unsigned value, the
`int16_t` sample modulo `2^16`: the world point written for a pixel has `wz` equal to that
value, so `0 ≤ wz ≤ 65535`, also when the stored `int16_t` is negative (then `wz` is the sample
plus 65536), and a sample of 0 gives the world point (0, 0, 0). -/
theorem calculate_point_frame_unsigned_depth (c : conversion_cache_t) (frame : DepthFrame)
    (buf : List Vector3f) (x y : Nat) (s : Int)
    (hx : x < frame.resolutionX) (hy : y < frame.resolutionY)
    (hbuf : frame.resolutionX * frame.resolutionY ≤ buf.length)
    (hs : frame.data[y * frame.resolutionX + x]? = some s) :
    ∃ p, (PointProcessor.calculate_point_frame c frame buf)[y * frame.resolutionX + x]?
        = some p ∧
      p.z = ((s % 65536 : Int) : ℚ) ∧
      0 ≤ p.z ∧ p.z ≤ 65535 ∧
      (-32768 ≤ s → s < 0 → p.z = ((s + 65536 : Int) : ℚ)) ∧
      (s = 0 → p = { x := 0, y := 0, z := 0 }) := by
  refine ⟨_, calculate_point_frame_at_pixel c frame buf x y s hx hy hbuf hs, rfl, ?_, ?_, ?_, ?_⟩
  · show (0 : ℚ) ≤ ((to_uint16 s : Int) : ℚ)
    have : 0 ≤ to_uint16 s := Int.emod_nonneg s (by decide)
    exact_mod_cast this
  · show ((to_uint16 s : Int) : ℚ) ≤ 65535
    have : to_uint16 s < 65536 := Int.emod_lt_of_pos s (by decide)
    have h2 : to_uint16 s ≤ 65535 := by omega
    exact_mod_cast h2
  · intro h1 h2
    show ((to_uint16 s : Int) : ℚ) = _
    have : to_uint16 s = s + 65536 := by
      unfold to_uint16
      omega
    rw [this]
  · intro h0
    subst h0
    unfold PointProcessor.world_point to_uint16
    simp

/-- Witness of `calculate_point_frame_unsigned_depth`: pixel (3, 2) of the example frame, whose
sample is stored as the negative value -1536. -/
theorem calculate_point_frame_unsigned_depth_witness :
    (3 < example_depth_frame.resolutionX ∧ 2 < example_depth_frame.resolutionY ∧
      example_depth_frame.resolutionX * example_depth_frame.resolutionY
        ≤ example_point_buffer.length ∧
      example_depth_frame.data[2 * example_depth_frame.resolutionX + 3]? = some (-1536)) ∧
    ∃ p, (PointProcessor.calculate_point_frame example_cache example_depth_frame
          example_point_buffer)[2 * example_depth_frame.resolutionX + 3]? = some p ∧
      p.z = (((-1536) % 65536 : Int) : ℚ) ∧
      0 ≤ p.z ∧ p.z ≤ 65535 ∧
      ((-32768 : Int) ≤ -1536 → (-1536 : Int) < 0 → p.z = (((-1536) + 65536 : Int) : ℚ)) ∧
      ((-1536 : Int) = 0 → p = { x := 0, y := 0, z := 0 }) :=
  ⟨⟨by decide, by decide, by decide, by decide⟩,
    calculate_point_frame_unsigned_depth example_cache example_depth_frame example_point_buffer
      3 2 (-1536) (by decide) (by decide) (by decide) (by decide)⟩

/-! ## Probe and spawn positions -/

theorem to_int_bounds (q : ℚ) (w : Int) (h0 : 0 ≤ q) (h1 : q ≤ (w : ℚ)) :
    0 ≤ to_int q ∧ to_int q ≤ w := by
  have hnum : 0 ≤ q.num := Rat.num_nonneg.2 h0
  have hfl : to_int q = ⌊q⌋ := by
    unfold to_int
    rw [Int.tdiv_eq_ediv hnum (Int.ofNat_nonneg _)]
    exact (Rat.floor_def' q).symm
  rw [hfl]
  constructor
  · exact Int.floor_nonneg.2 h0
  · have : ((⌊q⌋ : Int) : ℚ) ≤ (w : ℚ) := le_trans (Int.floor_le q) h1
    exact_mod_cast this

/-- What the clamp of `get_mouse_probe_position` and `get_spawn_position` does give, for a
processing size that is not negative: `0 ≤ x ≤ width` and `0 ≤ y ≤ height`, both ends
included. -/
theorem probe_and_spawn_position_within_closed_bounds {PP DU : Type} (t : Tracker PP DU)
    (hw : 0 ≤ t.m_processingSizeWidth) (hh : 0 ≤ t.m_processingSizeHeight) :
    (0 ≤ (HandTracker.get_mouse_probe_position t).x ∧
      (HandTracker.get_mouse_probe_position t).x ≤ t.m_processingSizeWidth ∧
      0 ≤ (HandTracker.get_mouse_probe_position t).y ∧
      (HandTracker.get_mouse_probe_position t).y ≤ t.m_processingSizeHeight) ∧
    (0 ≤ (HandTracker.get_spawn_position t).x ∧
      (HandTracker.get_spawn_position t).x ≤ t.m_processingSizeWidth ∧
      0 ≤ (HandTracker.get_spawn_position t).y ∧
      (HandTracker.get_spawn_position t).y ≤ t.m_processingSizeHeight) := by
  have hwq : (0 : ℚ) ≤ (t.m_processingSizeWidth : ℚ) := by exact_mod_cast hw
  have hhq : (0 : ℚ) ≤ (t.m_processingSizeHeight : ℚ) := by exact_mod_cast hh
  have key : ∀ (n : ℚ) (w : Int), (0 : ℚ) ≤ (w : ℚ) →
      0 ≤ to_int (max 0 (min (w : ℚ) (n * (w : ℚ)))) ∧
      to_int (max 0 (min (w : ℚ) (n * (w : ℚ)))) ≤ w := by
    intro n w hwn
    exact to_int_bounds _ w (le_max_left _ _) (max_le hwn (min_le_left _ _))
  unfold HandTracker.get_mouse_probe_position HandTracker.get_spawn_position
  dsimp only
  exact ⟨⟨(key _ _ hwq).1, (key _ _ hwq).2, (key _ _ hhq).1, (key _ _ hhq).2⟩,
    ⟨(key _ _ hwq).1, (key _ _ hwq).2, (key _ _ hhq).1, (key _ _ hhq).2⟩⟩

/-- C17 fails on the code: with the mouse at the normalized position (1, 1) and a processing
size of 4 x 3, `get_mouse_probe_position` and `get_spawn_position` return (4, 3), the width and
the height themselves, so `x < processingSizeWidth` and `y < processingSizeHeight` do not hold;
the read `matDepth.at(probePosition)` of `debug_probe_point` is then outside the 4 x 3 matrix
and the write of `mark_image_pixel` lands past the twelve pixels of the debug image. -/
theorem probe_position_reaches_width_and_height :
    example_probe_tracker.m_processingSizeWidth = 4 ∧
    example_probe_tracker.m_processingSizeHeight = 3 ∧
    HandTracker.get_mouse_probe_position example_probe_tracker = { x := 4, y := 3 } ∧
    HandTracker.get_spawn_position example_probe_tracker = { x := 4, y := 3 } ∧
    ¬ ((HandTracker.get_mouse_probe_position example_probe_tracker).x
        < example_probe_tracker.m_processingSizeWidth) ∧
    ¬ ((HandTracker.get_mouse_probe_position example_probe_tracker).y
        < example_probe_tracker.m_processingSizeHeight) ∧
    Mat.read_at (example_probe_tracker.work.mats MatMember.m_matDepth)
      (HandTracker.get_mouse_probe_position example_probe_tracker) = none ∧
    mark_image_pixel example_debug_image { r := 255, g := 0, b := 255 }
      { x := (HandTracker.get_spawn_position example_probe_tracker).x
        y := (HandTracker.get_spawn_position example_probe_tracker).y } = none := by
  have hq : to_int 4 = 4 := rfl
  have hq3 : to_int 3 = 3 := rfl
  have hp : HandTracker.get_mouse_probe_position example_probe_tracker = { x := 4, y := 3 } := by
    unfold HandTracker.get_mouse_probe_position
    show ({ x := to_int (max 0 (min ((4 : Int) : ℚ) (1 * ((4 : Int) : ℚ)))),
            y := to_int (max 0 (min ((3 : Int) : ℚ) (1 * ((3 : Int) : ℚ)))) } : cvPoint) = _
    norm_num [hq, hq3]
  have hs : HandTracker.get_spawn_position example_probe_tracker = { x := 4, y := 3 } := by
    unfold HandTracker.get_spawn_position
    show ({ x := to_int (max 0 (min ((4 : Int) : ℚ) (1 * ((4 : Int) : ℚ)))),
            y := to_int (max 0 (min ((3 : Int) : ℚ) (1 * ((3 : Int) : ℚ)))) } : cvPoint) = _
    norm_num [hq, hq3]
  refine ⟨rfl, rfl, hp, hs, ?_, ?_, ?_, ?_⟩
  · rw [hp]; decide
  · rw [hp]; decide
  · rw [hp]; rfl
  · rw [hs]; rfl

/-! ## `sensekit::Vector3f` -/

/-- C19: in exact arithmetic, for all vectors `a` and `b`, `a.cross(b)` is orthogonal to both
operands, `a.dot(a.cross(b)) = 0` and `b.dot(a.cross(b)) = 0`, and the cross product is
anti-commutative, `a.cross(b) = -(b.cross(a))`. -/
theorem cross_orthogonal_and_anticommutative (F : Type) [CommRing F]
    (a b : sensekit.Vector3f F) :
    sensekit.Vector3f.dot a (sensekit.Vector3f.cross a b) = 0 ∧
    sensekit.Vector3f.dot b (sensekit.Vector3f.cross a b) = 0 ∧
    sensekit.Vector3f.cross a b = sensekit.Vector3f.neg (sensekit.Vector3f.cross b a) := by
  refine ⟨?_, ?_, ?_⟩
  · unfold sensekit.Vector3f.dot sensekit.Vector3f.cross
    dsimp only
    ring
  · unfold sensekit.Vector3f.dot sensekit.Vector3f.cross
    dsimp only
    ring
  · unfold sensekit.Vector3f.neg sensekit.Vector3f.cross
    dsimp only
    congr 1 <;> ring

theorem normalize_of_small {F : Type} [LinearOrderedField F] (sqrtf : F → F)
    (v : sensekit.Vector3f F)
    (h : sensekit.Vector3f.length sqrtf v < 1 / 1000000000) :
    sensekit.Vector3f.normalize sqrtf v = { x := 0, y := 0, z := 0 } := by
  unfold sensekit.Vector3f.length at h
  unfold sensekit.Vector3f.normalize
  dsimp only
  rw [if_pos h]

theorem normalize_of_not_small {F : Type} [LinearOrderedField F] (sqrtf : F → F)
    (v : sensekit.Vector3f F)
    (h : ¬ sensekit.Vector3f.length sqrtf v < 1 / 1000000000) :
    sensekit.Vector3f.normalize sqrtf v =
      { x := v.x / sensekit.Vector3f.length sqrtf v
        y := v.y / sensekit.Vector3f.length sqrtf v
        z := v.z / sensekit.Vector3f.length sqrtf v } := by
  unfold sensekit.Vector3f.length at h ⊢
  unfold sensekit.Vector3f.normalize
  dsimp only
  rw [if_neg h]

/-- C20: over the reals, `Vector3f::normalize` never divides by zero. For a vector whose length
is below `1e-9`, the zero vector among them, it returns (0, 0, 0); for every other vector the
length is not zero and it returns the vector divided componentwise by its length, whose
`length_squared` is 1; and normalizing twice gives the same as normalizing once. -/
theorem normalize_over_the_reals (v : sensekit.Vector3f ℝ) :
    (sensekit.Vector3f.length Real.sqrt v < 1 / 1000000000 →
      sensekit.Vector3f.normalize Real.sqrt v = { x := 0, y := 0, z := 0 }) ∧
    sensekit.Vector3f.normalize Real.sqrt { x := 0, y := 0, z := 0 }
      = { x := 0, y := 0, z := 0 } ∧
    (¬ sensekit.Vector3f.length Real.sqrt v < 1 / 1000000000 →
      sensekit.Vector3f.length Real.sqrt v ≠ 0 ∧
      sensekit.Vector3f.normalize Real.sqrt v =
        { x := v.x / sensekit.Vector3f.length Real.sqrt v
          y := v.y / sensekit.Vector3f.length Real.sqrt v
          z := v.z / sensekit.Vector3f.length Real.sqrt v } ∧
      sensekit.Vector3f.length_squared (sensekit.Vector3f.normalize Real.sqrt v) = 1) ∧
    sensekit.Vector3f.normalize Real.sqrt (sensekit.Vector3f.normalize Real.sqrt v)
      = sensekit.Vector3f.normalize Real.sqrt v := by
  have hzero : sensekit.Vector3f.normalize Real.sqrt ({ x := 0, y := 0, z := 0 } :
      sensekit.Vector3f ℝ) = { x := 0, y := 0, z := 0 } := by
    apply normalize_of_small
    unfold sensekit.Vector3f.length
    norm_num
  have hS : 0 ≤ v.x * v.x + v.y * v.y + v.z * v.z :=
    add_nonneg (add_nonneg (mul_self_nonneg _) (mul_self_nonneg _)) (mul_self_nonneg _)
  have hLL : sensekit.Vector3f.length Real.sqrt v * sensekit.Vector3f.length Real.sqrt v
      = v.x * v.x + v.y * v.y + v.z * v.z := Real.mul_self_sqrt hS
  have hbig : ¬ sensekit.Vector3f.length Real.sqrt v < 1 / 1000000000 →
      sensekit.Vector3f.length Real.sqrt v ≠ 0 ∧
      sensekit.Vector3f.length_squared (sensekit.Vector3f.normalize Real.sqrt v) = 1 := by
    intro h
    have hpos : 0 < sensekit.Vector3f.length Real.sqrt v := by
      have : (1 : ℝ) / 1000000000 ≤ sensekit.Vector3f.length Real.sqrt v := not_lt.1 h
      have hε : (0 : ℝ) < 1 / 1000000000 := by norm_num
      exact lt_of_lt_of_le hε this
    refine ⟨ne_of_gt hpos, ?_⟩
    rw [normalize_of_not_small Real.sqrt v h]
    unfold sensekit.Vector3f.length_squared
    dsimp only
    have hne := ne_of_gt hpos
    field_simp
    rw [← hLL]
  refine ⟨normalize_of_small Real.sqrt v, hzero, ?_, ?_⟩
  · intro h
    exact ⟨(hbig h).1, normalize_of_not_small Real.sqrt v h, (hbig h).2⟩
  · by_cases h : sensekit.Vector3f.length Real.sqrt v < 1 / 1000000000
    · rw [normalize_of_small Real.sqrt v h, hzero]
    · have h1 : sensekit.Vector3f.length Real.sqrt (sensekit.Vector3f.normalize Real.sqrt v)
          = 1 := by
        have := (hbig h).2
        unfold sensekit.Vector3f.length_squared at this
        unfold sensekit.Vector3f.length
        rw [this, Real.sqrt_one]
      have hn : ¬ sensekit.Vector3f.length Real.sqrt (sensekit.Vector3f.normalize Real.sqrt v)
          < 1 / 1000000000 := by
        rw [h1]
        norm_num
      rw [normalize_of_not_small Real.sqrt _ hn, h1]
      simp

/-- Witness of `normalize_over_the_reals`: the vector (3, 4, 0) has length 5, which is not below
`1e-9`, so it takes the dividing branch. -/
theorem normalize_over_the_reals_witness :
    (sensekit.Vector3f.length Real.sqrt ({ x := 3, y := 4, z := 0 } : sensekit.Vector3f ℝ) = 5 ∧
      ¬ sensekit.Vector3f.length Real.sqrt
          ({ x := 3, y := 4, z := 0 } : sensekit.Vector3f ℝ) < 1 / 1000000000) ∧
    ((sensekit.Vector3f.length Real.sqrt
          ({ x := 3, y := 4, z := 0 } : sensekit.Vector3f ℝ) < 1 / 1000000000 →
      sensekit.Vector3f.normalize Real.sqrt ({ x := 3, y := 4, z := 0 } : sensekit.Vector3f ℝ)
        = { x := 0, y := 0, z := 0 }) ∧
    sensekit.Vector3f.normalize Real.sqrt { x := 0, y := 0, z := 0 }
      = { x := 0, y := 0, z := 0 } ∧
    (¬ sensekit.Vector3f.length Real.sqrt
          ({ x := 3, y := 4, z := 0 } : sensekit.Vector3f ℝ) < 1 / 1000000000 →
      sensekit.Vector3f.length Real.sqrt
          ({ x := 3, y := 4, z := 0 } : sensekit.Vector3f ℝ) ≠ 0 ∧
      sensekit.Vector3f.normalize Real.sqrt ({ x := 3, y := 4, z := 0 } : sensekit.Vector3f ℝ) =
        { x := 3 / sensekit.Vector3f.length Real.sqrt
              ({ x := 3, y := 4, z := 0 } : sensekit.Vector3f ℝ)
          y := 4 / sensekit.Vector3f.length Real.sqrt
              ({ x := 3, y := 4, z := 0 } : sensekit.Vector3f ℝ)
          z := 0 / sensekit.Vector3f.length Real.sqrt
              ({ x := 3, y := 4, z := 0 } : sensekit.Vector3f ℝ) } ∧
      sensekit.Vector3f.length_squared (sensekit.Vector3f.normalize Real.sqrt
          ({ x := 3, y := 4, z := 0 } : sensekit.Vector3f ℝ)) = 1) ∧
    sensekit.Vector3f.normalize Real.sqrt (sensekit.Vector3f.normalize Real.sqrt
        ({ x := 3, y := 4, z := 0 } : sensekit.Vector3f ℝ))
      = sensekit.Vector3f.normalize Real.sqrt
          ({ x := 3, y := 4, z := 0 } : sensekit.Vector3f ℝ)) := by
  have h5 : sensekit.Vector3f.length Real.sqrt
      ({ x := 3, y := 4, z := 0 } : sensekit.Vector3f ℝ) = 5 := by
    unfold sensekit.Vector3f.length
    dsimp only
    rw [show ((3 : ℝ) * 3 + 4 * 4 + 0 * 0) = 5 * 5 by norm_num]
    exact Real.sqrt_mul_self (by norm_num)
  refine ⟨⟨h5, ?_⟩, normalize_over_the_reals { x := 3, y := 4, z := 0 }⟩
  rw [h5]
  norm_num
